import Mathlib

/-!
Verification development for the OxCLang compiler front end
(src/Lexer/delimiters.py, lexer.py, parser.py, semantic.py).

The Python modules are shallowly embedded: every class becomes a structure,
every method a function on that structure, and `self`-mutation becomes
explicit state passing.  Python strings are `String`, characters are
`Option Char` (Python's `''` sentinel for end of input is `none`), dicts
are association lists, and unbounded `while` loops are written with an
explicit fuel argument that is always instantiated with a bound that
exceeds the number of iterations the loop can make (each iteration
consumes at least one character / one unit of structure).
-/

set_option maxRecDepth 20000

namespace OxC

/-! ### Python character predicates (ASCII fragment)

The source texts handled in this development are ASCII, where Python's
`str.isalpha`, `isdigit`, `isalnum` and `isspace` coincide with the
definitions below. -/

def pyIsSpace (c : Char) : Bool :=
  c = ' ' ∨ c = '\t' ∨ c = '\n' ∨ c = '\r' ∨ c = '\x0b' ∨ c = '\x0c'

def pyIsDigit (c : Char) : Bool := '0' ≤ c ∧ c ≤ '9'

def pyIsAlpha (c : Char) : Bool := ('a' ≤ c ∧ c ≤ 'z') ∨ ('A' ≤ c ∧ c ≤ 'Z')

def pyIsAlnum (c : Char) : Bool := pyIsAlpha c || pyIsDigit c

/-- Truthiness of a Python character value: `''` (here `none`) is falsy. -/
def oTruthy : Option Char → Bool
  | none => false
  | some _ => true

def oIsSpace : Option Char → Bool
  | none => false
  | some c => pyIsSpace c

def oIsDigit : Option Char → Bool
  | none => false
  | some c => pyIsDigit c

def oIsAlpha : Option Char → Bool
  | none => false
  | some c => pyIsAlpha c

def oIsAlnum : Option Char → Bool
  | none => false
  | some c => pyIsAlnum c

/-- Rendering of a peeked character inside an f-string: `''` prints as the
empty string. -/
def ocs : Option Char → String
  | none => ""
  | some c => c.toString

/-- Membership of a (possibly empty) character in a literal character class,
Python's `char in "..."`. -/
def oMem (c : Option Char) (cls : List Char) : Bool :=
  match c with
  | none => false
  | some c => cls.contains c

/-! ### delimiters.py -/

/-- `nozenum ∪ {'0'}` and the operator classes of delimiters.py. -/
def operatorChars : List Char := ['+', '-', '*', '/', '%', '<', '>', '&', '|', '=', '!']

/-- Modelled from the spec: `lexer.py` imports `wspace_dlm` from
`delimiters.py`, but `delimiters.py` does not define a function of that
name; it defines the otherwise-unused `spc_only_dlm`, whose body is the
pure-whitespace follow-delimiter the spec describes for keywords that
"require pure whitespace".  `wspace_dlm` is therefore modelled with that
body: end of input or a whitespace character. -/
def wspace_dlm : Option Char → Bool
  | none => true
  | some c => pyIsSpace c

def fun_dlm : Option Char → Bool
  | none => true
  | some c => pyIsSpace c || c = '('

def term_dlm : Option Char → Bool
  | none => true
  | some c => pyIsSpace c || c = '\n' || pyIsAlpha c || c = '}'

def num_dlm : Option Char → Bool
  | none => true
  | some c => pyIsSpace c || operatorChars.contains c || c = '\n' || [',', '~', ')', ']', '}', ':'].contains c

def singq_dlm : Option Char → Bool
  | none => true
  | some c => pyIsSpace c || c = '=' || [',', '~', ')', '}', ':'].contains c

def doubq_dlm : Option Char → Bool
  | none => true
  | some c => pyIsSpace c || c = '=' || [',', '~', '+', ')', '}'].contains c

def bool_dlm : Option Char → Bool
  | none => true
  | some c => pyIsSpace c || ['~', ',', ')'].contains c || ['&', '|'].contains c

def id_dlm : Option Char → Bool
  | none => true
  | some c => pyIsSpace c || operatorChars.contains c || c = '\n' || ['(', ')', ',', '.', '~', '[', ']', '{', '}'].contains c

def ass_dlm : Option Char → Bool
  | none => true
  | some c => pyIsSpace c || pyIsAlnum c || ['(', '{', '-'].contains c

def equal_dlm : Option Char → Bool
  | none => true
  | some c => pyIsSpace c || pyIsAlnum c || ['(', '"', '{', '-'].contains c

def not_dlm : Option Char → Bool
  | none => true
  | some c => pyIsAlpha c || c = '('

def eqto_dlm : Option Char → Bool
  | none => true
  | some c => pyIsSpace c || pyIsAlnum c || ['"', '\'', '(', '-'].contains c

def rel_dlm : Option Char → Bool
  | none => true
  | some c => pyIsSpace c || pyIsAlnum c || ['-', '(', '\''].contains c

def log_dlm : Option Char → Bool
  | none => true
  | some c => pyIsSpace c || pyIsAlnum c || ['-', '('].contains c

def do_dlm : Option Char → Bool
  | none => true
  | some c => pyIsSpace c || c = '{'

def ctrl_dlm : Option Char → Bool
  | none => true
  | some c => pyIsSpace c || c = '~'

def colon_dlm : Option Char → Bool
  | none => true
  | some c => pyIsSpace c || pyIsAlpha c || c = '\n'

def strm_dlm : Option Char → Bool
  | none => true
  | some c => pyIsSpace c || c = ':'

def arith_dlm : Option Char → Bool
  | none => true
  | some c => pyIsSpace c || pyIsAlnum c || ['(', '\'', '-'].contains c

def amper_dlm : Option Char → Bool
  | none => true
  | some c => pyIsSpace c || ['"', '\''].contains c

def sub_dlm : Option Char → Bool
  | none => true
  | some c => pyIsSpace c || pyIsAlnum c || ['(', '\''].contains c

def unary_dlm : Option Char → Bool
  | none => true
  | some c => pyIsSpace c || pyIsAlpha c || ['~', ')'].contains c

def comma_dlm : Option Char → Bool
  | none => true
  | some c => pyIsSpace c || pyIsAlnum c || ['"', '\'', '-', '{'].contains c

def closecurl_dlm : Option Char → Bool
  | none => true
  | some c => pyIsSpace c || pyIsAlpha c || ['~', '}', ','].contains c || c = '\n'

def closepare_dlm : Option Char → Bool
  | none => true
  | some c => pyIsSpace c || operatorChars.contains c || c = '\n' || ['~', '}', '{', ')', ']', ','].contains c

def closesqua_dlm : Option Char → Bool
  | none => true
  | some c => pyIsSpace c || operatorChars.contains c || [',', '~', ')', '['].contains c

def opencurl_dlm : Option Char → Bool
  | none => true
  | some c => pyIsSpace c || pyIsAlnum c || c = '\n' || ['"', '\'', '}', '{'].contains c

def openpare_dlm : Option Char → Bool
  | none => true
  | some c => pyIsSpace c || pyIsAlnum c || c = '\n' || ['"', '\'', '(', ')', '-', '!'].contains c

def opensqua_dlm : Option Char → Bool
  | none => true
  | some c => pyIsSpace c || pyIsAlnum c || ['(', ']'].contains c

/-! ### lexer.py: Token and Lexer state -/

structure Token where
  type : String
  value : String
  line : Nat
  column : Nat
  deriving DecidableEq, Repr

/-- `Token.is_error` is set in `Token.__init__` as `type == 'ERROR'`. -/
def Token.is_error (t : Token) : Bool := t.type == "ERROR"

structure Lexer where
  source_code : List Char
  position : Nat
  line : Nat
  column : Nat
  tokens : List Token
  id_counter : Nat
  id_map : List (String × String)
  deriving Repr

def Lexer.init (src : String) : Lexer :=
  { source_code := src.data, position := 0, line := 1, column := 1,
    tokens := [], id_counter := 0, id_map := [] }

def MAX_INT : Nat := 9999999999

def MAX_FLOAT : Nat := 10

def MAX_FLOAT_POINT : Nat := 6

def Lexer.peek (s : Lexer) (offset : Nat := 0) : Option Char :=
  s.source_code.get? (s.position + offset)

/-- Inner loop of `peek_backwards(skip_whitespace=True)`: walk `pos`
downwards, returning the first non-whitespace character. -/
def skipBack (src : List Char) : Nat → Option Char
  | 0 =>
    match src.get? 0 with
    | some c => if ¬ pyIsSpace c then some c else none
    | none => none
  | p + 1 =>
    match src.get? (p + 1) with
    | some c => if ¬ pyIsSpace c then some c else skipBack src p
    | none => skipBack src p

def Lexer.peek_backwards (s : Lexer) (offset : Nat := 1) (skip_whitespace : Bool := false) : Option Char :=
  if skip_whitespace then
    if s.position < offset then none
    else skipBack s.source_code (s.position - offset)
  else
    if s.position < offset then none
    else s.source_code.get? (s.position - offset)

def Lexer.advance (s : Lexer) : Option Char × Lexer :=
  match s.source_code.get? s.position with
  | some c =>
    if c = '\n' then
      (some c, { s with position := s.position + 1, line := s.line + 1, column := 1 })
    else
      (some c, { s with position := s.position + 1, column := s.column + 1 })
  | none => (none, s)

def Lexer.adv (s : Lexer) : Lexer := s.advance.2

def Lexer.error (s : Lexer) (message : String) (line column : Nat) : Lexer :=
  { s with tokens := s.tokens ++ [⟨"ERROR", message, line, column⟩] }

def Lexer.addTok (s : Lexer) (ty val : String) (line column : Nat) : Lexer :=
  { s with tokens := s.tokens ++ [⟨ty, val, line, column⟩] }

def Lexer.continues_as_identifier (s : Lexer) : Bool :=
  oTruthy s.peek && (oIsAlnum s.peek || s.peek == some '_')

def Lexer.check_keyword_delimiter (s : Lexer) (keyword_name : String)
    (delimiter_func : Option Char → Bool)
    (saved_position saved_line saved_column start_line start_col : Nat) : Bool × Lexer :=
  if s.continues_as_identifier then
    (false, { s with position := saved_position, line := saved_line, column := saved_column })
  else if delimiter_func s.peek then
    (true, s.addTok keyword_name keyword_name start_line start_col)
  else
    match s.peek with
    | none =>
      (true, s.error ("expecting a valid delimiter: " ++ keyword_name) s.line s.column)
    | some c =>
      (true, s.error ("invalid character after '" ++ keyword_name ++ "' keyword: " ++ c.toString) s.line s.column)

/-- Consume an exact sequence of characters (the straight-line `advance`
chains of `td_keyword`); `none` when some expected character is absent. -/
def Lexer.consumeChars : Lexer → List Char → Option Lexer
  | s, [] => some s
  | s, c :: cs => if s.peek = some c then Lexer.consumeChars s.adv cs else none

/-- One keyword alternative of `td_keyword`: consume the remaining spelling
from `s` and finish with `check_keyword_delimiter`; any failed character
test falls through to the common rewind (`s0`, since `advance` only
touches position/line/column). -/
def Lexer.kwBranch (s0 s : Lexer) (rest : List Char) (kw : String)
    (dlm : Option Char → Bool) : Bool × Lexer :=
  match s.consumeChars rest with
  | some s' => s'.check_keyword_delimiter kw dlm s0.position s0.line s0.column s0.line s0.column
  | none => (false, s0)

-- TRANSITION DIAGRAM: Keywords/Reserved Words
def Lexer.td_keyword (s0 : Lexer) : Bool × Lexer :=
  match s0.peek with
  | none => (false, s0)
  | some ch =>
    if ¬ pyIsAlpha ch then (false, s0)
    -- 'a' keywords: air, atmosphere
    else if ch = 'a' then
      let s1 := s0.adv
      if s1.peek = some 'i' then s0.kwBranch s1 ['i', 'r'] "air" wspace_dlm
      else if s1.peek = some 't' then s0.kwBranch s1 "tmosphere".data "atmosphere" fun_dlm
      else (false, s0)
    -- 'b' keywords: bool
    else if ch = 'b' then s0.kwBranch s0.adv "ool".data "bool" wspace_dlm
    -- 'c' keywords: case, char, cycle
    else if ch = 'c' then
      let s1 := s0.adv
      if s1.peek = some 'a' then s0.kwBranch s1 "ase".data "case" wspace_dlm
      else if s1.peek = some 'h' then s0.kwBranch s1 "har".data "char" wspace_dlm
      else if s1.peek = some 'y' then s0.kwBranch s1 "ycle".data "cycle" fun_dlm
      else (false, s0)
    -- 'd' keywords: diffuse, do
    else if ch = 'd' then
      let s1 := s0.adv
      if s1.peek = some 'i' then s0.kwBranch s1 "iffuse".data "diffuse" strm_dlm
      else if s1.peek = some 'o' then s0.kwBranch s1 "o".data "do" do_dlm
      else (false, s0)
    -- 'e' keywords: echo, else/elseif, exhale
    else if ch = 'e' then
      let s1 := s0.adv
      if s1.peek = some 'c' then s0.kwBranch s1 "cho".data "echo" fun_dlm
      else if s1.peek = some 'l' then
        match s1.consumeChars "lse".data with
        | none => (false, s0)
        | some s2 =>
          if do_dlm s2.peek then (true, s2.addTok "else" "else" s0.line s0.column)
          else if s2.peek = some 'i' then
            match s2.adv.consumeChars ['f'] with
            | some s3 =>
              s3.check_keyword_delimiter "elseif" fun_dlm s0.position s0.line s0.column s0.line s0.column
            | none => (false, s0)
          else
            let c := ocs s2.peek
            (true, s2.error ("invalid character after 'else' keyword: " ++ c) s2.line s2.column)
      else if s1.peek = some 'x' then s0.kwBranch s1 "xhale".data "exhale" fun_dlm
      else (false, s0)
    -- 'f' keywords: float, flow
    else if ch = 'f' then
      match s0.adv.consumeChars "lo".data with
      | none => (false, s0)
      | some s2 =>
        if s2.peek = some 'a' then s0.kwBranch s2 "at".data "float" wspace_dlm
        else if s2.peek = some 'w' then s0.kwBranch s2 "w".data "flow" ctrl_dlm
        else (false, s0)
    -- 'g' keywords: gasp, gust
    else if ch = 'g' then
      let s1 := s0.adv
      if s1.peek = some 'a' then s0.kwBranch s1 "asp".data "gasp" wspace_dlm
      else if s1.peek = some 'u' then s0.kwBranch s1 "ust".data "gust" wspace_dlm
      else (false, s0)
    -- 'h' keywords: horizon
    else if ch = 'h' then s0.kwBranch s0.adv "orizon".data "horizon" fun_dlm
    -- 'i' keywords: if, inhale, int
    else if ch = 'i' then
      let s1 := s0.adv
      if s1.peek = some 'f' then s0.kwBranch s1 "f".data "if" fun_dlm
      else if s1.peek = some 'n' then
        let s2 := s1.adv
        if s2.peek = some 'h' then s0.kwBranch s2 "hale".data "inhale" fun_dlm
        else if s2.peek = some 't' then s0.kwBranch s2 "t".data "int" wspace_dlm
        else (false, s0)
      else (false, s0)
    -- 'n' keywords: naur
    else if ch = 'n' then s0.kwBranch s0.adv "aur".data "naur" bool_dlm
    -- 'r' keywords: resist
    else if ch = 'r' then s0.kwBranch s0.adv "esist".data "resist" ctrl_dlm
    -- 's' keywords: sizeOf, stream, string
    else if ch = 's' then
      let s1 := s0.adv
      if s1.peek = some 'i' then s0.kwBranch s1 "izeOf".data "sizeOf" fun_dlm
      else if s1.peek = some 't' then
        let s2 := s1.adv
        if s2.peek = some 'r' then
          let s3 := s2.adv
          if s3.peek = some 'e' then s0.kwBranch s3 "eam".data "stream" fun_dlm
          else if s3.peek = some 'i' then s0.kwBranch s3 "ing".data "string" wspace_dlm
          else (false, s0)
        else (false, s0)
      else (false, s0)
    -- 't' keywords: toBool, toChar, toFall, toFloat, toInt, toRise, toString
    else if ch = 't' then
      let s1 := s0.adv
      if s1.peek = some 'o' then
        let s2 := s1.adv
        if s2.peek = some 'B' then s0.kwBranch s2 "Bool".data "toBool" fun_dlm
        else if s2.peek = some 'C' then s0.kwBranch s2 "Char".data "toChar" fun_dlm
        else if s2.peek = some 'F' then
          let s3 := s2.adv
          if s3.peek = some 'a' then s0.kwBranch s3 "all".data "toFall" fun_dlm
          else if s3.peek = some 'l' then s0.kwBranch s3 "loat".data "toFloat" fun_dlm
          else (false, s0)
        else if s2.peek = some 'I' then s0.kwBranch s2 "Int".data "toInt" fun_dlm
        else if s2.peek = some 'R' then s0.kwBranch s2 "Rise".data "toRise" fun_dlm
        else if s2.peek = some 'S' then s0.kwBranch s2 "String".data "toString" fun_dlm
        else (false, s0)
      else (false, s0)
    -- 'u' keywords: universal
    else if ch = 'u' then s0.kwBranch s0.adv "niversal".data "universal" wspace_dlm
    -- 'v' keywords: vacuum
    else if ch = 'v' then s0.kwBranch s0.adv "acuum".data "vacuum" wspace_dlm
    -- 'w' keywords: wind, waft
    else if ch = 'w' then
      let s1 := s0.adv
      if s1.peek = some 'i' then s0.kwBranch s1 "ind".data "wind" wspace_dlm
      else if s1.peek = some 'a' then s0.kwBranch s1 "aft".data "waft" fun_dlm
      else (false, s0)
    -- 'y' keywords: yuh
    else if ch = 'y' then s0.kwBranch s0.adv "uh".data "yuh" bool_dlm
    else (false, s0)

/-- Error pair used by the operator diagrams whose two messages are both
reported at the current line/column. -/
def Lexer.opErrCur (s : Lexer) (op : String) : Bool × Lexer :=
  match s.peek with
  | none => (true, s.error ("expecting a valid delimiter after '" ++ op ++ "'") s.line s.column)
  | some c => (true, s.error ("invalid character after '" ++ op ++ "': " ++ c.toString) s.line s.column)

/-- Error pair used by the operator diagrams that report the
missing-delimiter case at the current position and the invalid-character
case at the token's start position. -/
def Lexer.opErrStart (s : Lexer) (op : String) (startL startC : Nat) : Bool × Lexer :=
  match s.peek with
  | none => (true, s.error ("expecting a valid delimiter after '" ++ op ++ "'") s.line s.column)
  | some c => (true, s.error ("invalid character after '" ++ op ++ "': " ++ c.toString) startL startC)

/-- `while self.peek() and self.peek() != '\n': self.advance()` -/
def lineCommentLoop : Nat → Lexer → Lexer
  | 0, s => s
  | fuel + 1, s =>
    match s.peek with
    | none => s
    | some c => if c = '\n' then s else lineCommentLoop fuel s.adv

/-- `while self.peek() and not (self.peek() == '~' and self.peek(1) == '/')` -/
def blockCommentLoop : Nat → Lexer → Lexer
  | 0, s => s
  | fuel + 1, s =>
    match s.peek with
    | none => s
    | some _ =>
      if s.peek = some '~' ∧ s.peek 1 = some '/' then s
      else blockCommentLoop fuel s.adv

/-- Fuel that dominates any remaining-input loop of the lexer: each
iteration consumes at least one character. -/
def Lexer.lexFuel (s : Lexer) : Nat := s.source_code.length + 1

-- TD - Operator/Structure
def Lexer.td_operator_structure (s0 : Lexer) : Bool × Lexer :=
  let startL := s0.line
  let startC := s0.column
  match s0.peek with
  | none => (false, s0)
  | some ch =>
    if ¬ ("+-*/%(){}[]><=!\\:.~,@&|".data.contains ch) then (false, s0)
    else if ch = '+' then
      let s1 := s0.adv
      if arith_dlm s1.peek then (true, s1.addTok "+" "+" startL startC)
      else if s1.peek = some '+' then
        let s2 := s1.adv
        if unary_dlm s2.peek then (true, s2.addTok "++" "++" startL startC)
        else s2.opErrCur "++"
      else if s1.peek = some '=' then
        let s2 := s1.adv
        if ass_dlm s2.peek then (true, s2.addTok "+=" "+=" startL startC)
        else s2.opErrCur "+="
      else s1.opErrCur "+"
    else if ch = '-' then
      let s1 := s0.adv
      if sub_dlm s1.peek then (true, s1.addTok "-" "-" startL startC)
      else if s1.peek = some '-' then
        let s2 := s1.adv
        if unary_dlm s2.peek then (true, s2.addTok "--" "--" startL startC)
        else s2.opErrCur "--"
      else if s1.peek = some '=' then
        let s2 := s1.adv
        if ass_dlm s2.peek then (true, s2.addTok "-=" "-=" startL startC)
        else s2.opErrCur "-="
      else s1.opErrCur "-"
    else if ch = '*' then
      let s1 := s0.adv
      if arith_dlm s1.peek then (true, s1.addTok "*" "*" startL startC)
      else if s1.peek = some '=' then
        let s2 := s1.adv
        if ass_dlm s2.peek then (true, s2.addTok "*=" "*=" startL startC)
        else s2.opErrCur "*="
      else s1.opErrCur "*"
    else if ch = '/' then
      let s1 := s0.adv
      if arith_dlm s1.peek then (true, s1.addTok "/" "/" startL startC)
      else if s1.peek = some '=' then
        let s2 := s1.adv
        if ass_dlm s2.peek then (true, s2.addTok "/=" "/=" startL startC)
        else s2.opErrCur "/="
      else if s1.peek = some '/' then
        (true, lineCommentLoop s1.lexFuel s1.adv)
      else if s1.peek = some '~' then
        let s2 := blockCommentLoop s1.lexFuel s1.adv
        if s2.peek = some '~' ∧ s2.peek 1 = some '/' then (true, s2.adv.adv)
        else (true, s2)
      else s1.opErrCur "/"
    else if ch = '%' then
      let s1 := s0.adv
      if arith_dlm s1.peek then (true, s1.addTok "%" "%" s1.line s1.column)
      else if s1.peek = some '=' then
        let s2 := s1.adv
        if ass_dlm s2.peek then (true, s2.addTok "%=" "%=" s2.line s2.column)
        else s2.opErrStart "%=" startL startC
      else s1.opErrStart "%" startL startC
    -- structure - (),{},[]
    else if ch = '(' then
      let s1 := s0.adv
      if openpare_dlm s1.peek then (true, s1.addTok "(" "(" s1.line s1.column)
      else s1.opErrStart "(" startL startC
    else if ch = ')' then
      let s1 := s0.adv
      if closepare_dlm s1.peek then (true, s1.addTok ")" ")" s1.line s1.column)
      else s1.opErrStart ")" startL startC
    else if ch = '{' then
      let s1 := s0.adv
      if opencurl_dlm s1.peek then (true, s1.addTok "\x7b" "\x7b" s1.line s1.column)
      else s1.opErrStart "\x7b" startL startC
    else if ch = '}' then
      let s1 := s0.adv
      if closecurl_dlm s1.peek then (true, s1.addTok "\x7d" "\x7d" s1.line s1.column)
      else s1.opErrStart "\x7d" startL startC
    else if ch = '[' then
      let s1 := s0.adv
      if opensqua_dlm s1.peek then (true, s1.addTok "[" "[" s1.line s1.column)
      else s1.opErrStart "[" startL startC
    else if ch = ']' then
      let s1 := s0.adv
      if closesqua_dlm s1.peek then (true, s1.addTok "]" "]" s1.line s1.column)
      else s1.opErrStart "]" startL startC
    -- operators - >, >=, <, <=, =, ==, !, !=
    else if ch = '>' then
      let s1 := s0.adv
      if rel_dlm s1.peek then (true, s1.addTok ">" ">" s1.line s1.column)
      else if s1.peek = some '=' then
        let s2 := s1.adv
        if rel_dlm s2.peek then (true, s2.addTok ">=" ">=" s2.line s2.column)
        else s2.opErrStart ">=" startL startC
      else s1.opErrStart ">" startL startC
    else if ch = '<' then
      let s1 := s0.adv
      if rel_dlm s1.peek then (true, s1.addTok "<" "<" s1.line s1.column)
      else if s1.peek = some '=' then
        let s2 := s1.adv
        if rel_dlm s2.peek then (true, s2.addTok "<=" "<=" s2.line s2.column)
        else s2.opErrStart "<=" startL startC
      else s1.opErrStart "<" startL startC
    else if ch = '=' then
      let s1 := s0.adv
      if equal_dlm s1.peek then (true, s1.addTok "=" "=" s1.line s1.column)
      else if s1.peek = some '=' then
        let s2 := s1.adv
        if eqto_dlm s2.peek then (true, s2.addTok "==" "==" s2.line s2.column)
        else s2.opErrStart "==" startL startC
      else s1.opErrStart "=" startL startC
    else if ch = '!' then
      let s1 := s0.adv
      if not_dlm s1.peek then (true, s1.addTok "!" "!" s1.line s1.column)
      else if s1.peek = some '=' then
        let s2 := s1.adv
        if eqto_dlm s2.peek then (true, s2.addTok "!=" "!=" s2.line s2.column)
        else s2.opErrStart "!=" startL startC
      else s1.opErrStart "!" startL startC
    else if ch = '&' then
      let s1 := s0.adv
      if amper_dlm s1.peek then (true, s1.addTok "&" "&" s1.line s1.column)
      else if s1.peek = some '&' then
        let s2 := s1.adv
        if log_dlm s2.peek then (true, s2.addTok "&&" "&&" s2.line s2.column)
        else s2.opErrStart "&&" startL startC
      else s1.opErrStart "&" startL startC
    else if ch = '|' then
      let s1 := s0.adv
      if s1.peek = some '|' then
        let s2 := s1.adv
        if log_dlm s2.peek then (true, s2.addTok "||" "||" s2.line s2.column)
        else s2.opErrStart "||" startL startC
      else
        (true, s1.error "'|' is not recognized. (Did you mean '||'?)" s1.line s1.column)
    -- structure - :, ., ~, ,
    else if ch = ':' then
      let s1 := s0.adv
      if colon_dlm s1.peek then (true, s1.addTok ":" ":" s1.line s1.column)
      else s1.opErrStart ":" startL startC
    else if ch = '.' then
      let s1 := s0.adv
      if oIsAlpha s1.peek then (true, s1.addTok "." "." s1.line s1.column)
      else s1.opErrStart "." startL startC
    else if ch = '~' then
      let s1 := s0.adv
      if term_dlm s1.peek then (true, s1.addTok "~" "~" s1.line s1.column)
      else s1.opErrStart "~" startL startC
    else if ch = ',' then
      let s1 := s0.adv
      if comma_dlm s1.peek then (true, s1.addTok "," "," s1.line s1.column)
      else s1.opErrStart "," startL startC
    -- '\' and '@' pass the character-class test but match no branch:
    -- the Python function falls off the end and returns None (falsy),
    -- without consuming anything.
    else (false, s0)

/-- Content loop shared by `td_char`/`td_string`:
`while self.peek() and self.peek() not in '\'"\n'`, accumulating only
characters with `ord < 128`. -/
def quoteContentLoop : Nat → String → Lexer → String × Lexer
  | 0, content, s => (content, s)
  | fuel + 1, content, s =>
    match s.peek with
    | none => (content, s)
    | some c =>
      if c = '\'' ∨ c = '"' ∨ c = '\n' then (content, s)
      else if c.toNat < 128 then quoteContentLoop fuel (content.push c) s.adv
      else quoteContentLoop fuel content s.adv

-- TRANSITION DIAGRAM: Character Literal
def Lexer.td_char (s0 : Lexer) : Bool × Lexer :=
  if s0.peek ≠ some '\'' then (false, s0)
  else
    let startL := s0.line
    let startC := s0.column
    let s1 := s0.adv
    let cs2 := quoteContentLoop s1.lexFuel "" s1
    let content := cs2.1
    let s2 := cs2.2
    if s2.peek = some '\'' then
      let s3 := s2.adv
      if content.length = 0 ∨ content.length = 1 then
        if singq_dlm s3.peek then
          (true, s3.addTok "char_lit" ("'" ++ content ++ "'") startL startC)
        else
          match s3.peek with
          | none =>
            (true, s3.error ("expecting a valid delimiter: '" ++ content ++ "'") s3.line s3.column)
          | some '\n' =>
            (true, s3.error ("expecting a valid delimiter: '" ++ content ++ "'") s3.line s3.column)
          | some c =>
            (true, s3.error ("invalid character after '" ++ content ++ "': " ++ c.toString) s3.line s3.column)
      else
        if singq_dlm s3.peek then
          (true, s3.error ("expected none or exactly one character between single quotes: '" ++ content ++ "'") startL startC)
        else
          let s4 := s3.error ("expected none or exactly one character between single quotes: '" ++ content ++ "'") startL startC
          match s4.peek with
          | none =>
            (true, s4.error ("expecting a valid delimiter: '" ++ content ++ "'") s4.line s4.column)
          | some '\n' =>
            (true, s4.error ("expecting a valid delimiter: '" ++ content ++ "'") s4.line s4.column)
          | some c =>
            (true, s4.error ("invalid character after '" ++ content ++ "': " ++ c.toString) s4.line s4.column)
    else
      if content = "" then (true, s2.error "unterminated single quote" startL startC)
      else (true, s2.error ("unterminated single quote: '" ++ content) startL startC)

-- TRANSITION DIAGRAM: String Literal
def Lexer.td_string (s0 : Lexer) : Bool × Lexer :=
  if s0.peek ≠ some '"' then (false, s0)
  else
    let startL := s0.line
    let startC := s0.column
    let s1 := s0.adv
    let cs2 := quoteContentLoop s1.lexFuel "" s1
    let content := cs2.1
    let s2 := cs2.2
    if s2.peek = some '"' then
      let s3 := s2.adv
      if doubq_dlm s3.peek then
        -- drop an empty literal when one of the five most recently
        -- emitted tokens is already a string_lit
        if content ≠ "" ∨ ¬ ((s3.tokens.drop (s3.tokens.length - 5)).any (fun t => t.type == "string_lit")) then
          (true, s3.addTok "string_lit" ("\"" ++ content ++ "\"") startL startC)
        else (true, s3)
      else
        match s3.peek with
        | none =>
          (true, s3.error ("expecting a valid delimiter: \"" ++ content ++ "\"") s3.line s3.column)
        | some '\n' =>
          (true, s3.error ("expecting a valid delimiter: \"" ++ content ++ "\"") s3.line s3.column)
        | some c =>
          (true, s3.error ("invalid character after \"" ++ content ++ "\": " ++ c.toString) s3.line s3.column)
    else
      if content = "" then (true, s2.error "unterminated double quote" startL startC)
      else (true, s2.error ("unterminated double quote: \"" ++ content) startL startC)

/-- `while self.peek() and (self.peek().isalnum() or self.peek() == '_')` -/
def identContentLoop : Nat → String → Lexer → String × Lexer
  | 0, content, s => (content, s)
  | fuel + 1, content, s =>
    match s.peek with
    | none => (content, s)
    | some c =>
      if pyIsAlnum c ∨ c = '_' then identContentLoop fuel (content.push c) s.adv
      else (content, s)

def lookupAssoc (m : List (String × String)) (k : String) : Option String :=
  (m.find? (fun kv => kv.1 == k)).map Prod.snd

-- TRANSITION DIAGRAM: Identifiers
def Lexer.td_identifier (s0 : Lexer) : Bool × Lexer :=
  match s0.peek with
  | none => (false, s0)
  | some first_char =>
    if ¬ pyIsAlpha first_char then (false, s0)
    else
      let startL := s0.line
      let startC := s0.column
      let cs1 := identContentLoop s0.lexFuel "" s0
      let content := cs1.1
      let s1 := cs1.2
      if content.length > 15 then
        (true, s1.error ("'" ++ content ++ "' exceeds max length of 15 characters") startL startC)
      else if ¬ id_dlm s1.peek then
        match s1.peek with
        | none =>
          (true, s1.error ("expecting a valid delimiter: " ++ content) s1.line s1.column)
        | some '\n' =>
          (true, s1.error ("expecting a valid delimiter: " ++ content) s1.line s1.column)
        | some c =>
          (true, s1.error ("invalid character after '" ++ content ++ "': " ++ c.toString) s1.line s1.column)
      else
        match lookupAssoc s1.id_map content with
        | some token_id => (true, s1.addTok token_id content startL startC)
        | none =>
          let ctr := s1.id_counter + 1
          let token_id := "id" ++ toString ctr
          let s2 := { s1 with id_counter := ctr, id_map := s1.id_map ++ [(content, token_id)] }
          (true, s2.addTok token_id content startL startC)

-- TRANSITION DIAGRAM: Invalid Identifier (starts with underscore)
def Lexer.td_invalid_identifier (s0 : Lexer) : Bool × Lexer :=
  if s0.peek ≠ some '_' then (false, s0)
  else
    let startL := s0.line
    let startC := s0.column
    let cs1 := identContentLoop s0.adv.lexFuel "_" s0.adv
    (true, cs1.2.error ("invalid leading character (underscore): " ++ cs1.1) startL startC)

/-- `while self.peek() and self.peek().isdigit(): number += self.advance()` -/
def numberDigitLoop : Nat → String → Lexer → String × Lexer
  | 0, number, s => (number, s)
  | fuel + 1, number, s =>
    match s.peek with
    | none => (number, s)
    | some c =>
      if pyIsDigit c then numberDigitLoop fuel (number.push c) s.adv
      else (number, s)

/-- The dot-consuming loop of `td_number`: consume digits and dots,
counting dots and recording whether a digit follows the first dot. -/
def numberDotLoop : Nat → String → Nat → Bool → Lexer → String × Nat × Bool × Lexer
  | 0, seq, dots, hasd, s => (seq, dots, hasd, s)
  | fuel + 1, seq, dots, hasd, s =>
    match s.peek with
    | none => (seq, dots, hasd, s)
    | some c =>
      if pyIsDigit c ∨ c = '.' then
        if c = '.' then numberDotLoop fuel (seq.push c) (dots + 1) hasd s.adv
        else if pyIsDigit c ∧ dots = 1 then numberDotLoop fuel (seq.push c) dots true s.adv
        else numberDotLoop fuel (seq.push c) dots hasd s.adv
      else (seq, dots, hasd, s)

/-- Python `str.split('.')`. -/
def splitDotsAux : List Char → List Char → List String
  | [], acc => [String.mk acc.reverse]
  | '.' :: rest, acc => String.mk acc.reverse :: splitDotsAux rest []
  | c :: rest, acc => splitDotsAux rest (c :: acc)

def splitDots (s : String) : List String := splitDotsAux s.data []

/-- Python `str.lstrip('+-')`. -/
def lstripSign (s : String) : String :=
  String.mk (s.data.dropWhile (fun c => c = '+' ∨ c = '-'))

/-- Common tail of `td_number` after the digit/dot scanning: the
mixed-letters check, the magnitude bounds, and delimiter validation. -/
def Lexer.numTail (s : Lexer) (number : String) (has_dot : Bool) (startL startC : Nat) : Bool × Lexer :=
  if oTruthy s.peek ∧ (oIsAlpha s.peek ∨ s.peek = some '_') then
    let cs := identContentLoop s.lexFuel "" s
    (true, cs.2.error ("invalid number literal: " ++ number ++ cs.1) startL startC)
  else
    let parts := splitDots number
    let integer_part := lstripSign (parts.headD "")
    if has_dot then
      if integer_part.length > MAX_FLOAT then
        (true, s.error (number ++ " exceeds maximum digits before decimal of " ++ toString MAX_FLOAT) startL startC)
      else
        let decimal_part := (parts.get? 1).getD ""
        if decimal_part.length > MAX_FLOAT_POINT then
          (true, s.error (number ++ " exceeds maximum decimal places of " ++ toString MAX_FLOAT_POINT) startL startC)
        else if num_dlm s.peek then
          (true, s.addTok "float_lit" number startL startC)
        else
          match s.peek with
          | none =>
            (true, s.error ("expecting a valid delimiter: " ++ number) s.line s.column)
          | some '\n' =>
            (true, s.error ("expecting a valid delimiter: " ++ number) s.line s.column)
          | some c =>
            (true, s.error ("invalid character after " ++ number ++ ": " ++ c.toString) startL startC)
    else
      if integer_part.length > (toString MAX_INT).length then
        (true, s.error (number ++ " exceeds maximum of 10 digits") startL startC)
      else if num_dlm s.peek then
        (true, s.addTok "int_lit" number startL startC)
      else
        match s.peek with
        | none =>
          (true, s.error ("expecting a valid delimiter: " ++ number) s.line s.column)
        | some '\n' =>
          (true, s.error ("expecting a valid delimiter: " ++ number) s.line s.column)
        | some c =>
          (true, s.error ("invalid character after " ++ number ++ ": " ++ c.toString) startL startC)

-- TRANSITION DIAGRAM: Number Literal
def Lexer.td_number (s0 : Lexer) : Bool × Lexer :=
  let startL := s0.line
  let startC := s0.column
  let signState : String × Lexer :=
    if s0.peek = some '-' then ("-", s0.adv) else ("", s0)
  let number0 := signState.1
  let s1 := signState.2
  if ¬ oIsDigit s1.peek then
    -- on a consumed sign the position/line/column are restored, which is
    -- exactly the entry state s0
    (false, s0)
  else
    let ds := numberDigitLoop s1.lexFuel number0 s1
    let number1 := ds.1
    let s2 := ds.2
    if s2.peek = some '.' then
      let dl := numberDotLoop s2.lexFuel number1 0 false s2
      let seq := dl.1
      let dots := dl.2.1
      let hasd := dl.2.2.1
      let s3 := dl.2.2.2
      if dots > 1 then
        (true, (s3.error ("invalid number literal with multiple decimal points: " ++ seq) startL startC).error
          ("number not expected after additional dots: " ++ seq) startL startC)
      else if dots = 1 ∧ ¬ hasd then
        (true, s3.error "expected digit after dot (.)" startL startC)
      else
        s3.numTail seq hasd startL startC
    else
      s2.numTail number1 false startL startC

/-- `while self.peek() and self.peek().isspace(): self.advance()` -/
def skipSpacesLoop : Nat → Lexer → Lexer
  | 0, s => s
  | fuel + 1, s =>
    match s.peek with
    | none => s
    | some c => if pyIsSpace c then skipSpacesLoop fuel s.adv else s

/-- One iteration of the main `tokenize` loop (only entered when
`position < len(source_code)`). -/
def Lexer.tokenizeStep (s : Lexer) : Lexer :=
  match s.peek with
  | none => s
  | some ch =>
    let startL := s.line
    let startC := s.column
    if pyIsSpace ch then skipSpacesLoop s.lexFuel s
    else
      let minusDispatch : Option Lexer :=
        if ch = '-' then
          let prev_char := s.peek_backwards 1 true
          if oTruthy prev_char ∧ (oIsAlnum prev_char ∨ oMem prev_char [')', ']', '}']) then
            let r := s.td_operator_structure
            if r.1 then some r.2 else none
          else
            let r1 := s.td_number
            if r1.1 then some r1.2 else
              let r2 := s.td_operator_structure
              if r2.1 then some r2.2 else none
        else none
      match minusDispatch with
      | some s' => s'
      | none =>
        let r1 := s.td_string
        if r1.1 then r1.2 else
        let r2 := s.td_char
        if r2.1 then r2.2 else
        let r3 := s.td_number
        if r3.1 then r3.2 else
        let r4 := s.td_keyword
        if r4.1 then r4.2 else
        let r5 := s.td_identifier
        if r5.1 then r5.2 else
        let r6 := s.td_operator_structure
        if r6.1 then r6.2 else
        let r7 := s.td_invalid_identifier
        if r7.1 then r7.2 else
        let ad := s.advance
        ad.2.error ("\"" ++ ocs ad.1 ++ "\" is not recognized") startL startC

def Lexer.tokenizeLoop : Nat → Lexer → Lexer
  | 0, s => s
  | fuel + 1, s =>
    if s.position < s.source_code.length then Lexer.tokenizeLoop fuel s.tokenizeStep
    else s

-- Main tokenization function
def Lexer.tokenize (s : Lexer) : List Token :=
  (Lexer.tokenizeLoop s.lexFuel { s with tokens := [] }).tokens

/-- `Lexer(source_code).tokenize()` -/
def tokenize (source_code : String) : List Token := (Lexer.init source_code).tokenize

/-! ### parser.py: AST, ParseError, Parser state -/

mutual
/-- A child of an `ASTNode`: another node, a raw Python string leaf
(`'.'`, `'inhale'`, `'exhale'`), Python `None` (stored when a soft-failed
rule returned `None`), or a bound-method object (stored by
`parse_params_tail`, which passes `self.parse_params_dim` without
calling it).  Only `.node` children have a `type` attribute; every
`hasattr(child, 'type')` test in the source is a match on `.node`. -/
inductive Child where
  | node : ASTNode → Child
  | leaf : String → Child
  | pynone : Child
  | pymethod : Child
inductive ASTNode where
  | mk : String → List Child → Option String → ASTNode
end

def ASTNode.type : ASTNode → String
  | .mk t _ _ => t

def ASTNode.children : ASTNode → List Child
  | .mk _ c _ => c

def ASTNode.value : ASTNode → Option String
  | .mk _ _ v => v

/-- Python truthiness of `node.value` (`None` and `''` are falsy). -/
def ASTNode.valueTruthy (n : ASTNode) : Bool :=
  match n.value with
  | none => false
  | some s => s ≠ ""

/-- `ASTNode(type, children=node)` wraps a single node into a list;
`och` converts a rule result (node or Python `None`) into a child. -/
def och : Option ASTNode → Child
  | some n => Child.node n
  | none => Child.pynone

structure ParseError where
  message : String
  line : Nat
  column : Nat
  deriving DecidableEq, Repr

structure Parser where
  tokens : List Token
  position : Nat
  errors : List ParseError
  error_reported_at_position : Int
  deriving Repr

def Parser.initP (tokens : List Token) : Parser :=
  { tokens := tokens, position := 0, errors := [], error_reported_at_position := -1 }

/-- `self.current_token` (kept in sync with `position` by `advance`). -/
def Parser.peekT (p : Parser) : Option Token := p.tokens.get? p.position

/-- `self.peek()`: the current token's type, or `None`. -/
def Parser.peekTy (p : Parser) : Option String := p.peekT.map Token.type

/-- `current in [...]` for an optional token type. -/
def tyIn (c : Option String) (l : List String) : Bool :=
  match c with
  | some s => l.contains s
  | none => false

/-- `current and current.startswith('id')`. -/
def tyIsId (c : Option String) : Bool :=
  match c with
  | some s => "id".data.isPrefixOf s.data
  | none => false

/-- Interpolation of a possibly-`None` token type into an f-string. -/
def optStr : Option String → String
  | none => "None"
  | some s => s

/-- `Parser.error`: deduplicates by stream position — a second failure at
the position of the previous diagnostic is suppressed. -/
def Parser.perror (p : Parser) (message : String) : Parser :=
  if (p.position : Int) = p.error_reported_at_position then p
  else
    let lc : Nat × Nat :=
      match p.peekT with
      | some t => (t.line, t.column)
      | none => (0, 0)
    { p with
      errors := p.errors ++ [ParseError.mk message lc.1 lc.2],
      error_reported_at_position := (p.position : Int) }

/-- `Parser.advance`. -/
def Parser.advanceP (p : Parser) : Parser := { p with position := p.position + 1 }

/-- The parser computations: state passing plus the `StopIteration`
unwind signal (`Except.error`). -/
def PM (α : Type) : Type := Parser → Except Unit α × Parser

def PM.pure {α : Type} (a : α) : PM α := fun p => (.ok a, p)

def PM.bind {α β : Type} (m : PM α) (k : α → PM β) : PM β := fun p =>
  match m p with
  | (.ok a, p') => k a p'
  | (.error e, p') => (.error e, p')

/-- `raise StopIteration`. -/
def PM.raiseStop {α : Type} : PM α := fun p => (.error (), p)

/-- `try: ... except StopIteration: ...` -/
def PM.tryCatch {α : Type} (m : PM α) (h : PM α) : PM α := fun p =>
  match m p with
  | (.error _, p') => h p'
  | r => r

/-- Read the current token type (`self.peek()`). -/
def peekPM : PM (Option String) := fun p => (.ok p.peekTy, p)

/-- Read the current token (`self.current_token`). -/
def curTokPM : PM (Option Token) := fun p => (.ok p.peekT, p)

/-- `self.error(message)` (never raises by itself). -/
def errPM (message : String) : PM Unit := fun p => (.ok (), p.perror message)

/-- `self.match(expected_type)`. -/
def matchPM (expected_type : String) : PM Token := fun p =>
  match p.peekT with
  | none =>
    (.error (), p.perror ("Expected '" ++ expected_type ++ "', but reached end of input"))
  | some t =>
    if t.type = expected_type then (.ok t, p.advanceP)
    else (.error (), p.perror ("Expected '" ++ expected_type ++ "', got '" ++ t.type ++ "'"))

/-- `self.check_id()`. -/
def checkIdPM : PM ASTNode := fun p =>
  match p.peekT with
  | some t =>
    if "id".data.isPrefixOf t.type.data then
      (.ok (ASTNode.mk "identifier" [] (some t.type)), p.advanceP)
    else
      (.error (), p.perror ("Expected 'identifier', got '" ++ t.type ++ "' "))
  | none =>
    (.error (), p.perror "Expected identifier, but reached end of input.")

/-- `Parser.FIRST_PRIMARY`; the same literal list is also repeated in the
FIRST tests of the expression rules. -/
def FIRST_PRIMARY : List String :=
  ["(", "++", "--", "toRise", "toFall", "horizon", "sizeOf",
   "toInt", "toFloat", "toString", "toChar", "toBool", "waft",
   "int_lit", "float_lit", "yuh", "naur", "char_lit", "string_lit", "!"]

def dataTypeList : List String := ["int", "float", "char", "string", "bool"]

/-- `node.children[0].value`, used by the expression-tail error
messages (`rela_sym_node.children[0].value` and similar). -/
def childVal0 (n : ASTNode) : String :=
  match n.children.head? with
  | some (.node m) => (m.value).getD "None"
  | _ => "None"

/-- Soft failure: `self.error(...)` followed by the implicit `return None`. -/
def softErr (m : String) : PM (Option ASTNode) := PM.bind (errPM m) fun _ => PM.pure none

/-- Hard failure: `self.error(...)` followed by `raise StopIteration`. -/
def hardErr {α : Type} (m : String) : PM α := PM.bind (errPM m) fun _ => PM.raiseStop

/-- `op_node.children[0].value` on an optional node, for the
expression-tail guard messages. -/
def ochildVal0 : Option ASTNode → String
  | some x => childVal0 x
  | none => "None"

/-- FIRST set shared by the statement rules. -/
def stmtFirst : List String :=
  ["int", "float", "char", "string", "bool", "gust", "wind", "inhale", "exhale", "++", "--",
   "if", "stream", "cycle", "echo", "do"]

/-- The literal output/value FIRST list (production 96-99 and friends). -/
def outFirst : List String :=
  ["++", "--", "toRise", "toFall", "horizon", "sizeOf", "toInt", "toFloat", "toString",
   "toChar", "toBool", "waft", "int_lit", "float_lit", "yuh", "naur", "char_lit", "string_lit"]

/-- The follow list used by the `dimension`/`col_size` empty productions. -/
def dimFollow : List String :=
  ["~", "++", "--", "=", "+=", "-=", "*=", "/=", "%=",
   "+", "-", "*", "/", "%", "]", ">", "<", ">=", "<=", "==", "!=",
   ",", ")", "||", "&&", "\x7d"]

/-- One constructor per grammar rule function of parser.py
(`parse_structure` becomes `structure_` since `structure` is reserved;
`parse_1d_element`/`parse_2d_element` become `oned_element`/`twod_element`). -/
inductive Rule where
  | program | global_dec | declaration | normal | norm_dec | norm_tail
  | array | arr_element | oned_element | twod_element | element_tail | twod_tail
  | structure_ | struct_tail | struct_tail2 | gust_tail
  | constant | const_dec | const_tail | const_arr | const_1d | const_2d | const_2d_tail | struct_const
  | dimension | row_size | col_size | size | data_type
  | sub_functions | air_func | return_type | params | params_dim | pdim_tail | pdim_size | params_tail
  | body | stmt_list | statement | identifier_stat | id_stat_body | id_stat_tail
  | identifier | id_tail | id_access | unary_op | unary_op2
  | input_output | output | value | output_concat | output_tail
  | assi_op | assignment | expr | logic_expr | or_tail | and_expr | and_tail
  | rela_expr | rela_tail | rela_sym | arith_op1 | arith_op2 | arith_expr | arith_tail
  | term | term_tail | factor | primary
  | stmt_ctrl | ctrl_flow | conditioner | if_stat | if_tail | cond_stat
  | switch_stat | switch_cases | switch_opts | switch_def
  | iteration | while_loop | for_loop | dowhile_loop | for_init
  | function_call | param_opts | param_list | param_item | param_tail | return_stat
  deriving DecidableEq, Repr

/-- The mutually recursive rule functions of parser.py, defunctionalised
over `Rule` with a fuel argument bounding the call depth (fuel exhaustion
behaves like `raise StopIteration` and is never reached at the fuel
`Parser.parse` supplies). -/
def runRule : Nat → Rule → PM (Option ASTNode)
  | 0, _ => PM.raiseStop
  | n + 1, .program =>
    PM.tryCatch
      (PM.bind (runRule n .global_dec) fun global_dec_node =>
       PM.bind (runRule n .sub_functions) fun sub_functions_node =>
       PM.bind (matchPM "atmosphere") fun _ =>
       PM.bind (matchPM "(") fun _ =>
       PM.bind (matchPM ")") fun _ =>
       PM.bind (matchPM "\x7b") fun _ =>
       PM.bind (runRule n .body) fun body_node =>
       PM.bind peekPM fun cur =>
       PM.bind
         (if cur ≠ some "\x7d" then
            errPM ("Expected '\x7d' to close atmosphere() function, got '" ++ optStr cur ++ "'")
          else PM.bind (matchPM "\x7d") fun _ => PM.pure ()) fun _ =>
       PM.pure (some (ASTNode.mk "program"
         [och global_dec_node, och sub_functions_node, och body_node] none)))
      (PM.bind curTokPM fun ct =>
       match ct with
       | some t =>
         if t.type = "\x7d" then PM.pure none
         else PM.bind (errPM "Expected '\x7d' to close atmosphere() function") fun _ => PM.pure none
       | none =>
         PM.bind (errPM "Expected '\x7d' to close atmosphere() function") fun _ => PM.pure none)
  | n + 1, .global_dec =>
    PM.bind peekPM fun current =>
    if current = some "universal" then
      PM.bind (matchPM "universal") fun _ =>
      PM.bind (runRule n .declaration) fun declaration_node =>
      PM.bind (runRule n .global_dec) fun global_dec_node =>
      PM.pure (some (ASTNode.mk "global_dec" [och declaration_node, och global_dec_node] none))
    else if tyIn current ["air", "atmosphere"] then
      PM.pure (some (ASTNode.mk "global_dec_empty" [] none))
    else
      softErr ("[2-3] Expected 'universal', 'air', or 'atmosphere', got '" ++ optStr current ++ "'")
  | n + 1, .declaration =>
    PM.bind peekPM fun current =>
    if tyIn current dataTypeList then
      PM.bind (runRule n .normal) fun normal_node =>
      PM.pure (some (ASTNode.mk "declaration" [och normal_node] none))
    else if current = some "gust" then
      PM.bind (runRule n .structure_) fun structure_node =>
      PM.pure (some (ASTNode.mk "declaration" [och structure_node] none))
    else if current = some "wind" then
      PM.bind (matchPM "wind") fun _ =>
      PM.bind (runRule n .constant) fun constant_node =>
      PM.pure (some (ASTNode.mk "declaration" [och constant_node] none))
    else
      softErr ("[4-6] Expected data type (int, float, char, string, bool) or 'gust' or 'wind', got '" ++ optStr current ++ "'")
  | n + 1, .normal =>
    PM.bind peekPM fun current =>
    if tyIn current dataTypeList then
      PM.bind (runRule n .data_type) fun data_type_node =>
      PM.bind checkIdPM fun id_no =>
      PM.bind (runRule n .norm_dec) fun norm_dec_node =>
      PM.bind (runRule n .norm_tail) fun norm_tail_node =>
      PM.bind peekPM fun current_tok =>
      if current_tok ≠ some "~" then
        let msg :=
          if current_tok = some "\x7d" then "Missing '~' terminator."
          else if current_tok ≠ none ∧ ¬ tyIn current_tok [",", "~"] then
            "Unexpected '" ++ optStr current_tok ++ "' in declaration - expected ',' or '~'"
          else "Expected '~' to end declaration, got '" ++ optStr current_tok ++ "'"
        hardErr msg
      else
        PM.bind (matchPM "~") fun _ =>
        PM.pure (some (ASTNode.mk "normal"
          [och data_type_node, Child.node id_no, och norm_dec_node, och norm_tail_node] none))
    else
      softErr ("[7] Expected data type (int, float, char, string, bool) got '" ++ optStr current ++ "'")
  | n + 1, .norm_dec =>
    PM.bind peekPM fun current =>
    if current = some "[" then
      PM.bind (runRule n .row_size) fun row_size_node =>
      PM.bind (runRule n .array) fun array_node =>
      PM.pure (some (ASTNode.mk "norm_dec" [och row_size_node, och array_node] none))
    else if current = some "=" then
      PM.bind (matchPM "=") fun _ =>
      PM.bind peekPM fun next_tok =>
      if tyIn next_tok [",", "~"] ∨ next_tok = none ∨ tyIn next_tok ["atmosphere", "air", "universal"] then
        hardErr ("Expected value or expression after '=', not '" ++ optStr next_tok ++ "'")
      else
        PM.bind (runRule n .expr) fun expr_node =>
        PM.pure (some (ASTNode.mk "norm_dec"
          [Child.node (ASTNode.mk "operator" [] (some "=")), och expr_node] none))
    else if tyIn current [",", "~"] then
      PM.pure (some (ASTNode.mk "norm_dec_empty" [] none))
    else
      softErr ("[8-10] Expected '[' or '=' or ',' or terminator '~' got '" ++ optStr current ++ "'")
  | n + 1, .norm_tail =>
    PM.bind peekPM fun current =>
    if current = some "," then
      PM.bind (matchPM ",") fun _ =>
      PM.bind checkIdPM fun id_no =>
      PM.bind (runRule n .norm_dec) fun norm_dec_node =>
      PM.bind (runRule n .norm_tail) fun norm_tail_node =>
      PM.pure (some (ASTNode.mk "norm_tail"
        [Child.node id_no, och norm_dec_node, och norm_tail_node] none))
    else if current = some "~" then
      PM.pure (some (ASTNode.mk "norm_tail_empty" [] none))
    else
      softErr ("[11-12] Expected ',' or terminator '~' got '" ++ optStr current ++ "'")
  | n + 1, .array =>
    PM.bind peekPM fun current =>
    if current = some "=" then
      PM.bind (matchPM "=") fun _ =>
      PM.bind (matchPM "\x7b") fun _ =>
      PM.bind (runRule n .arr_element) fun arr_element_node =>
      PM.bind (matchPM "\x7d") fun _ =>
      PM.pure (some (ASTNode.mk "array"
        [Child.node (ASTNode.mk "operator" [] (some "=")), och arr_element_node] none))
    else if tyIn current [",", "~"] then
      PM.pure (some (ASTNode.mk "array_empty" [] none))
    else
      softErr ("[13-14] Expected '=' or ',' or terminator '~' got '" ++ optStr current ++ "'")
  | n + 1, .arr_element =>
    PM.bind peekPM fun current =>
    if tyIn current (outFirst ++ ["\x7d"]) ∨ tyIsId current then
      PM.bind (runRule n .oned_element) fun oned_element_node =>
      PM.pure (some (ASTNode.mk "arr_element" [och oned_element_node] none))
    else if current = some "\x7b" then
      PM.bind (runRule n .twod_element) fun twod_element_node =>
      PM.pure (some (ASTNode.mk "arr_element" [och twod_element_node] none))
    else
      softErr ("[15-16] Expected a value literal or '\x7d'got '" ++ optStr current ++ "'")
  | n + 1, .oned_element =>
    PM.bind peekPM fun current =>
    if tyIn current outFirst ∨ tyIsId current then
      PM.bind (runRule n .output) fun output_node =>
      PM.bind (runRule n .element_tail) fun element_tail_node =>
      PM.pure (some (ASTNode.mk "1d_element" [och output_node, och element_tail_node] none))
    else if current = some "\x7d" then
      PM.pure (some (ASTNode.mk "1d_element_node_empty" [] none))
    else
      softErr ("[17-18] Expected a value literal, got '" ++ optStr current)
  | n + 1, .twod_element =>
    PM.bind peekPM fun current =>
    if current = some "\x7b" then
      PM.bind (matchPM "\x7b") fun _ =>
      PM.bind (runRule n .oned_element) fun oned_element_node =>
      PM.bind (matchPM "\x7d") fun _ =>
      PM.bind (runRule n .twod_tail) fun twod_tail_node =>
      PM.pure (some (ASTNode.mk "2d_element" [och oned_element_node, och twod_tail_node] none))
    else
      softErr ("[19] Expected '\x7b', got '" ++ optStr current ++ "'")
  | n + 1, .element_tail =>
    PM.bind peekPM fun current =>
    if current = some "," then
      PM.bind (matchPM ",") fun _ =>
      PM.bind (runRule n .output) fun output_node =>
      PM.bind (runRule n .element_tail) fun element_tail_node =>
      PM.pure (some (ASTNode.mk "element_tail" [och output_node, och element_tail_node] none))
    else if current = some "\x7d" then
      PM.pure (some (ASTNode.mk "element_tail_empty" [] none))
    else
      softErr ("[20-21] Expected ',' or '\x7d' got '" ++ optStr current ++ "'")
  | n + 1, .twod_tail =>
    PM.bind peekPM fun current =>
    if current = some "," then
      PM.bind (matchPM ",") fun _ =>
      PM.bind (matchPM "\x7b") fun _ =>
      PM.bind (runRule n .oned_element) fun oned_element_node =>
      PM.bind (matchPM "\x7d") fun _ =>
      PM.bind (runRule n .twod_tail) fun twod_tail_node =>
      PM.pure (some (ASTNode.mk "2d_tail" [och oned_element_node, och twod_tail_node] none))
    else if current = some "\x7d" then
      PM.pure (some (ASTNode.mk "2d_tail_empty" [] none))
    else
      softErr ("[22-23] Expected ',' or '\x7d' got '" ++ optStr current ++ "'")
  | n + 1, .structure_ =>
    PM.bind peekPM fun current =>
    if current = some "gust" then
      PM.bind (matchPM "gust") fun _ =>
      PM.bind checkIdPM fun id_no =>
      PM.bind (runRule n .struct_tail) fun struct_tail_node =>
      PM.bind (matchPM "~") fun _ =>
      PM.pure (some (ASTNode.mk "structure" [Child.node id_no, och struct_tail_node] none))
    else
      softErr ("[24] Expected 'gust', got '" ++ optStr current ++ "'")
  | n + 1, .struct_tail =>
    PM.bind peekPM fun current =>
    if current = some "\x7b" then
      PM.bind (matchPM "\x7b") fun _ =>
      PM.bind (runRule n .data_type) fun data_type_node =>
      PM.bind checkIdPM fun id_no =>
      PM.bind (matchPM "~") fun _ =>
      PM.bind (runRule n .gust_tail) fun gust_tail_node =>
      PM.bind (matchPM "\x7d") fun _ =>
      PM.pure (some (ASTNode.mk "struct_tail"
        [och data_type_node, Child.node id_no, och gust_tail_node] none))
    else if tyIsId current then
      PM.bind checkIdPM fun id_no =>
      PM.bind (runRule n .struct_tail2) fun struct_tail2_node =>
      PM.pure (some (ASTNode.mk "struct_tail" [Child.node id_no, och struct_tail2_node] none))
    else
      softErr ("[25-26] Expected '\x7b' or identifier, got '" ++ optStr current ++ "'")
  | n + 1, .struct_tail2 =>
    PM.bind peekPM fun current =>
    if current = some "=" then
      PM.bind (matchPM "=") fun _ =>
      PM.bind (matchPM "\x7b") fun _ =>
      PM.bind (runRule n .oned_element) fun oned_element_node =>
      PM.bind (matchPM "\x7d") fun _ =>
      PM.pure (some (ASTNode.mk "struct_tail2"
        [Child.node (ASTNode.mk "operator" [] (some "=")), och oned_element_node] none))
    else if current = some "~" then
      PM.pure (some (ASTNode.mk "struct_tail2_empty" [] none))
    else
      softErr ("[27-28] Expected '=' or '~', got '" ++ optStr current ++ "'")
  | n + 1, .gust_tail =>
    PM.bind peekPM fun current =>
    if tyIn current dataTypeList then
      PM.bind (runRule n .data_type) fun data_type_node =>
      PM.bind checkIdPM fun id_no =>
      PM.bind (matchPM "~") fun _ =>
      PM.bind (runRule n .gust_tail) fun gust_tail_node =>
      PM.pure (some (ASTNode.mk "gust_tail"
        [och data_type_node, Child.node id_no, och gust_tail_node] none))
    else if current = some "\x7d" then
      PM.pure (some (ASTNode.mk "gust_tail_empty" [] none))
    else
      softErr ("[29-30] Expected data type or '\x7d', got '" ++ optStr current ++ "'")
  | n + 1, .constant =>
    PM.bind peekPM fun current =>
    if tyIn current dataTypeList then
      PM.bind (runRule n .data_type) fun data_type_node =>
      PM.bind checkIdPM fun id_no =>
      PM.bind (runRule n .const_dec) fun const_dec_node =>
      PM.bind (matchPM "~") fun _ =>
      PM.pure (some (ASTNode.mk "constant"
        [och data_type_node, Child.node id_no, och const_dec_node] none))
    else if current = some "gust" then
      PM.bind (runRule n .struct_const) fun struct_const_node =>
      PM.pure (some (ASTNode.mk "constant" [och struct_const_node] none))
    else
      softErr ("[31-32] Expected data type or gust, got '" ++ optStr current ++ "'")
  | n + 1, .const_dec =>
    PM.bind peekPM fun current =>
    if current = some "=" then
      PM.bind (matchPM "=") fun _ =>
      PM.bind (runRule n .expr) fun expr_node =>
      PM.bind (runRule n .const_tail) fun const_tail_node =>
      PM.pure (some (ASTNode.mk "const_dec"
        [Child.node (ASTNode.mk "operator" [] (some "=")), och expr_node, och const_tail_node] none))
    else if current = some "[" then
      PM.bind (runRule n .row_size) fun row_size_node =>
      PM.bind (matchPM "=") fun _ =>
      PM.bind (matchPM "\x7b") fun _ =>
      PM.bind (runRule n .const_arr) fun const_arr_node =>
      PM.bind (matchPM "\x7d") fun _ =>
      PM.bind (runRule n .const_tail) fun const_tail_node =>
      PM.pure (some (ASTNode.mk "const_dec"
        [och row_size_node, Child.node (ASTNode.mk "operator" [] (some "=")),
         och const_arr_node, och const_tail_node] none))
    else
      softErr ("[33-34] Expected '=' or '[', got '" ++ optStr current ++ "'")
  | n + 1, .const_tail =>
    PM.bind peekPM fun current =>
    if current = some "," then
      PM.bind (matchPM ",") fun _ =>
      PM.bind checkIdPM fun id_no =>
      PM.bind (runRule n .const_dec) fun const_dec_node =>
      PM.pure (some (ASTNode.mk "const_tail" [Child.node id_no, och const_dec_node] none))
    else if current = some "~" then
      PM.pure (some (ASTNode.mk "const_tail_empty" [] none))
    else
      softErr ("[35-36] Expected ',' or '~', got '" ++ optStr current ++ "' ")
  | n + 1, .const_arr =>
    PM.bind peekPM fun current =>
    if tyIn current ["int_lit", "float_lit", "char_lit", "string_lit", "yuh", "naur"] then
      PM.bind (runRule n .const_1d) fun const_1d_node =>
      PM.pure (some (ASTNode.mk "const_arr" [och const_1d_node] none))
    else if current = some "\x7b" then
      PM.bind (runRule n .const_2d) fun const_2d_node =>
      PM.pure (some (ASTNode.mk "const_arr" [och const_2d_node] none))
    else
      softErr ("[37-38] Expected value literal or '\x7b', got '" ++ optStr current ++ "'")
  | n + 1, .const_1d =>
    PM.bind peekPM fun current =>
    if tyIn current outFirst ∨ tyIsId current then
      PM.bind (runRule n .output) fun output_node =>
      PM.bind (runRule n .element_tail) fun element_tail_node =>
      PM.pure (some (ASTNode.mk "const_1d" [och output_node, och element_tail_node] none))
    else
      softErr ("[39] Expected value literal, got '" ++ optStr current ++ "'")
  | n + 1, .const_2d =>
    PM.bind peekPM fun current =>
    if current = some "\x7b" then
      PM.bind (matchPM "\x7b") fun _ =>
      PM.bind (runRule n .const_1d) fun const_1d_node =>
      PM.bind (matchPM "\x7d") fun _ =>
      PM.bind (runRule n .const_2d_tail) fun const_2d_tail_node =>
      PM.pure (some (ASTNode.mk "const_2d" [och const_1d_node, och const_2d_tail_node] none))
    else
      softErr ("[40] Expected '\x7b', got '" ++ optStr current ++ "'")
  | n + 1, .const_2d_tail =>
    PM.bind peekPM fun current =>
    if current = some "," then
      PM.bind (matchPM ",") fun _ =>
      PM.bind (matchPM "\x7b") fun _ =>
      PM.bind (runRule n .const_1d) fun const_1d_node =>
      PM.bind (matchPM "\x7d") fun _ =>
      PM.bind (runRule n .const_2d_tail) fun const_2d_tail_node =>
      PM.pure (some (ASTNode.mk "const_2d_tail" [och const_1d_node, och const_2d_tail_node] none))
    else if current = some "\x7d" then
      PM.pure (some (ASTNode.mk "const_2d_tail_empty" [] none))
    else
      softErr ("[41-42] Expected ',' or '\x7b', got '" ++ optStr current ++ "'")
  | n + 1, .struct_const =>
    PM.bind peekPM fun current =>
    if current = some "gust" then
      PM.bind (matchPM "gust") fun _ =>
      PM.bind checkIdPM fun id_no =>
      PM.bind checkIdPM fun id_no2 =>
      PM.bind (matchPM "=") fun _ =>
      PM.bind (matchPM "\x7b") fun _ =>
      PM.bind (runRule n .const_1d) fun const_1d_node =>
      PM.bind (matchPM "\x7d") fun _ =>
      PM.bind (matchPM "~") fun _ =>
      PM.pure (some (ASTNode.mk "struct_const"
        [Child.node id_no, Child.node id_no2,
         Child.node (ASTNode.mk "operator" [] (some "=")), och const_1d_node] none))
    else
      softErr ("[43] Expected 'gust', got '" ++ optStr current ++ "'")
  | n + 1, .dimension =>
    PM.bind peekPM fun current =>
    if current = some "[" then
      PM.bind (runRule n .row_size) fun row_size_node =>
      PM.pure (some (ASTNode.mk "dimension" [och row_size_node] none))
    else if tyIn current dimFollow then
      PM.pure (some (ASTNode.mk "dimension_empty" [] none))
    else
      softErr ("[44-45] Expected '~', '++', '--', operator, ')', '\x7d'got '" ++ optStr current ++ "'")
  | n + 1, .row_size =>
    PM.bind peekPM fun current =>
    if current = some "[" then
      PM.bind (matchPM "[") fun _ =>
      PM.bind (runRule n .size) fun size_node =>
      PM.bind (matchPM "]") fun _ =>
      PM.bind (runRule n .col_size) fun col_size_node =>
      PM.pure (some (ASTNode.mk "row_size" [och size_node, och col_size_node] none))
    else
      softErr ("[46] Expected '[', got '" ++ optStr current ++ "'")
  | n + 1, .col_size =>
    PM.bind peekPM fun current =>
    if current = some "[" then
      PM.bind (matchPM "[") fun _ =>
      PM.bind (runRule n .pdim_size) fun pdim_size_node =>
      PM.bind (matchPM "]") fun _ =>
      PM.pure (some (ASTNode.mk "col_size" [och pdim_size_node] none))
    else if tyIn current dimFollow then
      PM.pure (some (ASTNode.mk "col_size_empty" [] none))
    else
      softErr ("[47-48] Expected '[', '\x7d', identifier, '~', operator, statement, or 'gasp', got '" ++ optStr current ++ "'")
  | n + 1, .size =>
    PM.bind peekPM fun current =>
    if tyIn current FIRST_PRIMARY ∨ tyIsId current then
      PM.bind (runRule n .arith_expr) fun arith_expr_node =>
      PM.pure (some (ASTNode.mk "size" [och arith_expr_node] none))
    else if current = some "]" then
      PM.pure (some (ASTNode.mk "size_empty" [] none))
    else
      softErr ("[49-50] Expected '(', identifier, value literal, or predefined function, got '" ++ optStr current ++ "'")
  | n + 1, .data_type =>
    PM.bind peekPM fun current =>
    if current = some "int" then
      PM.bind (matchPM "int") fun _ => PM.pure (some (ASTNode.mk "data_type" [] (some "int")))
    else if current = some "float" then
      PM.bind (matchPM "float") fun _ => PM.pure (some (ASTNode.mk "data_type" [] (some "float")))
    else if current = some "char" then
      PM.bind (matchPM "char") fun _ => PM.pure (some (ASTNode.mk "data_type" [] (some "char")))
    else if current = some "string" then
      PM.bind (matchPM "string") fun _ => PM.pure (some (ASTNode.mk "data_type" [] (some "string")))
    else if current = some "bool" then
      PM.bind (matchPM "bool") fun _ => PM.pure (some (ASTNode.mk "data_type" [] (some "bool")))
    else
      softErr ("[51-55] Expected data type (int, float, char, string, bool), got '" ++ optStr current ++ "'")
  | n + 1, .sub_functions =>
    PM.bind peekPM fun current =>
    if current = some "air" then
      PM.bind (runRule n .air_func) fun air_func_node =>
      PM.bind (runRule n .sub_functions) fun sub_functions_node =>
      PM.pure (some (ASTNode.mk "sub_functions" [och air_func_node, och sub_functions_node] none))
    else if current = some "atmosphere" then
      PM.pure (some (ASTNode.mk "sub_functions_empty" [] none))
    else
      softErr ("[56-57] Expected 'air' or 'atmosphere', got '" ++ optStr current ++ "'")
  | n + 1, .air_func =>
    PM.bind peekPM fun current =>
    if current = some "air" then
      PM.bind (matchPM "air") fun _ =>
      PM.bind (runRule n .return_type) fun return_type_node =>
      PM.bind checkIdPM fun id_no =>
      PM.bind (matchPM "(") fun _ =>
      PM.bind (runRule n .params) fun params_node =>
      PM.bind (matchPM ")") fun _ =>
      PM.bind (matchPM "\x7b") fun _ =>
      PM.bind (runRule n .body) fun body_node =>
      PM.bind (runRule n .return_stat) fun return_stat_node =>
      PM.bind (matchPM "\x7d") fun _ =>
      PM.pure (some (ASTNode.mk "air_func"
        [och return_type_node, Child.node id_no, och params_node,
         och body_node, och return_stat_node] none))
    else
      softErr ("[58] Expected 'air', got '" ++ optStr current ++ "'")
  | n + 1, .return_type =>
    PM.bind peekPM fun current =>
    if tyIn current dataTypeList then
      PM.bind (runRule n .data_type) fun data_type_node =>
      PM.pure (some (ASTNode.mk "return_type" [och data_type_node] none))
    else if current = some "vacuum" then
      PM.bind (matchPM "vacuum") fun _ =>
      PM.pure (some (ASTNode.mk "return_type" [] (some "vacuum")))
    else
      softErr ("[59-60] Expected data type or 'vacuum', got '" ++ optStr current ++ "'")
  | n + 1, .params =>
    PM.bind peekPM fun current =>
    if tyIn current dataTypeList then
      PM.bind (runRule n .data_type) fun data_type_node =>
      PM.bind checkIdPM fun id_no =>
      PM.bind (runRule n .params_dim) fun params_dim_node =>
      PM.bind (runRule n .params_tail) fun params_tail_node =>
      PM.pure (some (ASTNode.mk "params"
        [och data_type_node, Child.node id_no, och params_dim_node, och params_tail_node] none))
    else if current = some ")" then
      PM.pure (some (ASTNode.mk "params_empty" [] none))
    else
      softErr ("[61-62] Expected data type or ')', got '" ++ optStr current ++ "'")
  | n + 1, .params_dim =>
    PM.bind peekPM fun current =>
    if current = some "[" then
      PM.bind (matchPM "[") fun _ =>
      PM.bind (runRule n .pdim_tail) fun pdim_tail_node =>
      PM.pure (some (ASTNode.mk "params_dim" [och pdim_tail_node] none))
    else if tyIn current [",", ")"] then
      PM.pure (some (ASTNode.mk "params_dim_node" [] none))
    else
      softErr ("[63-64] Expected '[' or ',' or ')', got '" ++ optStr current ++ "'")
  | n + 1, .pdim_tail =>
    PM.bind peekPM fun current =>
    if current = some "]" then
      PM.bind (matchPM "]") fun _ =>
      PM.pure (some (ASTNode.mk "params_pdim_tail" [] (some "]")))
    else if tyIn current FIRST_PRIMARY ∨ tyIsId current then
      PM.bind (runRule n .pdim_size) fun pdim_size_node =>
      PM.bind (matchPM "]") fun _ =>
      PM.bind (matchPM "[") fun _ =>
      PM.bind (runRule n .pdim_size) fun pdim_size_node2 =>
      PM.bind (matchPM "]") fun _ =>
      PM.pure (some (ASTNode.mk "params_pdim_tail" [och pdim_size_node, och pdim_size_node2] none))
    else
      softErr ("[65-66] Expected '(', identifier, value literal, or predefined function, got '" ++ optStr current ++ "'")
  | n + 1, .pdim_size =>
    PM.bind peekPM fun current =>
    if tyIn current FIRST_PRIMARY ∨ tyIsId current then
      PM.bind (runRule n .arith_expr) fun arith_expr_node =>
      PM.pure (some (ASTNode.mk "pdim_size" [och arith_expr_node] none))
    else
      softErr ("[67] Expected '(', identifier, value literal, or predefined function, got '" ++ optStr current ++ "'")
  | n + 1, .params_tail =>
    PM.bind peekPM fun current =>
    if current = some "," then
      PM.bind (matchPM ",") fun _ =>
      PM.bind (runRule n .data_type) fun data_type_node =>
      PM.bind checkIdPM fun id_no =>
      -- parse_params_tail stores the bound methods parse_params_dim and
      -- parse_params_tail (without calling them) as the last two children
      PM.pure (some (ASTNode.mk "params_tail"
        [och data_type_node, Child.node id_no, Child.pymethod, Child.pymethod] none))
    else if current = some ")" then
      PM.pure (some (ASTNode.mk "params_tail_empty" [] none))
    else
      softErr ("[68-69] Expected ',' or ')', got '" ++ optStr current ++ "'")
  | n + 1, .body =>
    PM.bind peekPM fun current =>
    if tyIn current (stmtFirst ++ ["\x7d", "gasp"]) ∨ tyIsId current then
      PM.bind (runRule n .stmt_list) fun stmt_list_node =>
      PM.pure (some (ASTNode.mk "body" [och stmt_list_node] none))
    else
      softErr ("[70] Invalid body start. Expected statements, got '" ++ optStr current ++ "'")
  | n + 1, .stmt_list =>
    PM.bind peekPM fun current =>
    if tyIn current stmtFirst ∨ tyIsId current then
      PM.bind (runRule n .statement) fun statement_node =>
      match statement_node with
      | none => PM.raiseStop
      | some st =>
        PM.bind (runRule n .stmt_list) fun stmt_list_node =>
        PM.pure (some (ASTNode.mk "stmt_list" [Child.node st, och stmt_list_node] none))
    else if tyIn current ["\x7d", "gasp", "resist"] then
      PM.pure (some (ASTNode.mk "stmt_list_empty" [] none))
    else if current = none then
      PM.raiseStop
    else
      softErr ("[71-72] Invalid statements, got '" ++ optStr current ++ "'")
  | n + 1, .statement =>
    PM.bind peekPM fun current =>
    if tyIn current ["int", "float", "char", "string", "bool", "gust", "wind"] then
      PM.bind (runRule n .declaration) fun declaration_node =>
      PM.pure (some (ASTNode.mk "statement" [och declaration_node] none))
    else if tyIn current ["inhale", "exhale"] then
      PM.bind (runRule n .input_output) fun input_output_node =>
      PM.pure (some (ASTNode.mk "statement" [och input_output_node] none))
    else if tyIn current ["++", "--"] ∨ tyIsId current then
      PM.bind (runRule n .identifier_stat) fun identifier_stat_node =>
      PM.pure (some (ASTNode.mk "statement" [och identifier_stat_node] none))
    else if tyIn current ["if", "stream"] then
      PM.bind (runRule n .conditioner) fun conditioner_node =>
      PM.pure (some (ASTNode.mk "statement" [och conditioner_node] none))
    else if tyIn current ["cycle", "echo", "do"] then
      PM.bind (runRule n .iteration) fun iteration_node =>
      PM.pure (some (ASTNode.mk "statement" [och iteration_node] none))
    else
      hardErr ("[73-77] Invalid statements, got '" ++ optStr current ++ "'")
  | n + 1, .identifier_stat =>
    PM.bind peekPM fun current =>
    if tyIn current ["++", "--"] then
      PM.bind (runRule n .unary_op) fun unary_op_node =>
      PM.bind checkIdPM fun id_no =>
      PM.bind (runRule n .id_access) fun id_access_node =>
      PM.bind (matchPM "~") fun _ =>
      PM.pure (some (ASTNode.mk "identifier_stat"
        [och unary_op_node, Child.node id_no, och id_access_node] none))
    else if tyIsId current then
      PM.bind checkIdPM fun id_no =>
      PM.bind (runRule n .id_stat_body) fun id_stat_body_node =>
      PM.bind (matchPM "~") fun _ =>
      PM.pure (some (ASTNode.mk "identifier_stat"
        [Child.node id_no, och id_stat_body_node] none))
    else
      softErr ("[78-79] Expected '++' or '--' or identifier, got '" ++ optStr current ++ "'")
  | n + 1, .id_stat_body =>
    PM.bind peekPM fun current =>
    if current = some "(" then
      PM.bind (matchPM "(") fun _ =>
      PM.bind (runRule n .param_opts) fun param_opts_node =>
      PM.bind (matchPM ")") fun _ =>
      PM.pure (some (ASTNode.mk "id_stat_body" [och param_opts_node] none))
    else if tyIn current ["[", ".", "++", "--", "=", "+=", "-=", "*=", "/=", "%="] then
      PM.bind (runRule n .id_access) fun id_access_node =>
      PM.bind (runRule n .id_stat_tail) fun id_stat_tail_node =>
      PM.pure (some (ASTNode.mk "id_stat_body" [och id_access_node, och id_stat_tail_node] none))
    else
      softErr ("[80-81] Expected [, .,  ++, --,  =, +=, -=, *=, /=, %=, got '" ++ optStr current ++ "'")
  | n + 1, .id_stat_tail =>
    PM.bind peekPM fun current =>
    if tyIn current ["++", "--"] then
      PM.bind (runRule n .unary_op) fun unary_op_node =>
      PM.pure (some (ASTNode.mk "id_stat_tail" [och unary_op_node] none))
    else if tyIn current ["=", "+=", "-=", "*=", "/=", "%="] then
      PM.bind (runRule n .assignment) fun assignment_node =>
      PM.pure (some (ASTNode.mk "identifier_stat" [och assignment_node] none))
    else
      softErr ("[82-83] Expected ++, --,  =, +=, -=, *=, /=, %=, got '" ++ optStr current ++ "'")
  | n + 1, .identifier =>
    PM.bind peekPM fun current =>
    if tyIn current ["++", "--"] then
      PM.bind (runRule n .unary_op) fun unary_op_node =>
      PM.bind checkIdPM fun _ =>
      PM.bind (runRule n .id_access) fun id_access_node =>
      PM.pure (some (ASTNode.mk "identifier" [och unary_op_node, och id_access_node] none))
    else if tyIsId current then
      PM.bind checkIdPM fun id_no =>
      PM.bind (runRule n .id_tail) fun id_tail_node =>
      PM.pure (some (ASTNode.mk "identifier" [Child.node id_no, och id_tail_node] none))
    else
      softErr ("[84-85] Expected ++, --, or identifier, got '" ++ optStr current ++ "'")
  | n + 1, .id_tail =>
    PM.bind peekPM fun current =>
    if current = some "(" then
      PM.bind (matchPM "(") fun _ =>
      PM.bind (runRule n .param_opts) fun param_opts_node =>
      PM.bind (matchPM ")") fun _ =>
      PM.pure (some (ASTNode.mk "id_tail" [och param_opts_node] none))
    else if tyIn current (["[", "."] ++ dimFollow) then
      PM.bind (runRule n .id_access) fun id_access_node =>
      PM.bind (runRule n .unary_op2) fun unary_op2_node =>
      PM.pure (some (ASTNode.mk "id_tail" [och id_access_node, och unary_op2_node] none))
    else
      softErr ("[86-87] Expected (, [, ., ~, ++, --, +, -, *, /, %, ], >, <, >=, <=, ==, !=, ,, ), ||, &&, \x7d got '" ++ optStr current ++ "'")
  | n + 1, .id_access =>
    PM.bind peekPM fun current =>
    if tyIn current (["["] ++ dimFollow) then
      PM.bind (runRule n .dimension) fun dimension_node =>
      PM.pure (some (ASTNode.mk "id_access" [och dimension_node] none))
    else if current = some "." then
      PM.bind (matchPM ".") fun _ =>
      PM.bind checkIdPM fun id_no =>
      PM.pure (some (ASTNode.mk "id_access" [Child.leaf ".", Child.node id_no] none))
    else
      softErr ("[88-91] Expected (, [, ., ~, ++, --, +, -, *, /, %, ], >, <, >=, <=, ==, !=, ,, ), ||, &&, \x7d  got '" ++ optStr current ++ "'")
  | n + 1, .unary_op =>
    PM.bind peekPM fun current =>
    if current = some "++" then
      PM.bind (matchPM "++") fun _ => PM.pure (some (ASTNode.mk "unary_op" [] (some "++")))
    else if current = some "--" then
      PM.bind (matchPM "--") fun _ => PM.pure (some (ASTNode.mk "unary_op" [] (some "--")))
    else
      softErr ("[90-91] Expected '++' or '--', got '" ++ optStr current ++ "'")
  | n + 1, .unary_op2 =>
    PM.bind peekPM fun current =>
    if tyIn current ["++", "--"] then
      PM.bind (runRule n .unary_op) fun unary_op_node =>
      PM.pure (some (ASTNode.mk "unary_op2" [och unary_op_node] none))
    else if tyIn current ["+", "-", "*", "/", "%", "]", ">", "<", ">=", "<=", "==", "!=", ",", "~", ")", "||", "&&", "\x7d"] then
      PM.pure (some (ASTNode.mk "unary_op2_empty" [] none))
    else
      softErr ("[92-93] Expected ++, --, +, -, *, /, %, ], >, <, >=, <=, ==, !=, ,, ~, ), ||, &&, \x7dgot '" ++ optStr current ++ "'")
  | n + 1, .input_output =>
    PM.bind peekPM fun current =>
    if current = some "inhale" then
      PM.bind (matchPM "inhale") fun _ =>
      PM.bind (matchPM "(") fun _ =>
      PM.bind checkIdPM fun id_no =>
      PM.bind (runRule n .id_access) fun id_access_node =>
      PM.bind (matchPM ")") fun _ =>
      PM.bind (matchPM "~") fun _ =>
      PM.pure (some (ASTNode.mk "input_output"
        [Child.leaf "inhale", Child.node id_no, och id_access_node] none))
    else if current = some "exhale" then
      PM.bind (matchPM "exhale") fun _ =>
      PM.bind (matchPM "(") fun _ =>
      PM.bind (runRule n .output) fun output_node =>
      PM.bind (matchPM ")") fun _ =>
      PM.bind (matchPM "~") fun _ =>
      PM.pure (some (ASTNode.mk "input_output" [Child.leaf "exhale", och output_node] none))
    else
      softErr ("[94-95] Expected 'inhale' or 'exhale', got '" ++ optStr current ++ "'")
  | n + 1, .output =>
    PM.bind peekPM fun current =>
    if tyIn current ["++", "--"] ∨ tyIsId current then
      PM.bind (runRule n .identifier) fun identifier_node =>
      PM.pure (some (ASTNode.mk "output" [och identifier_node] none))
    else if tyIn current ["toRise", "toFall", "horizon", "sizeOf", "toInt", "toFloat", "toString", "toChar", "toBool", "waft"] then
      PM.bind (runRule n .function_call) fun function_call_node =>
      PM.pure (some (ASTNode.mk "output" [och function_call_node] none))
    else if tyIn current ["int_lit", "float_lit", "yuh", "naur"] then
      PM.bind (runRule n .value) fun value_node =>
      PM.pure (some (ASTNode.mk "output" [och value_node] none))
    else if tyIn current ["char_lit", "string_lit"] then
      PM.bind (runRule n .output_concat) fun output_concat_node =>
      PM.bind (runRule n .output_tail) fun output_tail_node =>
      PM.pure (some (ASTNode.mk "output" [och output_concat_node, och output_tail_node] none))
    else
      softErr ("[98-100] Expected '++, --' or function call or character/string literal, got '" ++ optStr current ++ "'")
  | n + 1, .value =>
    PM.bind peekPM fun current =>
    if current = some "int_lit" then
      PM.bind (matchPM "int_lit") fun litvalue =>
      PM.pure (some (ASTNode.mk "value" [] (some litvalue.value)))
    else if current = some "float_lit" then
      PM.bind (matchPM "float_lit") fun litvalue =>
      PM.pure (some (ASTNode.mk "value" [] (some litvalue.value)))
    else if current = some "yuh" then
      PM.bind (matchPM "yuh") fun litvalue =>
      PM.pure (some (ASTNode.mk "value" [] (some litvalue.value)))
    else if current = some "naur" then
      PM.bind (matchPM "naur") fun litvalue =>
      PM.pure (some (ASTNode.mk "value" [] (some litvalue.value)))
    else
      softErr ("[100-103] Expected value literal, got '" ++ optStr current ++ "'")
  | n + 1, .output_concat =>
    PM.bind peekPM fun current =>
    if current = some "char_lit" then
      PM.bind (matchPM "char_lit") fun litvalue =>
      PM.pure (some (ASTNode.mk "output_content" [] (some litvalue.value)))
    else if current = some "string_lit" then
      PM.bind (matchPM "string_lit") fun litvalue =>
      PM.pure (some (ASTNode.mk "output_content" [] (some litvalue.value)))
    else
      softErr ("[104-105] Expected character/string literal, got '" ++ optStr current ++ "'")
  | n + 1, .output_tail =>
    PM.bind peekPM fun current =>
    if current = some "&" then
      PM.bind (matchPM "&") fun _ =>
      PM.bind (runRule n .output_concat) fun output_concat_node =>
      PM.bind (runRule n .output_tail) fun output_tail_node =>
      PM.pure (some (ASTNode.mk "output_tail" [och output_concat_node, och output_tail_node] none))
    else if tyIn current ["+", "-", "*", "/", "%", "]", ">", "<", ">=", "<=", "==", "!=", ",", "~", ")", "||", "&&", "\x7d"] then
      PM.pure (some (ASTNode.mk "output_tail_empty" [] none))
    else
      softErr ("[106-107] Expected '&' or operators or terminator '~', got '" ++ optStr current ++ "'")
  | n + 1, .assi_op =>
    PM.bind peekPM fun current =>
    match current with
    | some op =>
      if ["=", "+=", "-=", "*=", "/=", "%="].contains op then
        PM.bind (matchPM op) fun _ =>
        PM.pure (some (ASTNode.mk "assi_op"
          [Child.node (ASTNode.mk "operator" [] (some op))] none))
      else softErr ("[108-113] Expected assignment operator, got '" ++ op ++ "'")
    | none => softErr "[108-113] Expected assignment operator, got 'None'"
  | n + 1, .assignment =>
    PM.bind peekPM fun current =>
    if tyIn current ["=", "+=", "-=", "*=", "/=", "%="] then
      PM.bind (runRule n .assi_op) fun assi_op_node =>
      PM.bind (runRule n .expr) fun expr_node =>
      PM.pure (some (ASTNode.mk "assignment" [och assi_op_node, och expr_node] none))
    else
      softErr ("[114] Expected assignment operator, got '" ++ optStr current ++ "'")
  | n + 1, .expr =>
    PM.bind peekPM fun current =>
    if tyIn current FIRST_PRIMARY ∨ tyIsId current then
      PM.bind (runRule n .logic_expr) fun logic_expr_node =>
      PM.pure (some (ASTNode.mk "expr" [och logic_expr_node] none))
    else
      softErr ("[115] Expected '(', identifier, value literal, or function call, got '" ++ optStr current ++ "'")
  | n + 1, .logic_expr =>
    PM.bind peekPM fun current =>
    if tyIn current FIRST_PRIMARY ∨ tyIsId current then
      PM.bind (runRule n .and_expr) fun and_expr_node =>
      PM.bind (runRule n .or_tail) fun or_tail_node =>
      PM.pure (some (ASTNode.mk "logic_expr" [och and_expr_node, och or_tail_node] none))
    else
      softErr ("[116] Expected '(', identifier, value literal, or function call, got '" ++ optStr current ++ "'")
  | n + 1, .or_tail =>
    PM.bind peekPM fun current =>
    if current = some "||" then
      PM.bind (matchPM "||") fun _ =>
      PM.bind peekPM fun next_tok =>
      if ¬ (tyIn next_tok FIRST_PRIMARY ∨ tyIsId next_tok) then
        hardErr "[117-118] Expected relational expression after or boolean '||' operator"
      else
        PM.bind (runRule n .and_expr) fun and_expr_node =>
        PM.bind (runRule n .or_tail) fun or_tail_node =>
        PM.pure (some (ASTNode.mk "or_tail" [och and_expr_node, och or_tail_node] none))
    else if tyIn current ["~", ",", ")"] then
      PM.pure (some (ASTNode.mk "or_tail_empty" [] none))
    else
      softErr ("[117-118] Expected '||' or '~' or ',' , got '" ++ optStr current ++ "'")
  | n + 1, .and_expr =>
    PM.bind peekPM fun current =>
    if tyIn current FIRST_PRIMARY ∨ tyIsId current then
      PM.bind (runRule n .rela_expr) fun rela_expr_node =>
      PM.bind (runRule n .and_tail) fun and_tail_node =>
      PM.pure (some (ASTNode.mk "and_expr" [och rela_expr_node, och and_tail_node] none))
    else
      softErr ("[119] Expected '(', identifier, value literal, or function call, got '" ++ optStr current ++ "'")
  | n + 1, .and_tail =>
    PM.bind peekPM fun current =>
    if current = some "&&" then
      PM.bind (matchPM "&&") fun _ =>
      PM.bind peekPM fun next_tok =>
      if ¬ (tyIn next_tok FIRST_PRIMARY ∨ tyIsId next_tok) then
        hardErr "[120-121] Expected relational expression or boolean after '&&' operator"
      else
        PM.bind (runRule n .rela_expr) fun rela_expr_node =>
        PM.bind (runRule n .and_tail) fun and_tail_node =>
        PM.pure (some (ASTNode.mk "and_tail" [och rela_expr_node, och and_tail_node] none))
    else if tyIn current ["||", "~", ",", ")"] then
      PM.pure (some (ASTNode.mk "and_tail_empty" [] none))
    else
      softErr ("[120-121] Expected '&&' or '||' or '~' or ',' , got '" ++ optStr current ++ "'")
  | n + 1, .rela_expr =>
    PM.bind peekPM fun current =>
    if tyIn current FIRST_PRIMARY ∨ tyIsId current then
      PM.bind (runRule n .arith_expr) fun arith_expr_node =>
      PM.bind (runRule n .rela_tail) fun rela_tail_node =>
      PM.pure (some (ASTNode.mk "rela_expr" [och arith_expr_node, och rela_tail_node] none))
    else
      softErr ("[122] Expected '(', identifier, value literal, or function call, got '" ++ optStr current ++ "'")
  | n + 1, .rela_tail =>
    PM.bind peekPM fun current =>
    if tyIn current [">", "<", ">=", "<=", "==", "!="] then
      PM.bind (runRule n .rela_sym) fun rela_sym_node =>
      PM.bind peekPM fun next_tok =>
      if ¬ (tyIn next_tok FIRST_PRIMARY ∨ tyIsId next_tok) then
        hardErr ("[122-123] Expected expression after '" ++ ochildVal0 rela_sym_node ++ "' operator")
      else
        PM.bind (runRule n .arith_expr) fun arith_expr_node =>
        PM.pure (some (ASTNode.mk "rela_tail" [och rela_sym_node, och arith_expr_node] none))
    else if tyIn current ["&&", "||", "~", ",", ")"] then
      PM.pure (some (ASTNode.mk "rela_tail_empty" [] none))
    else
      softErr ("[122-123] Expected relational symbols (> < >= <= == !=) or '&&' '||' '~' ',' ')', got '" ++ optStr current ++ "'")
  | n + 1, .rela_sym =>
    PM.bind peekPM fun current =>
    match current with
    | some op =>
      if [">", "<", ">=", "<=", "==", "!="].contains op then
        PM.bind (matchPM op) fun _ =>
        PM.pure (some (ASTNode.mk "rela_sym"
          [Child.node (ASTNode.mk "operator" [] (some op))] none))
      else softErr ("[125-130] Expected relational symbols (> < >= <= == !=), got '" ++ op ++ "'")
    | none => softErr "[125-130] Expected relational symbols (> < >= <= == !=), got 'None'"
  | n + 1, .arith_op1 =>
    PM.bind peekPM fun current =>
    if current = some "+" then
      PM.bind (matchPM "+") fun _ =>
      PM.pure (some (ASTNode.mk "arith_op1" [Child.node (ASTNode.mk "operator" [] (some "+"))] none))
    else if current = some "-" then
      PM.bind (matchPM "-") fun _ =>
      PM.pure (some (ASTNode.mk "arith_op1" [Child.node (ASTNode.mk "operator" [] (some "-"))] none))
    else
      softErr ("[131-132] Expected '+' or '-', got '" ++ optStr current ++ "'")
  | n + 1, .arith_op2 =>
    PM.bind peekPM fun current =>
    if current = some "*" then
      PM.bind (matchPM "*") fun _ =>
      PM.pure (some (ASTNode.mk "arith_op2" [Child.node (ASTNode.mk "operator" [] (some "*"))] none))
    else if current = some "/" then
      PM.bind (matchPM "/") fun _ =>
      PM.pure (some (ASTNode.mk "arith_op2" [Child.node (ASTNode.mk "operator" [] (some "/"))] none))
    else if current = some "%" then
      PM.bind (matchPM "%") fun _ =>
      PM.pure (some (ASTNode.mk "arith_op2" [Child.node (ASTNode.mk "operator" [] (some "%"))] none))
    else
      softErr ("[133-135] Expected '*' or '/' or '%', got '" ++ optStr current ++ "'")
  | n + 1, .arith_expr =>
    PM.bind peekPM fun current =>
    if tyIn current FIRST_PRIMARY ∨ tyIsId current then
      PM.bind (runRule n .term) fun term_node =>
      PM.bind (runRule n .arith_tail) fun arith_tail_node =>
      PM.pure (some (ASTNode.mk "arith_expr" [och term_node, och arith_tail_node] none))
    else
      softErr ("[136] Expected '(', identifier, value literal, or function call, got '" ++ optStr current ++ "'")
  | n + 1, .arith_tail =>
    PM.bind peekPM fun current =>
    if tyIn current ["+", "-"] then
      PM.bind (runRule n .arith_op1) fun arith_op1_node =>
      PM.bind peekPM fun next_tok =>
      if ¬ (tyIn next_tok FIRST_PRIMARY ∨ tyIsId next_tok) then
        hardErr ("[137-138] Expected expression after '" ++ ochildVal0 arith_op1_node ++ "' operator")
      else
        PM.bind (runRule n .term) fun term_node =>
        PM.bind (runRule n .arith_tail) fun arith_tail_node =>
        PM.pure (some (ASTNode.mk "arith_tail"
          [och arith_op1_node, och term_node, och arith_tail_node] none))
    else if tyIn current ["~", ",", "]", ")", "||", "&&", ">", "<", ">=", "<=", "==", "!="] then
      PM.pure (some (ASTNode.mk "arith_tail_empty" [] none))
    else
      softErr ("[137-138] Expected operators or '~', got '" ++ optStr current ++ "'")
  | n + 1, .term =>
    PM.bind peekPM fun current =>
    if tyIn current FIRST_PRIMARY ∨ tyIsId current then
      PM.bind (runRule n .factor) fun factor_node =>
      PM.bind (runRule n .term_tail) fun term_tail_node =>
      PM.pure (some (ASTNode.mk "term" [och factor_node, och term_tail_node] none))
    else
      hardErr ("[139] Expected '(', identifier, value literal, or function call, got '" ++ optStr current ++ "'")
  | n + 1, .term_tail =>
    PM.bind peekPM fun current =>
    if tyIn current ["*", "/", "%"] then
      PM.bind (runRule n .arith_op2) fun arith_op2_node =>
      PM.bind peekPM fun next_tok =>
      if ¬ (tyIn next_tok FIRST_PRIMARY ∨ tyIsId next_tok) then
        hardErr ("[140-141] Expected expression after '" ++ ochildVal0 arith_op2_node ++ "' operator")
      else
        PM.bind (runRule n .factor) fun factor_node =>
        PM.bind (runRule n .term_tail) fun term_tail_node =>
        PM.pure (some (ASTNode.mk "term_tail"
          [och arith_op2_node, och factor_node, och term_tail_node] none))
    else if tyIn current ["~", "]", ",", ")", "||", "&&", ">", "<", ">=", "<=", "==", "!=", "+", "-"] then
      PM.pure (some (ASTNode.mk "term_tail_empty" [] none))
    else
      hardErr ("[140-141] Expected terminator '~' or continuation of expression, got '" ++ optStr current ++ "'.")
  | n + 1, .factor =>
    PM.bind peekPM fun current =>
    if tyIn current FIRST_PRIMARY ∨ tyIsId current then
      PM.bind (runRule n .primary) fun primary_node =>
      PM.pure (some (ASTNode.mk "factor" [och primary_node] none))
    else
      hardErr ("[142] Expected '(', identifier, value literal, or function call, got '" ++ optStr current ++ "'")
  | n + 1, .primary =>
    PM.bind peekPM fun current =>
    if current = some "(" then
      PM.bind (matchPM "(") fun _ =>
      PM.bind (runRule n .expr) fun expr_node =>
      PM.bind (matchPM ")") fun _ =>
      PM.pure (some (ASTNode.mk "primary" [och expr_node] none))
    else if tyIn current outFirst ∨ tyIsId current then
      PM.bind (runRule n .output) fun output_node =>
      PM.pure (some (ASTNode.mk "primary" [och output_node] none))
    else if current = some "!" then
      PM.bind (matchPM "!") fun _ =>
      PM.bind (matchPM "(") fun _ =>
      PM.bind (runRule n .logic_expr) fun logic_expr_node =>
      PM.bind (matchPM ")") fun _ =>
      PM.pure (some (ASTNode.mk "primary" [och logic_expr_node] none))
    else
      let msg :=
        if tyIn current ["+", "-", "*", "/", "%", "=", "+=", "-=", "*=", "/=", "%=", ">", "<", ">=", "<=", "==", "!="] then
          "Unexpected operator '" ++ optStr current ++ "' - expected value or identifier"
        else if tyIn current ["~", "\x7d", ",", ")"] then
          "[143-145] Incomplete expression - unexpected '" ++ optStr current ++ "'"
        else
          "[143-145] Expected value, identifier, or '(' in expression, got '" ++ optStr current ++ "'"
      hardErr msg
  | n + 1, .stmt_ctrl =>
    PM.bind peekPM fun current =>
    if tyIn current stmtFirst ∨ tyIsId current then
      PM.bind (runRule n .statement) fun statement_node =>
      PM.bind (runRule n .stmt_ctrl) fun stmt_ctrl_node =>
      PM.pure (some (ASTNode.mk "stmt_ctrl" [och statement_node, och stmt_ctrl_node] none))
    else if tyIn current ["resist", "flow"] then
      PM.bind (runRule n .ctrl_flow) fun ctrl_flow_node =>
      PM.bind (runRule n .stmt_ctrl) fun stmt_ctrl_node =>
      PM.pure (some (ASTNode.mk "stmt_ctrl" [och ctrl_flow_node, och stmt_ctrl_node] none))
    else if current = some "\x7d" then
      PM.pure (some (ASTNode.mk "stmt_ctrl_empty" [] none))
    else
      softErr ("[146-148] Expected statement(s), got '" ++ optStr current ++ "'")
  | n + 1, .ctrl_flow =>
    PM.bind peekPM fun current =>
    if current = some "resist" then
      PM.bind (matchPM "resist") fun _ =>
      PM.bind (matchPM "~") fun _ =>
      PM.pure (some (ASTNode.mk "ctrl_flow" [] (some "resist")))
    else if current = some "flow" then
      PM.bind (matchPM "flow") fun _ =>
      PM.bind (matchPM "~") fun _ =>
      PM.pure (some (ASTNode.mk "ctrl_flow" [] (some "flow")))
    else
      softErr ("[149-150] Expected 'resist' or 'flow', got '" ++ optStr current ++ "'")
  | n + 1, .conditioner =>
    PM.bind peekPM fun current =>
    if current = some "if" then
      PM.bind (runRule n .if_stat) fun if_stat_node =>
      PM.pure (some (ASTNode.mk "conditioner" [och if_stat_node] none))
    else if current = some "stream" then
      PM.bind (runRule n .switch_stat) fun switch_stat_node =>
      PM.pure (some (ASTNode.mk "conditioner" [och switch_stat_node] none))
    else
      softErr ("[151-152] Expected 'if' or 'stream', got '" ++ optStr current ++ "'")
  | n + 1, .if_stat =>
    PM.bind peekPM fun current =>
    if current = some "if" then
      PM.bind (matchPM "if") fun _ =>
      PM.bind (matchPM "(") fun _ =>
      PM.bind (runRule n .cond_stat) fun cond_stat_node =>
      PM.bind (matchPM ")") fun _ =>
      PM.bind (matchPM "\x7b") fun _ =>
      PM.bind (runRule n .stmt_ctrl) fun stmt_ctrl_node =>
      PM.bind (matchPM "\x7d") fun _ =>
      PM.bind (runRule n .if_tail) fun if_tail_node =>
      PM.pure (some (ASTNode.mk "if_stat"
        [och cond_stat_node, och stmt_ctrl_node, och if_tail_node] none))
    else
      softErr ("[153] Expected 'if', got '" ++ optStr current ++ "'")
  | n + 1, .if_tail =>
    PM.bind peekPM fun current =>
    if current = some "elseif" then
      PM.bind (matchPM "elseif") fun _ =>
      PM.bind (matchPM "(") fun _ =>
      PM.bind (runRule n .cond_stat) fun cond_stat_node =>
      PM.bind (matchPM ")") fun _ =>
      PM.bind (matchPM "\x7b") fun _ =>
      PM.bind (runRule n .stmt_ctrl) fun stmt_ctrl_node =>
      PM.bind (matchPM "\x7d") fun _ =>
      PM.bind (runRule n .if_tail) fun if_tail_node =>
      PM.pure (some (ASTNode.mk "if_tail"
        [och cond_stat_node, och stmt_ctrl_node, och if_tail_node] none))
    else if current = some "else" then
      PM.bind (matchPM "else") fun _ =>
      PM.bind (matchPM "\x7b") fun _ =>
      PM.bind (runRule n .stmt_ctrl) fun stmt_ctrl_node =>
      PM.bind (matchPM "\x7d") fun _ =>
      PM.pure (some (ASTNode.mk "if_tail" [och stmt_ctrl_node] none))
    else if tyIn current (["\x7d"] ++ stmtFirst ++ ["resist", "flow", "gasp"]) ∨ tyIsId current then
      PM.pure (some (ASTNode.mk "if_tail_empty" [] none))
    else
      softErr ("[154-156] Expected 'elseif' or 'else' or other statements, got '" ++ optStr current ++ "'")
  | n + 1, .cond_stat =>
    PM.bind peekPM fun current =>
    if tyIn current FIRST_PRIMARY ∨ tyIsId current then
      PM.bind (runRule n .expr) fun expr_node =>
      PM.pure (some (ASTNode.mk "cond_stat" [och expr_node] none))
    else
      softErr ("[157] Expected '(', identifier, value literal, or function call, got '" ++ optStr current ++ "'")
  | n + 1, .switch_stat =>
    PM.bind peekPM fun current =>
    if current = some "stream" then
      PM.bind (matchPM "stream") fun _ =>
      PM.bind (matchPM "(") fun _ =>
      PM.bind checkIdPM fun id_no =>
      PM.bind (runRule n .id_access) fun id_access_node =>
      PM.bind (matchPM ")") fun _ =>
      PM.bind (matchPM "\x7b") fun _ =>
      PM.bind (runRule n .switch_cases) fun switch_cases_node =>
      PM.bind (runRule n .switch_def) fun switch_def_node =>
      PM.bind (matchPM "\x7d") fun _ =>
      PM.pure (some (ASTNode.mk "switch_stat"
        [Child.node id_no, och id_access_node, och switch_cases_node, och switch_def_node] none))
    else
      softErr ("[158] Expected 'stream', got '" ++ optStr current ++ "'")
  | n + 1, .switch_cases =>
    PM.bind peekPM fun current =>
    if current = some "case" then
      PM.bind (matchPM "case") fun _ =>
      PM.bind (runRule n .switch_opts) fun switch_opts_node =>
      PM.bind (matchPM ":") fun _ =>
      PM.bind (runRule n .stmt_list) fun stmt_list_node =>
      PM.bind (matchPM "resist") fun _ =>
      PM.bind (matchPM "~") fun _ =>
      PM.bind (runRule n .switch_cases) fun switch_cases_node =>
      PM.pure (some (ASTNode.mk "switch_cases"
        [och switch_opts_node, och stmt_list_node, och switch_cases_node] none))
    else if tyIn current ["\x7d", "diffuse"] then
      PM.pure (some (ASTNode.mk "switch_cases_empty" [] none))
    else
      softErr ("[159-160] Expected 'case' or 'diffuse' or '\x7d', got '" ++ optStr current ++ "'")
  | n + 1, .switch_opts =>
    PM.bind peekPM fun current =>
    if current = some "int_lit" then
      PM.bind (matchPM "int_lit") fun litvalue =>
      PM.pure (some (ASTNode.mk "switch_opts" [] (some litvalue.value)))
    else if current = some "char_lit" then
      PM.bind (matchPM "char_lit") fun litvalue =>
      PM.pure (some (ASTNode.mk "switch_opts" [] (some litvalue.value)))
    else
      softErr ("[161-162] Expected integer type literal, got '" ++ optStr current ++ "'")
  | n + 1, .switch_def =>
    PM.bind peekPM fun current =>
    if current = some "diffuse" then
      PM.bind (matchPM "diffuse") fun _ =>
      PM.bind (matchPM ":") fun _ =>
      PM.bind (runRule n .stmt_list) fun stmt_list_node =>
      PM.bind (matchPM "resist") fun _ =>
      PM.bind (matchPM "~") fun _ =>
      PM.pure (some (ASTNode.mk "switch_def" [och stmt_list_node] none))
    else if current = some "\x7d" then
      PM.pure (some (ASTNode.mk "switch_def_empty" [] none))
    else
      softErr ("[163-165] Expected 'diffuse' or '\x7d', got '" ++ optStr current ++ "'")
  | n + 1, .iteration =>
    PM.bind peekPM fun current =>
    if current = some "cycle" then
      PM.bind (runRule n .while_loop) fun while_loop_node =>
      PM.pure (some (ASTNode.mk "iteration" [och while_loop_node] none))
    else if current = some "echo" then
      PM.bind (runRule n .for_loop) fun for_loop_node =>
      PM.pure (some (ASTNode.mk "iteration" [och for_loop_node] none))
    else if current = some "do" then
      PM.bind (runRule n .dowhile_loop) fun dowhile_loop_node =>
      PM.pure (some (ASTNode.mk "iteration" [och dowhile_loop_node] none))
    else
      softErr ("[165-167] Expected 'cycle' or 'echo' or 'do', got '" ++ optStr current ++ "'")
  | n + 1, .while_loop =>
    PM.bind peekPM fun current =>
    if current = some "cycle" then
      PM.bind (matchPM "cycle") fun _ =>
      PM.bind (matchPM "(") fun _ =>
      PM.bind (runRule n .cond_stat) fun cond_stat_node =>
      PM.bind (matchPM ")") fun _ =>
      PM.bind (matchPM "\x7b") fun _ =>
      PM.bind (runRule n .stmt_ctrl) fun stmt_ctrl_node =>
      PM.bind (matchPM "\x7d") fun _ =>
      PM.pure (some (ASTNode.mk "while_loop" [och cond_stat_node, och stmt_ctrl_node] none))
    else
      softErr ("[168] Expected 'cycle', got '" ++ optStr current ++ "'")
  | n + 1, .for_loop =>
    PM.bind peekPM fun current =>
    if current = some "echo" then
      PM.bind (matchPM "echo") fun _ =>
      PM.bind (matchPM "(") fun _ =>
      PM.bind (runRule n .for_init) fun for_init_node =>
      PM.bind (runRule n .cond_stat) fun cond_stat_node =>
      PM.bind (matchPM "~") fun _ =>
      PM.bind (runRule n .identifier_stat) fun identifier_stat_node =>
      PM.bind (matchPM ")") fun _ =>
      PM.bind (matchPM "\x7b") fun _ =>
      PM.bind (runRule n .stmt_ctrl) fun stmt_ctrl_node =>
      PM.bind (matchPM "\x7d") fun _ =>
      PM.pure (some (ASTNode.mk "while_loop"
        [och for_init_node, och cond_stat_node, och identifier_stat_node, och stmt_ctrl_node] none))
    else
      softErr ("[169] Expected 'echo', got '" ++ optStr current ++ "'")
  | n + 1, .dowhile_loop =>
    PM.bind peekPM fun current =>
    if current = some "do" then
      PM.bind (matchPM "do") fun _ =>
      PM.bind (matchPM "\x7b") fun _ =>
      PM.bind (runRule n .stmt_ctrl) fun stmt_ctrl_node =>
      PM.bind (matchPM "\x7d") fun _ =>
      PM.bind (matchPM "cycle") fun _ =>
      PM.bind (matchPM "(") fun _ =>
      PM.bind (runRule n .cond_stat) fun cond_stat_node =>
      PM.bind (matchPM ")") fun _ =>
      PM.bind (matchPM "~") fun _ =>
      PM.pure (some (ASTNode.mk "while_loop" [och stmt_ctrl_node, och cond_stat_node] none))
    else
      softErr ("[170] Expected 'do', got '" ++ optStr current ++ "'")
  | n + 1, .for_init =>
    PM.bind peekPM fun current =>
    if tyIn current dataTypeList then
      PM.bind (runRule n .normal) fun normal_node =>
      PM.pure (some (ASTNode.mk "for_init" [och normal_node] none))
    else if tyIn current ["++", "--"] ∨ tyIsId current then
      PM.bind (runRule n .identifier_stat) fun identifier_stat_node =>
      PM.pure (some (ASTNode.mk "for_init" [och identifier_stat_node] none))
    else
      softErr ("[170] Expected 'do', got '" ++ optStr current ++ "'")
  | n + 1, .function_call =>
    PM.bind peekPM fun current =>
    match current with
    | some nm =>
      if ["toRise", "toFall", "horizon", "sizeOf", "toInt", "toFloat", "toString", "toChar", "toBool"].contains nm then
        PM.bind (matchPM nm) fun _ =>
        PM.bind (matchPM "(") fun _ =>
        PM.bind (runRule n .param_item) fun param_item_node =>
        PM.bind (matchPM ")") fun _ =>
        PM.pure (some (ASTNode.mk "function_call" [och param_item_node] none))
      else if nm = "waft" then
        PM.bind (matchPM "waft") fun _ =>
        PM.bind (matchPM "(") fun _ =>
        PM.bind (runRule n .param_item) fun param_item1_node =>
        PM.bind (matchPM ",") fun _ =>
        PM.bind (runRule n .param_item) fun param_item2_node =>
        PM.bind (matchPM ")") fun _ =>
        PM.pure (some (ASTNode.mk "function_call" [och param_item1_node, och param_item2_node] none))
      else
        softErr ("[173-182] Expected function call (toRise, toFall, horizon, sizeOf, toInt, toFloat, toString, toChar, toBool, waft), got '" ++ nm ++ "'")
    | none =>
      softErr "[173-182] Expected function call (toRise, toFall, horizon, sizeOf, toInt, toFloat, toString, toChar, toBool, waft), got 'None'"
  | n + 1, .param_opts =>
    PM.bind peekPM fun current =>
    if tyIn current FIRST_PRIMARY ∨ tyIsId current then
      PM.bind (runRule n .param_list) fun param_list_node =>
      PM.pure (some (ASTNode.mk "param_opts" [och param_list_node] none))
    else if current = some ")" then
      PM.pure (some (ASTNode.mk "param_opts_empty" [] none))
    else
      softErr ("[183-184] Expected '(', ')', identifier, value literal, or function call, got '" ++ optStr current ++ "'")
  | n + 1, .param_list =>
    PM.bind peekPM fun current =>
    if tyIn current FIRST_PRIMARY ∨ tyIsId current then
      PM.bind (runRule n .param_item) fun param_item_node =>
      PM.bind (runRule n .param_tail) fun param_tail_node =>
      PM.pure (some (ASTNode.mk "param_opts" [och param_item_node, och param_tail_node] none))
    else
      softErr ("[185] Expected '(', identifier, value literal, or function call, got '" ++ optStr current ++ "'")
  | n + 1, .param_item =>
    PM.bind peekPM fun current =>
    if tyIn current FIRST_PRIMARY ∨ tyIsId current then
      PM.bind (runRule n .expr) fun expr_node =>
      PM.pure (some (ASTNode.mk "param_item" [och expr_node] none))
    else
      softErr ("[186] Expected '(', identifier, value literal, or function call, got '" ++ optStr current ++ "'")
  | n + 1, .param_tail =>
    PM.bind peekPM fun current =>
    if current = some "," then
      PM.bind (matchPM ",") fun _ =>
      PM.bind (runRule n .param_list) fun param_list_node =>
      PM.pure (some (ASTNode.mk "param_tail" [och param_list_node] none))
    else if current = some ")" then
      PM.pure (some (ASTNode.mk "param_tail_empty" [] none))
    else
      softErr ("[187-188] Expected ',' or ')', got '" ++ optStr current ++ "'")
  | n + 1, .return_stat =>
    PM.bind peekPM fun current =>
    if current = some "gasp" then
      PM.bind (matchPM "gasp") fun _ =>
      PM.bind (runRule n .expr) fun expr_node =>
      PM.bind (matchPM "~") fun _ =>
      PM.pure (some (ASTNode.mk "return_stat" [och expr_node] none))
    else if current = some "\x7d" then
      PM.pure (some (ASTNode.mk "return_stat_empty" [] none))
    else
      softErr ("[189-190] Expected 'gasp' or end of program, got '" ++ optStr current ++ "'")

/-- Fuel passed by `Parser.parse`: dominates the rule-call depth (at most
a constant chain of non-consuming rules between token consumptions). -/
def parseFuel (tokens : List Token) : Nat := tokens.length * 32 + 64

/-- `Parser(tokens).parse()`. -/
def Parser.parse (tokens : List Token) : Option ASTNode × List ParseError :=
  let p := Parser.initP tokens
  let current := p.peekTy
  if tyIn current ["universal", "air", "atmosphere"] then
    match runRule (parseFuel tokens) .program p with
    | (.ok ast, p') => (ast, p'.errors)
    | (.error _, p') => (none, p'.errors)
  else
    let p' := p.perror ("Program must start with 'universal', 'air', or 'atmosphere', got '" ++ optStr current ++ "'")
    (none, p'.errors)

/-! ### semantic.py: errors, symbols, scope stack, analyzer state -/

structure SemanticError where
  message : String
  line : Nat
  column : Nat
  deriving DecidableEq, Repr

structure Param where
  name : String
  type : String
  is_array : Bool
  dimensions : List String
  deriving DecidableEq, Repr

/-- The symbol dictionaries built by `declare_symbol`/`declare_global`:
every key of the Python dict becomes a field. -/
structure Symbol where
  name : String
  symbol_type : String
  data_type : String
  scope : String
  is_constant : Bool
  is_array : Bool
  array_dimensions : List String
  is_function : Bool
  params : List Param
  return_type : Option String
  is_structure : Bool
  struct_members : List (String × String)
  struct_type : Option String
  deriving DecidableEq, Repr

def mkSymbol (name symbol_type data_type : String) : Symbol :=
  { name := name, symbol_type := symbol_type, data_type := data_type, scope := "",
    is_constant := false, is_array := false, array_dimensions := [],
    is_function := false, params := [], return_type := none,
    is_structure := false, struct_members := [], struct_type := none }

/-- An ordered Python dict frame. -/
abbrev Frame := List (String × Symbol)

def frameHas (f : Frame) (k : String) : Bool := f.any (fun kv => kv.1 == k)

def frameGet (f : Frame) (k : String) : Option Symbol :=
  (f.find? (fun kv => kv.1 == k)).map Prod.snd

/-- Ordered string-keyed dict with Python assignment semantics
(overwrite keeps lookup behaviour; insertion appends). -/
def dictSetStr (m : List (String × String)) (k v : String) : List (String × String) :=
  if m.any (fun kv => kv.1 == k) then
    m.map (fun kv => if kv.1 == k then (kv.1, v) else kv)
  else m ++ [(k, v)]

def dictGetStr (m : List (String × String)) (k : String) : Option String :=
  (m.find? (fun kv => kv.1 == k)).map Prod.snd

def pmapSet (m : List (String × Nat × Nat)) (k : String) (v : Nat × Nat) : List (String × Nat × Nat) :=
  (m.filter (fun kv => kv.1 ≠ k)) ++ [(k, v)]

def pmapGet (m : List (String × Nat × Nat)) (k : String) : Option (Nat × Nat) :=
  (m.find? (fun kv => kv.1 == k)).map Prod.snd

def plistAppend (m : List (String × List (Nat × Nat))) (k : String) (v : Nat × Nat) :
    List (String × List (Nat × Nat)) :=
  if m.any (fun kv => kv.1 == k) then
    m.map (fun kv => if kv.1 == k then (kv.1, kv.2 ++ [v]) else kv)
  else m ++ [(k, [v])]

def plistGet (m : List (String × List (Nat × Nat))) (k : String) : Option (List (Nat × Nat)) :=
  (m.find? (fun kv => kv.1 == k)).map Prod.snd

/-- Python truthiness of an optional string (`None` and `''` are falsy). -/
def osTruthy : Option String → Bool
  | none => false
  | some s => s ≠ ""

/-- Python `x or default` on an optional string. -/
def orElseStr (o : Option String) (d : String) : String :=
  if osTruthy o then o.getD d else d

structure SState where
  -- scopes[0] is the global frame, the last frame is the innermost
  scopes : List Frame
  scope_stack : List String
  structures : List (String × List (String × String))
  errors : List SemanticError
  warnings : List SemanticError
  current_function : Option String
  current_function_return_type : Option String
  in_loop : Bool
  in_switch : Bool
  in_atmosphere : Bool
  has_return_in_current_func : Bool
  in_struct_member_access : Bool
  token_map : List (String × Nat × Nat)
  keyword_positions : List (String × List (Nat × Nat))
  literal_positions : List (String × List (Nat × Nat))
  identifier_map : List (String × String)
  deriving Repr

def NUMERIC_TYPES : List String := ["int", "float"]

def PRIMITIVE_TYPES : List String := ["int", "float", "char", "string", "bool"]

def UNARY_TYPES : List String := ["int", "char"]

def ARITHMETIC_TYPES : List String := ["int", "float", "char"]

def RELATIONAL_TYPES : List String := ["int", "float", "char"]

def CONCAT_TYPES : List String := ["string", "char"]

/-- Implicit conversions for declarations and assignments
(source type → set of valid targets). -/
def IMPLICIT_CONVERSIONS : List (String × List String) :=
  [("int", ["float", "bool", "char"]),
   ("float", ["int", "char", "bool"]),
   ("char", ["string", "int", "float"]),
   ("bool", ["int", "float"])]

/-- Stricter conversions for function parameters — only int↔float. -/
def PARAM_CONVERSIONS : List (String × List String) :=
  [("int", ["float"]), ("float", ["int"])]

def BUILTIN_RETURN_TYPES : List (String × String) :=
  [("toRise", "string"), ("toFall", "string"), ("horizon", "int"), ("sizeOf", "int"),
   ("toInt", "int"), ("toFloat", "float"), ("toString", "string"), ("toChar", "char"),
   ("toBool", "bool"), ("waft", "float")]

/-- `SemanticAnalyzer._types_compatible` (declaration/assignment table). -/
def types_compatible (target_type source_type : String) : Bool :=
  if target_type == source_type then true
  else
    match (IMPLICIT_CONVERSIONS.find? (fun kv => kv.1 == source_type)).map Prod.snd with
    | some targets => targets.contains target_type
    | none => false

/-- `SemanticAnalyzer._types_compatible_for_params` (strict table). -/
def types_compatible_for_params (param_type arg_type : String) : Bool :=
  if param_type == arg_type then true
  else
    match (PARAM_CONVERSIONS.find? (fun kv => kv.1 == arg_type)).map Prod.snd with
    | some targets => targets.contains param_type
    | none => false

/-- `SemanticAnalyzer._build_token_map` (also fills `keyword_positions`
and `literal_positions`). -/
def buildTokenMaps (tokens : List Token) :
    List (String × Nat × Nat) × List (String × List (Nat × Nat)) × List (String × List (Nat × Nat)) :=
  tokens.foldl
    (fun acc token =>
      let tm := acc.1
      let kw := acc.2.1
      let lit := acc.2.2
      if "id".data.isPrefixOf token.type.data then
        (pmapSet (pmapSet tm token.value (token.line, token.column)) token.type (token.line, token.column), kw, lit)
      else if ["gust", "air", "wind", "stream", "resist", "flow", "gasp",
               "cycle", "if", "elseif", "else", "inhale", "exhale",
               "atmosphere", "echo", "do"].contains token.type then
        let kw' := plistAppend kw token.type (token.line, token.column)
        let tm' := if (pmapGet tm token.type).isSome then tm else pmapSet tm token.type (token.line, token.column)
        (tm', kw', lit)
      else if ["int_lit", "float_lit", "string_lit", "char_lit"].contains token.type then
        (pmapSet tm token.type (token.line, token.column),
         kw, plistAppend lit token.value (token.line, token.column))
      else (tm, kw, lit))
    ([], [], [])

/-- `SemanticAnalyzer._build_identifier_map`. -/
def buildIdentifierMap (tokens : List Token) : List (String × String) :=
  tokens.foldl
    (fun m token =>
      if "id".data.isPrefixOf token.type.data then dictSetStr m token.type token.value else m)
    []

def SState.get_actual_name (s : SState) (identifier : String) : String :=
  (dictGetStr s.identifier_map identifier).getD identifier

def SState.serr (s : SState) (message : String) (line column : Nat) : SState :=
  { s with errors := s.errors ++ [SemanticError.mk message line column] }

def SState.get_location (s : SState) (identifier : String) : Nat × Nat :=
  (pmapGet s.token_map identifier).getD (0, 0)

/-- `get_location` applied to a possibly-`None` value (a missing key,
including `None`, yields `(0, 0)`). -/
def SState.get_location_opt (s : SState) (identifier : Option String) : Nat × Nat :=
  match identifier with
  | some i => s.get_location i
  | none => (0, 0)

def SState.get_literal_location (s : SState) (value : String) : Nat × Nat :=
  -- the Python fallback through `str(value)` coincides with the direct
  -- lookup for string values
  match plistGet s.literal_positions value with
  | some (p :: _) => p
  | _ => (0, 0)

def SState.get_literal_location_opt (s : SState) (value : Option String) : Nat × Nat :=
  match value with
  | some v => s.get_literal_location v
  | none => (0, 0)

def SState.enter_scope (s : SState) (scope_name : String) : SState :=
  { s with scopes := s.scopes ++ [[]], scope_stack := s.scope_stack ++ [scope_name] }

def SState.exit_scope (s : SState) : SState :=
  if s.scopes.length > 1 then
    { s with scopes := s.scopes.dropLast, scope_stack := s.scope_stack.dropLast }
  else s

/-- `declare_symbol`: only the innermost frame is consulted. -/
def SState.declare_symbol (s : SState) (sym : Symbol) : Bool × SState :=
  let frame := (s.scopes.getLast?).getD []
  if frameHas frame sym.name then (false, s)
  else
    let sym' := { sym with scope := (s.scope_stack.getLast?).getD "" }
    (true, { s with scopes := s.scopes.dropLast ++ [frame ++ [(sym.name, sym')]] })

/-- `declare_global`: writes into `scopes[0]`. -/
def SState.declare_global (s : SState) (sym : Symbol) : Bool × SState :=
  let frame := (s.scopes.head?).getD []
  if frameHas frame sym.name then (false, s)
  else
    let sym' := { sym with scope := "global" }
    (true, { s with scopes := (frame ++ [(sym.name, sym')]) :: s.scopes.tail })

/-- `lookup` walks innermost → outermost. -/
def SState.lookup (s : SState) (name : String) : Option Symbol :=
  (s.scopes.reverse.findSome? (fun frame => frameGet frame name))

def SState.lookup_opt (s : SState) (name : Option String) : Option Symbol :=
  match name with
  | some nm => s.lookup nm
  | none => none

def SState.is_global_scope (s : SState) : Bool := s.scopes.length == 1

def SState.define_structure (s : SState) (name : String) (members : List (String × String)) :
    Bool × SState :=
  if s.structures.any (fun kv => kv.1 == name) then (false, s)
  else (true, { s with structures := s.structures ++ [(name, members)] })

def SState.get_structure (s : SState) (name : String) : Option (List (String × String)) :=
  (s.structures.find? (fun kv => kv.1 == name)).map Prod.snd

def SState.get_structure_opt (s : SState) (name : Option String) : Option (List (String × String)) :=
  match name with
  | some nm => s.get_structure nm
  | none => none

/-! ### semantic.py: pure (state-free or read-only) helpers -/

def actualOpt (s : SState) (o : Option String) : String :=
  match o with
  | some v => s.get_actual_name v
  -- Python formats a missing name (None) as the string "None"
  | none => "None"

/-- `SemanticAnalyzer._get_value_type`. `int(value)` succeeds on an optionally
signed digit string with surrounding whitespace; `int(None)` raises. -/
def pyIntParseable (v : String) : Bool :=
  let t := (((v.data.dropWhile pyIsSpace).reverse.dropWhile pyIsSpace).reverse)
  let t2 := match t with
    | c :: rest => if c = '+' ∨ c = '-' then rest else t
    | [] => []
  ¬ t2.isEmpty ∧ t2.all pyIsDigit

def get_value_type (value : Option String) : Option String :=
  match value with
  | some v =>
    if v == "yuh" ∨ v == "naur" then some "bool"
    else if v.data.contains '.' then some "float"
    else if pyIntParseable v then some "int"
    else none
  | none => none

/- Computable sizes for the mutual AST inductives (the derived `SizeOf`
instance is not executable); used only as recursion fuel for the pure
tree-walking helpers below. -/
mutual

def astSize : ASTNode → Nat
  | .mk _ cs _ => 1 + childListSize cs

def childListSize : List Child → Nat
  | [] => 0
  | c :: rest => childSize c + childListSize rest

def childSize : Child → Nat
  | .node n => 1 + astSize n
  | _ => 1

end

def hasInfix (needle : List Char) : List Char → Bool
  | [] => needle.isEmpty
  | c :: rest => needle.isPrefixOf (c :: rest) || hasInfix needle rest

/-- The matches of the pattern at-sign `\x7b [^}]+ \x7d` in order
(`re.findall` in `_validate_string_interpolation`). Each step shrinks the
scanned list, so fuel `length + 1` is always enough. -/
def findInterpsGo : Nat → List Char → List String
  | 0, _ => []
  | _ + 1, [] => []
  | fuel + 1, '@' :: '\x7b' :: rest =>
    let content := rest.takeWhile (fun c => c ≠ '\x7d')
    let remair := rest.dropWhile (fun c => c ≠ '\x7d')
    (match remair with
    | '\x7d' :: tail =>
      if content.isEmpty then findInterpsGo fuel ('\x7b' :: rest)
      else String.mk content :: findInterpsGo fuel tail
    | _ => findInterpsGo fuel rest)
  | fuel + 1, _ :: rest => findInterpsGo fuel rest

def findInterps (cs : List Char) : List String :=
  findInterpsGo (cs.length + 1) cs

def stripStr (v : String) : String :=
  String.mk (((v.data.dropWhile pyIsSpace).reverse.dropWhile pyIsSpace).reverse)

/-- `SemanticAnalyzer._validate_string_interpolation` (the node argument is
used for error locations only). -/
def validate_string_interpolation (s : SState) (string_value : String)
    (node_for_location : Option ASTNode) (fvl : SState → ASTNode → Nat × Nat) : SState :=
  if string_value == "" ∨ ¬ (hasInfix "@\x7b".data string_value.data) then s
  else
    (findInterps string_value.data).foldl
      (fun st raw =>
        let id_str := stripStr raw
        if id_str == "" then st
        else
          let found := st.scopes.any (fun frame =>
            frame.any (fun kv => st.get_actual_name kv.1 == id_str))
          if found then st
          else
            let lc0 : Nat × Nat := match node_for_location with
              | some n => fvl st n
              | none => (0, 0)
            let lc := if lc0 = (0, 0) then st.get_literal_location string_value else lc0
            st.serr ("Undeclared identifier '" ++ id_str ++ "' in string interpolation")
              lc.1 lc.2)
      s

/-- `SemanticAnalyzer._find_value_location` on an arbitrary child (a `None`
or plain-string child yields `(0, 0)`). -/
def fvlChild : Nat → SState → Child → Nat × Nat
  | 0, _, _ => (0, 0)
  | fuel + 1, s, .node n =>
    if n.type == "value" then s.get_literal_location_opt n.value
    else if n.type == "output_content" then s.get_literal_location_opt n.value
    else if n.type == "identifier" then s.get_location_opt n.value
    else
      (n.children.foldl
        (fun acc c =>
          match acc with
          | some _ => acc
          | none =>
            let loc := fvlChild fuel s c
            if loc ≠ (0, 0) then some loc else none)
        none).getD (0, 0)
  | _ + 1, _, _ => (0, 0)

def find_value_location (s : SState) (n : ASTNode) : Nat × Nat :=
  fvlChild (astSize n + 1) s (Child.node n)

/-- `SemanticAnalyzer.get_node_location` (AST nodes never carry `line`/`column`
attributes, so that branch of the Python code is dead). -/
def gnlChild : Nat → SState → Child → Nat × Nat
  | 0, _, _ => (0, 0)
  | fuel + 1, s, .node n =>
    if n.type == "identifier" then s.get_location_opt n.value
    else if n.type == "value" then s.get_literal_location_opt n.value
    else
      (n.children.foldl
        (fun acc c =>
          match acc with
          | some _ => acc
          | none =>
            match c with
            | .node m =>
              if m.type == "identifier" then some (s.get_location_opt m.value)
              else if m.type == "value" then some (s.get_literal_location_opt m.value)
              else
                let loc := gnlChild fuel s (.node m)
                if loc ≠ (0, 0) then some loc else none
            | _ => none)
        none).getD (0, 0)
  | _ + 1, _, _ => (0, 0)

def get_node_location (s : SState) (n : ASTNode) : Nat × Nat :=
  gnlChild (astSize n + 1) s (Child.node n)

/-- `SemanticAnalyzer._is_literal_only`. A plain-string child reached where
Python reads `.type`/`.children` would raise (unreachable on parser output);
such children are treated as non-literals / non-operators here. -/
def iloChild : Nat → Child → Bool
  | 0, _ => false
  | fuel + 1, .node n =>
    if ["int_literal", "float_literal", "char_literal", "string_literal",
        "bool_literal", "value", "literal"].contains n.type then true
    else if n.type == "identifier" then false
    else if n.type == "operator" then false
    else if ["arith_expr", "arith_tail", "term", "term_tail",
             "logic_expr", "and_expr", "or_tail", "and_tail",
             "rela_expr", "rela_tail"].contains n.type then
      match n.children with
      | [] => false
      | [c] => iloChild fuel c
      | cs =>
        let has_operator := cs.any (fun c =>
          match c with
          | .node m =>
            ¬ m.children.isEmpty ∧
              (m.type == "operator" ∨
               ["arith_op1", "arith_op2", "rela_sym", "or_tail", "and_tail",
                "rela_tail", "arith_tail", "term_tail"].contains m.type)
          | _ => false)
        if has_operator then false
        else cs.all (fun c => iloChild fuel c)
    else if ["expr", "primary", "factor", "term", "output", "output_concat"].contains n.type then
      match n.children with
      | [] => true
      | [c] => iloChild fuel c
      | _ => false
    else if n.type == "function_call" then false
    else
      match n.children with
      | [] => true
      | [c] => iloChild fuel c
      | _ => false
  | _ + 1, _ => false

def is_literal_only (n : ASTNode) : Bool :=
  iloChild (astSize n + 1) (Child.node n)

/-- `SemanticAnalyzer._collect_struct_init_values` (returns the collected
`values` list in append order). -/
def csivChild : Nat → Child → List Child
  | 0, _ => []
  | fuel + 1, .node n =>
    n.children.foldl
      (fun acc c =>
        match c with
        | .node m =>
          if m.type == "value" ∨ m.type == "output_content" then acc ++ [Child.node m]
          else if m.type == "expr" then acc ++ [Child.node m]
          else if m.type == "identifier" then acc
          else acc ++ csivChild fuel (Child.node m)
        | _ => acc)
      []
  | _ + 1, _ => []

def collect_struct_init_values (n : ASTNode) : List Child :=
  csivChild (astSize n + 1) (Child.node n)

/-- `SemanticAnalyzer._collect_const_1d_values`. -/
def cc1vChild : Nat → Child → List Child
  | 0, _ => []
  | fuel + 1, .node n =>
    if n.children.isEmpty then []
    else if n.type == "const_1d" ∨ n.type == "element_tail" then
      let headVals : List Child :=
        match n.children.head? with
        | some (.node o) =>
          if o.type == "output" then
            match o.children with
            | v :: _ => [v]
            | [] => []
          else []
        | _ => []
      let tailVals : List Child :=
        if n.children.length > 1 then
          match n.children.get? 1 with
          | some c => cc1vChild fuel c
          | none => []
        else []
      headVals ++ tailVals
    else []
  | _ + 1, _ => []

def collect_const_1d_values (c : Child) : List Child :=
  cc1vChild (childSize c + 1) c

/-- `SemanticAnalyzer._extract_struct_members`: the index walk pairs each
`data_type` child with an immediately following `identifier` child (consuming
both); any other node child is recursed into. Fuel is consumed on every step
and is at least the number of child cells at call sites. -/
def esmGo : Nat → List Child → List (String × String) → List (String × String)
  | 0, _, acc => acc
  | _ + 1, [], acc => acc
  | fuel + 1, c :: rest, acc =>
    match c with
    | .node m =>
      if m.type == "data_type" then
        match rest with
        | (.node m2) :: rest2 =>
          if m2.type == "identifier" then
            esmGo fuel rest2 (dictSetStr acc (m2.value.getD "") (m.value.getD ""))
          else esmGo fuel rest acc
        | _ => esmGo fuel rest acc
      else esmGo fuel rest (esmGo fuel m.children acc)
    | _ => esmGo fuel rest acc

def extract_struct_members (n : ASTNode) : List (String × String) :=
  esmGo (2 * astSize n) n.children []

/-- `SemanticAnalyzer._extract_params`. The walk state mirrors the Python
locals `(data_type, param_name, is_array, dimensions)` plus the shared
`params` accumulator. Python reads `.type` on every child unguarded: on the
parser's non-node children inside `params_tail` it would raise an
AttributeError that `analyze` turns into a generic error; that path is not
modelled — non-node children are skipped. -/
def epGo : Nat → List Child →
    Option String × Option String × Bool × List String × List Param → List Param
  | 0, _, st => st.2.2.2.2
  | _ + 1, [], (dt, pn, ia, dims, acc) =>
    if osTruthy dt ∧ osTruthy pn then acc ++ [Param.mk (pn.getD "") (dt.getD "") ia dims]
    else acc
  | fuel + 1, c :: rest, (dt, pn, ia, dims, acc) =>
    match c with
    | .node m =>
      if m.type == "data_type" then epGo fuel rest (m.value, pn, ia, dims, acc)
      else if m.type == "identifier" then epGo fuel rest (dt, m.value, ia, dims, acc)
      else if m.type == "params_dim" then
        epGo fuel rest (dt, pn, (if ¬ m.children.isEmpty then true else ia), dims, acc)
      else if m.type == "params_tail" then
        let flushed :=
          if osTruthy dt ∧ osTruthy pn then
            (acc ++ [Param.mk (pn.getD "") (dt.getD "") ia dims],
             (none : Option String), (none : Option String), false, ([] : List String))
          else (acc, dt, pn, ia, dims)
        let acc2 := epGo fuel m.children (none, none, false, [], flushed.1)
        epGo fuel rest (flushed.2.1, flushed.2.2.1, flushed.2.2.2.1, flushed.2.2.2.2, acc2)
      else epGo fuel rest (dt, pn, ia, dims, acc)
    | _ => epGo fuel rest (dt, pn, ia, dims, acc)

def extract_params (n : ASTNode) : List Param :=
  if n.type == "params_empty" ∨ n.children.isEmpty then []
  else epGo (2 * astSize n) n.children (none, none, false, [], [])

/-- `SemanticAnalyzer._collect_param_items`. -/
def cpiNode : Nat → ASTNode → List ASTNode
  | 0, _ => []
  | fuel + 1, n =>
    n.children.foldl
      (fun acc c =>
        match c with
        | .node m =>
          if m.type == "param_item" then acc ++ [m]
          else if m.type == "expr" ∧ n.type == "param_item" then acc ++ [m]
          else acc ++ cpiNode fuel m
        | _ => acc)
      []

def collect_param_items (n : ASTNode) : List ASTNode :=
  cpiNode (astSize n + 1) n

/-- `SemanticAnalyzer._get_array_dimensions`. -/
def gadChildren : Nat → List Child → List String
  | 0, _ => []
  | fuel + 1, cs =>
    cs.foldl
      (fun acc c =>
        match c with
        | .node m =>
          if m.type == "size" ∧ ¬ m.children.isEmpty then acc ++ ["sized"]
          else if m.type == "size_empty" then acc ++ ["unsized"]
          else if m.type == "col_size" then acc ++ gadChildren fuel m.children
          else acc
        | _ => acc)
      []

def get_array_dimensions (n : ASTNode) : List String :=
  let dims := gadChildren (astSize n + 1) n.children
  if dims.isEmpty then ["unsized"] else dims

/-- `SemanticAnalyzer._is_array_element_compatible`. -/
def is_array_element_compatible (array_type element_type : String) : Bool :=
  if array_type == element_type then true
  else if array_type == "int" then ["int", "bool", "char", "float"].contains element_type
  else if array_type == "float" then ["float", "int"].contains element_type
  else if array_type == "char" then ["char", "int"].contains element_type
  else if array_type == "string" then ["string", "char"].contains element_type
  else if array_type == "bool" then ["bool", "int"].contains element_type
  else false

/-- `SemanticAnalyzer._handle_empty_return`. -/
def handle_empty_return (s : SState) : SState :=
  if osTruthy s.current_function_return_type ∧ s.current_function_return_type ≠ some "vacuum" then
    let lc := s.get_location "gasp"
    let func_name :=
      if s.current_function.isSome then actualOpt s s.current_function else "atmosphere"
    s.serr ("Function '" ++ func_name ++ "' should return a value of type '" ++
            (s.current_function_return_type.getD "") ++ "'") lc.1 lc.2
  else s

/-- `SemanticAnalyzer.visit_ctrl_flow`. -/
def visit_ctrl_flow (s : SState) (node : ASTNode) : SState :=
  if node.value == some "resist" then
    if ¬ s.in_loop ∧ ¬ s.in_switch then
      let lc := s.get_location "resist"
      s.serr "'resist' (break) must be inside a loop or stream (switch)" lc.1 lc.2
    else s
  else if node.value == some "flow" then
    if ¬ s.in_loop then
      let lc := s.get_location "flow"
      s.serr "'flow' (continue) must be inside a loop" lc.1 lc.2
    else s
  else s

/-- `SemanticAnalyzer._validate_struct_member_access`. Both names are optional
(Python passes possibly-`None` values; a `None` member is never a dict key and
is rendered as "None" in the message). -/
def validate_struct_member_access (s : SState) (struct_id member_id : Option String) :
    Option String × SState :=
  match struct_id with
  | none => (none, s)
  | some sid =>
    match s.lookup sid with
    | none => (none, s)
    | some symbol =>
      if ¬ osTruthy symbol.struct_type then (none, s)
      else
        match s.get_structure (symbol.struct_type.getD "") with
        | none => (none, s)
        | some struct_def =>
          let memberType : Option String :=
            match member_id with
            | some k => dictGetStr struct_def k
            | none => none
          match memberType with
          | none =>
            let lc := s.get_location_opt member_id
            let s' := s.serr ("'" ++ actualOpt s member_id ++ "' is not a member of structure '" ++
                              s.get_actual_name sid ++ "'") lc.1 lc.2
            (none, s')
          | some t => (some t, s)

/-! ### semantic.py: the visitor cluster

The mutually recursive methods of `SemanticAnalyzer` are defunctionalized
into a record of functions `SemFns`; `semFns n` ties the knot with `n`
levels of recursion fuel (each method-to-method hop consumes one level). -/

def osdTruthy : Option (List (String × String)) → Bool
  | some l => ¬ l.isEmpty
  | none => false

def childIsDot : Child → Bool
  | .leaf l => l == "."
  | _ => false

def getNodeChild (n : ASTNode) (i : Nat) : Option ASTNode :=
  match n.children.get? i with
  | some (.node m) => some m
  | _ => none

def find_value_location_child (s : SState) (c : Child) : Nat × Nat :=
  fvlChild (childSize c + 1) s c

structure SemFns where
  visit : SState → ASTNode → Option String × SState
  generic_visit : SState → ASTNode → SState
  visit_program : SState → ASTNode → SState
  visit_normal : SState → ASTNode → SState
  process_norm_tail : SState → ASTNode → String → SState
  visit_constant : SState → ASTNode → SState
  visit_struct_const : SState → ASTNode → SState
  check_const_initialization : SState → ASTNode → String → String → Option String → SState
  visit_structure : SState → ASTNode → SState
  validate_struct_init : SState → ASTNode → String → String → SState
  validate_struct_init_values : SState → String → List Child → String → SState
  visit_air_func : SState → ASTNode → SState
  visit_return_stat : SState → ASTNode → SState
  visit_identifier_stat : SState → ASTNode → SState
  visit_id_stat_body : SState → ASTNode → Option String → SState
  visit_id_access_for_assignment : SState → ASTNode → Option String → SState
  visit_id_stat_tail : SState → ASTNode → Option String → SState
  check_assignment : SState → ASTNode → Option String → Option String → SState
  check_function_call : SState → Option String → ASTNode → SState
  get_argument_types : SState → ASTNode → List (Option String) × SState
  visit_input_output : SState → ASTNode → SState
  visit_if_stat : SState → ASTNode → SState
  visit_switch_stat : SState → ASTNode → SState
  check_switch_cases : SState → ASTNode → Option String → Option String → SState
  visit_while_loop : SState → ASTNode → SState
  validate_exhale_output : SState → ASTNode → SState
  check_output_no_expression : SState → ASTNode → SState
  visit_id_access : SState → ASTNode → SState
  visit_identifier : SState → ASTNode → SState
  get_expression_type : SState → ASTNode → Option String × SState
  resolve_binary_type : SState → Option String → Child → Option String × SState
  resolve_function_call_type : SState → ASTNode → Option String × SState
  validate_predefined_function : SState → String → ASTNode → SState
  validate_array_size : SState → ASTNode → Option String → SState
  validate_array_elements : SState → ASTNode → String → Option String → SState
  validate_array_index : SState → ASTNode → SState
  visit_return_type : SState → ASTNode → Option String × SState
  visit_dimension : SState → ASTNode → SState

/-- The `for child in node.children: if hasattr(child, 'type'): self.visit(child)`
loop shared by many visitors. -/
def visitChildren (R : SemFns) (s : SState) (cs : List Child) : SState :=
  cs.foldl
    (fun st c =>
      match c with
      | .node m => (R.visit st m).2
      | _ => st)
    s

/-- `_get_expression_type` on an arbitrary child; `None` yields `None`
(a plain-string child would raise in Python — unreachable on parser output). -/
def gexprChild (R : SemFns) (s : SState) (c : Child) : Option String × SState :=
  match c with
  | .node m => R.get_expression_type s m
  | _ => (none, s)

namespace SemanticAnalyzer

/-- `SemanticAnalyzer.visit`: `getattr(self, f"visit_{node.type}", generic_visit)`
dispatch over the 47 `visit_*` methods that exist on the class. -/
def visit (R : SemFns) (s : SState) (node : ASTNode) : Option String × SState :=
  match node.type with
  | "program" => (none, R.visit_program s node)
  | "global_dec" => (none, visitChildren R s node.children)
  | "global_dec_empty" => (none, s)
  | "sub_functions" => (none, visitChildren R s node.children)
  | "sub_functions_empty" => (none, s)
  | "declaration" => (none, visitChildren R s node.children)
  | "normal" => (none, R.visit_normal s node)
  | "constant" => (none, R.visit_constant s node)
  | "structure" => (none, R.visit_structure s node)
  | "air_func" => (none, R.visit_air_func s node)
  | "return_stat" => (none, R.visit_return_stat s node)
  | "return_stat_empty" => (none, handle_empty_return s)
  | "body" => (none, visitChildren R s node.children)
  | "stmt_list" => (none, visitChildren R s node.children)
  | "stmt_list_empty" => (none, s)
  | "statement" => (none, visitChildren R s node.children)
  | "identifier_stat" => (none, R.visit_identifier_stat s node)
  | "input_output" => (none, R.visit_input_output s node)
  | "conditioner" => (none, visitChildren R s node.children)
  | "if_stat" => (none, R.visit_if_stat s node)
  | "if_tail" => (none, visitChildren R s node.children)
  | "if_tail_empty" => (none, s)
  | "switch_stat" => (none, R.visit_switch_stat s node)
  | "switch_def" => (none, visitChildren R s node.children)
  | "switch_def_empty" => (none, s)
  | "iteration" => (none, visitChildren R s node.children)
  | "while_loop" => (none, R.visit_while_loop s node)
  | "for_init" => (none, visitChildren R s node.children)
  | "stmt_ctrl" => (none, visitChildren R s node.children)
  | "stmt_ctrl_empty" => (none, s)
  | "ctrl_flow" => (none, visit_ctrl_flow s node)
  | "expr" => R.get_expression_type s node
  | "cond_stat" => (none, visitChildren R s node.children)
  | "output" => (none, visitChildren R s node.children)
  | "id_access" => (none, R.visit_id_access s node)
  | "identifier" => (none, R.visit_identifier s node)
  | "data_type" => (node.value, s)
  | "return_type" => R.visit_return_type s node
  | "norm_dec" => (none, visitChildren R s node.children)
  | "norm_dec_empty" => (none, s)
  | "norm_tail" => (none, visitChildren R s node.children)
  | "norm_tail_empty" => (none, s)
  | "array" => (none, visitChildren R s node.children)
  | "array_empty" => (none, s)
  | "id_tail" => (none, visitChildren R s node.children)
  | "dimension" => (none, R.visit_dimension s node)
  | "dimension_empty" => (none, s)
  | _ => (none, R.generic_visit s node)

/-- `SemanticAnalyzer.visit_program`. -/
def visit_program (R : SemFns) (s : SState) (node : ASTNode) : SState :=
  node.children.foldl
    (fun st c =>
      match c with
      | .node m =>
        if m.type == "body" then
          let st1 := { st with in_atmosphere := true }
          let st2 := st1.enter_scope "atmosphere"
          let st3 := (R.visit st2 m).2
          let st4 := st3.exit_scope
          { st4 with in_atmosphere := false }
        else (R.visit st m).2
      | _ => st)
    s

/-- The shared `norm_dec` block of `visit_normal` / `_process_norm_tail`:
returns `(is_array, dimensions, state)` after the array-size / initializer
checks. -/
def normDecCheck (R : SemFns) (s : SState) (norm_dec : ASTNode)
    (identifier : Option String) (dt : String) : Bool × List String × SState :=
  if norm_dec.type == "norm_dec" ∧ ¬ norm_dec.children.isEmpty then
    match getNodeChild norm_dec 0 with
    | some first_child =>
      if first_child.type == "row_size" then
        let dims := get_array_dimensions first_child
        let s1 := R.validate_array_size s first_child identifier
        let s2 :=
          if norm_dec.children.length > 1 then
            match getNodeChild norm_dec 1 with
            | some array_node =>
              if array_node.type == "array" ∧ ¬ array_node.children.isEmpty then
                R.validate_array_elements s1 array_node dt identifier
              else s1
            | none => s1
          else s1
        (true, dims, s2)
      else if first_child.type == "operator" ∧ first_child.value == some "=" then
        if norm_dec.children.length > 1 then
          match getNodeChild norm_dec 1 with
          | some init_expr =>
            let s1 := R.generic_visit s init_expr
            let res := R.get_expression_type s1 init_expr
            let init_type := res.1
            let s2 := res.2
            if osTruthy init_type ∧ ¬ types_compatible dt (init_type.getD "") then
              let lc := s2.get_location_opt identifier
              (false, [],
               s2.serr ("Type mismatch: cannot assign '" ++ init_type.getD "" ++ "' to '" ++
                        dt ++ "' variable '" ++ actualOpt s2 identifier ++ "'") lc.1 lc.2)
            else (false, [], s2)
          | none => (false, [], s)
        else (false, [], s)
      else (false, [], s)
    | none => (false, [], s)
  else (false, [], s)

/-- `SemanticAnalyzer.visit_normal`. -/
def visit_normal (R : SemFns) (s : SState) (node : ASTNode) : SState :=
  if node.children.isEmpty then s
  else
    let data_type : Option String :=
      match getNodeChild node 0 with
      | some m => if m.type == "data_type" then m.value else none
      | none => none
    let identifier : Option String :=
      if node.children.length > 1 then
        match getNodeChild node 1 with
        | some m => if m.type == "identifier" then m.value else none
        | none => none
      else none
    if osTruthy data_type ∧ osTruthy identifier then
      let dt := data_type.getD ""
      let idv := identifier.getD ""
      let step :=
        if node.children.length > 2 then
          match getNodeChild node 2 with
          | some norm_dec => normDecCheck R s norm_dec identifier dt
          | none => (false, [], s)
        else (false, [], s)
      let s3 := step.2.2
      let decl := s3.declare_symbol
        { mkSymbol idv "variable" dt with is_array := step.1, array_dimensions := step.2.1 }
      let s5 :=
        if decl.1 then decl.2
        else
          let lc := decl.2.get_location idv
          decl.2.serr ("Variable '" ++ decl.2.get_actual_name idv ++
                       "' is already declared in this scope") lc.1 lc.2
      if node.children.length > 3 then
        match getNodeChild node 3 with
        | some c3 => R.process_norm_tail s5 c3 dt
        | none => s5
      else s5
    else s

/-- The index walk of `_process_norm_tail` (each step advances by one child;
the following child is only inspected, never consumed). -/
def pntGo (R : SemFns) (data_type : String) : List Child → SState → SState
  | [], s => s
  | c :: rest, s =>
    match c with
    | .node m =>
      if m.type == "identifier" then
        let identifier := m.value
        let step :=
          match rest.head? with
          | some (.node nd) => normDecCheck R s nd identifier data_type
          | _ => (false, [], s)
        let s3 := step.2.2
        let decl := s3.declare_symbol
          { mkSymbol (identifier.getD "") "variable" data_type with
              is_array := step.1, array_dimensions := step.2.1 }
        let s5 :=
          if decl.1 then decl.2
          else
            let lc := decl.2.get_location_opt identifier
            decl.2.serr ("Variable '" ++ actualOpt decl.2 identifier ++
                         "' is already declared in this scope") lc.1 lc.2
        pntGo R data_type rest s5
      else if m.type == "norm_tail" then
        pntGo R data_type rest (R.process_norm_tail s m data_type)
      else pntGo R data_type rest s
    | _ => pntGo R data_type rest s

/-- `SemanticAnalyzer._process_norm_tail`. -/
def process_norm_tail (R : SemFns) (s : SState) (node : ASTNode) (data_type : String) : SState :=
  if node.type == "norm_tail_empty" ∨ node.children.isEmpty then s
  else pntGo R data_type node.children s

/-- `SemanticAnalyzer.visit_constant`. -/
def visit_constant (R : SemFns) (s : SState) (node : ASTNode) : SState :=
  if node.children.isEmpty then s
  else
    match getNodeChild node 0 with
    | none => s
    | some first_child =>
      if first_child.type == "struct_const" then R.visit_struct_const s first_child
      else
        let data_type := if first_child.type == "data_type" then first_child.value else none
        let identifier : Option String :=
          if node.children.length > 1 then
            match getNodeChild node 1 with
            | some m => if m.type == "identifier" then m.value else none
            | none => none
          else none
        if osTruthy data_type ∧ osTruthy identifier then
          let dt := data_type.getD ""
          let idv := identifier.getD ""
          let actual_name := s.get_actual_name idv
          let has_init :=
            if node.children.length > 2 then
              match getNodeChild node 2 with
              | some const_dec =>
                if const_dec.type == "const_dec" ∧ ¬ const_dec.children.isEmpty then
                  const_dec.children.any (fun c =>
                    match c with
                    | .node cm =>
                      (cm.type == "operator" ∧ cm.value == some "=") ∨
                      cm.type == "expr" ∨ cm.type == "row_size"
                    | _ => false)
                else false
              | none => false
            else false
          let s1 :=
            if ¬ has_init then
              let lc := s.get_location idv
              s.serr ("Constant '" ++ actual_name ++ "' must be initialized at declaration")
                lc.1 lc.2
            else s
          let decl := s1.declare_symbol { mkSymbol idv "constant" dt with is_constant := true }
          let s3 :=
            if decl.1 then decl.2
            else
              let lc := decl.2.get_location idv
              decl.2.serr ("Constant '" ++ actual_name ++ "' is already declared in this scope")
                lc.1 lc.2
          if node.children.length > 2 then
            match getNodeChild node 2 with
            | some c2 => R.check_const_initialization s3 c2 dt idv (some actual_name)
            | none => s3
          else s3
        else s

/-- `SemanticAnalyzer._check_const_initialization`. -/
def check_const_initialization (R : SemFns) (s : SState) (node : ASTNode)
    (expected_type const_name : String) (actual_name : Option String) : SState :=
  if node.children.isEmpty then s
  else
    let display_name :=
      if osTruthy actual_name then actual_name.getD "" else s.get_actual_name const_name
    node.children.foldl
      (fun st c =>
        match c with
        | .node m =>
          if m.type == "expr" then
            let st1 :=
              if ¬ is_literal_only m then
                let lc := st.get_location const_name
                st.serr ("Constant '" ++ display_name ++
                         "' must be initialized with a standalone literal, not an expression")
                  lc.1 lc.2
              else st
            let res := R.get_expression_type st1 m
            let init_type := res.1
            let st2 := res.2
            if osTruthy init_type ∧ ¬ types_compatible expected_type (init_type.getD "") then
              let lc := st2.get_location const_name
              st2.serr ("Type mismatch: cannot initialize constant '" ++ display_name ++
                        "' of type '" ++ expected_type ++ "' with '" ++ init_type.getD "" ++ "'")
                lc.1 lc.2
            else st2
          else st
        | _ => st)
      s

/-- `SemanticAnalyzer._visit_struct_const`. -/
def visit_struct_const (R : SemFns) (s : SState) (node : ASTNode) : SState :=
  if node.children.isEmpty ∨ node.children.length < 4 then s
  else
    let struct_type : Option String := (getNodeChild node 0).bind ASTNode.value
    let var_name : Option String := (getNodeChild node 1).bind ASTNode.value
    match node.children.get? 3 with
    | none => s
    | some const_1d_node =>
      if ¬ (osTruthy struct_type ∧ osTruthy var_name) then s
      else
        let stv := struct_type.getD ""
        let vnv := var_name.getD ""
        let struct_def := s.get_structure stv
        let s1 :=
          if ¬ osdTruthy struct_def then
            let bad :=
              match s.lookup stv with
              | none => true
              | some sym => ¬ sym.is_structure
            if bad then
              let lc := s.get_location stv
              s.serr ("Undefined structure type '" ++ s.get_actual_name stv ++ "'") lc.1 lc.2
            else s
          else s
        let init_values := collect_const_1d_values const_1d_node
        let actual_var := s1.get_actual_name vnv
        let s2 :=
          if osdTruthy struct_def ∧ init_values.length ≠ (struct_def.getD []).length then
            let lc := s1.get_location vnv
            s1.serr ("Constant structure '" ++ actual_var ++
                     "' must be fully initialized: expects " ++
                     toString (struct_def.getD []).length ++ " value(s), got " ++
                     toString init_values.length) lc.1 lc.2
          else if ¬ init_values.isEmpty then
            R.validate_struct_init_values s1 stv init_values vnv
          else s1
        let sym := { mkSymbol vnv "struct_instance" stv with
                       is_constant := true, struct_type := some stv }
        let decl := if s2.is_global_scope then s2.declare_global sym else s2.declare_symbol sym
        if decl.1 then decl.2
        else
          let lc := decl.2.get_location vnv
          decl.2.serr ("Constant '" ++ actual_var ++ "' is already declared in this scope")
            lc.1 lc.2

/-- `SemanticAnalyzer._validate_struct_init`. -/
def validate_struct_init (R : SemFns) (s : SState) (struct_tail : ASTNode)
    (struct_type var_name : String) : SState :=
  let init_values := collect_struct_init_values struct_tail
  if ¬ init_values.isEmpty then R.validate_struct_init_values s struct_type init_values var_name
  else s

/-- `SemanticAnalyzer._validate_struct_init_values`. -/
def validate_struct_init_values (R : SemFns) (s : SState) (struct_type : String)
    (init_values : List Child) (var_name : String) : SState :=
  match s.get_structure struct_type with
  | none => s
  | some struct_def =>
    if struct_def.isEmpty then s
    else
      let actual_var := s.get_actual_name var_name
      if init_values.length ≠ struct_def.length then
        let lc := s.get_location var_name
        s.serr ("Structure '" ++ actual_var ++ "' initialization expects " ++
                toString struct_def.length ++ " value(s), got " ++
                toString init_values.length) lc.1 lc.2
      else
        (init_values.zip struct_def).foldl
          (fun st pair =>
            let val_node := pair.1
            let member_name_raw := pair.2.1
            let expected_type := pair.2.2
            let res := gexprChild R st val_node
            let val_type := res.1
            let st1 := res.2
            if osTruthy val_type ∧ ¬ types_compatible expected_type (val_type.getD "") then
              let lc0 := find_value_location_child st1 val_node
              let lc := if lc0 = (0, 0) then st1.get_location var_name else lc0
              st1.serr ("Type mismatch in structure '" ++ actual_var ++
                        "' initialization: member '" ++ st1.get_actual_name member_name_raw ++
                        "' expects '" ++ expected_type ++ "', got '" ++ val_type.getD "" ++ "'")
                lc.1 lc.2
            else st1)
          s

/-- `SemanticAnalyzer.visit_structure`. -/
def visit_structure (R : SemFns) (s : SState) (node : ASTNode) : SState :=
  if node.children.isEmpty then s
  else
    let identifier : Option String :=
      match getNodeChild node 0 with
      | some m => if m.type == "identifier" then m.value else none
      | none => none
    if osTruthy identifier ∧ node.children.length > 1 then
      let idv := identifier.getD ""
      match getNodeChild node 1 with
      | none => s
      | some struct_tail =>
        if struct_tail.type == "struct_tail" ∧ ¬ struct_tail.children.isEmpty then
          match getNodeChild struct_tail 0 with
          | none => s
          | some first_child =>
            if first_child.type == "data_type" then
              let members := extract_struct_members struct_tail
              let s1 :=
                if members.isEmpty then
                  let lc := s.get_location idv
                  s.serr ("Structure '" ++ s.get_actual_name idv ++
                          "' must have at least one member") lc.1 lc.2
                else s
              match members.find? (fun kv => s1.structures.any (fun st => st.1 == kv.2)) with
              | some mem =>
                let lc := s1.get_location idv
                s1.serr ("Nesting prohibited: structure '" ++ s1.get_actual_name idv ++
                         "' cannot have member '" ++ s1.get_actual_name mem.1 ++
                         "' of type gust (gust cannot be defined inside another gust)")
                  lc.1 lc.2
              | none =>
                let defd := s1.define_structure idv members
                let s3 :=
                  if defd.1 then defd.2
                  else
                    let lc := defd.2.get_location idv
                    defd.2.serr ("Structure '" ++ defd.2.get_actual_name idv ++
                                 "' is already defined") lc.1 lc.2
                (s3.declare_global { mkSymbol idv "structure" "gust" with
                                       is_structure := true, struct_members := members }).2
            else if first_child.type == "identifier" then
              let struct_type := idv
              let vn := (first_child.value).getD ""
              let struct_def := s.get_structure struct_type
              let s1 :=
                if ¬ osdTruthy struct_def then
                  let bad :=
                    match s.lookup struct_type with
                    | none => true
                    | some sym => ¬ sym.is_structure
                  if bad then
                    let lc := s.get_location idv
                    s.serr ("Undefined structure type '" ++ s.get_actual_name struct_type ++ "'")
                      lc.1 lc.2
                  else s
                else s
              let decl := s1.declare_symbol { mkSymbol vn "struct_instance" struct_type with
                                                struct_type := some struct_type }
              let s3 :=
                if decl.1 then decl.2
                else
                  let lc := decl.2.get_location vn
                  decl.2.serr ("Variable '" ++ decl.2.get_actual_name vn ++
                               "' is already declared in this scope") lc.1 lc.2
              R.validate_struct_init s3 struct_tail struct_type vn
            else s
        else s
    else s

/-- `SemanticAnalyzer.visit_air_func`: the function symbol is stored in the
global frame when this declaration is visited, before its own body. -/
def visit_air_func (R : SemFns) (s : SState) (node : ASTNode) : SState :=
  if node.children.isEmpty then s
  else
    let info := node.children.foldl
      (fun (acc : Option String × Option String × List Param) c =>
        match c with
        | .node m =>
          if m.type == "return_type" then
            if osTruthy m.value then (m.value, acc.2.1, acc.2.2)
            else
              match getNodeChild m 0 with
              | some d => if d.type == "data_type" then (d.value, acc.2.1, acc.2.2) else acc
              | none => acc
          else if m.type == "identifier" then (acc.1, m.value, acc.2.2)
          else if m.type == "params" then (acc.1, acc.2.1, extract_params m)
          else acc
        | _ => acc)
      (none, none, [])
    let return_type := info.1
    let func_name := info.2.1
    let params := info.2.2
    if ¬ osTruthy func_name then s
    else
      let fn := func_name.getD ""
      let rt := orElseStr return_type "vacuum"
      let decl := s.declare_global { mkSymbol fn "function" rt with
                                       is_function := true, params := params,
                                       return_type := some rt }
      let s2 :=
        if decl.1 then decl.2
        else
          let lc := decl.2.get_location fn
          decl.2.serr ("Function '" ++ decl.2.get_actual_name fn ++ "' is already declared")
            lc.1 lc.2
      let prev_func := s2.current_function
      let prev_ret := s2.current_function_return_type
      let prev_has := s2.has_return_in_current_func
      let s3 := { s2 with current_function := some fn,
                          current_function_return_type := some rt,
                          has_return_in_current_func := false }
      let s4 := s3.enter_scope fn
      let s5 := params.foldl
        (fun st p =>
          (st.declare_symbol { mkSymbol p.name "variable" p.type with
                                 is_array := p.is_array,
                                 array_dimensions := p.dimensions }).2)
        s4
      let s6 := node.children.foldl
        (fun st c =>
          match c with
          | .node m =>
            if m.type == "body" ∨ m.type == "return_stat" then (R.visit st m).2 else st
          | _ => st)
        s5
      let s7 :=
        if s6.current_function_return_type ≠ some "vacuum" ∧ s6.has_return_in_current_func = false then
          let lc := s6.get_location fn
          s6.serr ("Function '" ++ s6.get_actual_name fn ++ "' with return type '" ++
                   (s6.current_function_return_type.getD "") ++
                   "' must return a value using 'gasp'") lc.1 lc.2
        else s6
      let s8 := s7.exit_scope
      { s8 with current_function := prev_func,
                current_function_return_type := prev_ret,
                has_return_in_current_func := prev_has }

/-- `SemanticAnalyzer.visit_return_stat`. -/
def visit_return_stat (R : SemFns) (s : SState) (node : ASTNode) : SState :=
  if node.type == "return_stat_empty" then handle_empty_return s
  else if node.children.isEmpty then s
  else if s.in_atmosphere ∧ s.current_function.isNone then
    let lc := s.get_location "gasp"
    s.serr "The 'atmosphere' function must not return any value" lc.1 lc.2
  else
    let s1 := { s with has_return_in_current_func := true }
    node.children.foldl
      (fun st c =>
        match c with
        | .node m =>
          if m.type == "expr" then
            let res := R.get_expression_type st m
            let return_type := res.1
            let st1 := res.2
            let func_name :=
              if osTruthy st1.current_function then
                st1.get_actual_name (st1.current_function.getD "")
              else "atmosphere"
            let lc := st1.get_location "gasp"
            if st1.current_function_return_type == some "vacuum" then
              st1.serr ("Function '" ++ func_name ++
                        "' has return type 'vacuum' but returns a value") lc.1 lc.2
            else if osTruthy return_type ∧ osTruthy st1.current_function_return_type then
              if ¬ types_compatible (st1.current_function_return_type.getD "")
                    (return_type.getD "") then
                st1.serr ("Return type mismatch in function '" ++ func_name ++ "': expected '" ++
                          st1.current_function_return_type.getD "" ++ "', got '" ++
                          return_type.getD "" ++ "'") lc.1 lc.2
              else st1
            else st1
          else st
        | _ => st)
      s1

end SemanticAnalyzer

namespace SemanticAnalyzer

/-- `SemanticAnalyzer.visit_identifier_stat`. -/
def visit_identifier_stat (R : SemFns) (s : SState) (node : ASTNode) : SState :=
  if node.children.isEmpty then s
  else
    let step := node.children.foldl
      (fun (acc : Bool × Option String × SState) c =>
        match c with
        | .node m =>
          if m.type == "unary_op" then (true, acc.2.1, acc.2.2)
          else if m.type == "identifier" then (acc.1, m.value, acc.2.2)
          else if m.type == "id_stat_body" then
            (acc.1, acc.2.1, R.visit_id_stat_body acc.2.2 m acc.2.1)
          else if m.type == "id_access" then (acc.1, acc.2.1, (R.visit acc.2.2 m).2)
          else acc
        | _ => acc)
      (false, none, s)
    let has_unary := step.1
    let identifier := step.2.1
    let s1 := step.2.2
    if osTruthy identifier then
      let idv := identifier.getD ""
      let actual_name := s1.get_actual_name idv
      match s1.lookup idv with
      | none =>
        let lc := s1.get_location idv
        s1.serr ("Undeclared identifier '" ++ actual_name ++ "'") lc.1 lc.2
      | some symbol =>
        if has_unary then
          let s2 :=
            if ¬ UNARY_TYPES.contains symbol.data_type then
              let lc := s1.get_location idv
              s1.serr ("Cannot apply increment/decrement to '" ++ actual_name ++
                       "' of type '" ++ symbol.data_type ++
                       "' (only 'int' and 'char' allowed)") lc.1 lc.2
            else s1
          if symbol.is_constant then
            let lc := s2.get_location idv
            s2.serr ("Cannot modify constant '" ++ actual_name ++ "'") lc.1 lc.2
          else s2
        else s1
    else s1

/-- The non-member-assignment loop at the end of `_visit_id_stat_body`. -/
def idStatBodyLoop (R : SemFns) (s : SState) (node : ASTNode)
    (identifier actual_name : Option String) : SState :=
  node.children.foldl
    (fun st c =>
      match c with
      | .node m =>
        if m.type == "param_opts" then R.check_function_call st identifier m
        else if m.type == "assignment" then R.check_assignment st m identifier actual_name
        else if m.type == "id_stat_tail" ∨ m.type == "identifier_stat" then
          R.visit_id_stat_tail st m identifier
        else if m.type == "id_access" then R.visit_id_access_for_assignment st m identifier
        else st
      | _ => st)
    s

/-- `SemanticAnalyzer._visit_id_stat_body`. -/
def visit_id_stat_body (R : SemFns) (s : SState) (node : ASTNode)
    (identifier : Option String) : SState :=
  if node.children.isEmpty then s
  else
    let actual_name : Option String :=
      if osTruthy identifier then some (s.get_actual_name (identifier.getD "")) else none
    let found := node.children.foldl
      (fun (acc : Option ASTNode × Option ASTNode) c =>
        match c with
        | .node m =>
          if m.type == "id_access" ∧ m.children.length ≥ 2 ∧
              (m.children.head?.map childIsDot).getD false then
            (some m, acc.2)
          else if m.type == "assignment" then (acc.1, some m)
          else if m.type == "id_stat_tail" ∧ ¬ m.children.isEmpty then
            match getNodeChild m 0 with
            | some first => if first.type == "assignment" then (acc.1, some first) else acc
            | none => acc
          else acc
        | _ => acc)
      (none, none)
    match found with
    | (some id_access_for_member, some assignment_node) =>
      if osTruthy identifier then
        match id_access_for_member.children.get? 1 with
        | some (.node mm) =>
          match mm.value with
          | none => s
          | some mval =>
            let vres := validate_struct_member_access s identifier (some mval)
            let member_type := vres.1
            let s1 := vres.2
            let symbol := s1.lookup (identifier.getD "")
            if (symbol.map Symbol.is_constant).getD false then
              let lc := s1.get_location_opt identifier
              s1.serr "Content of constant gust cannot be modified" lc.1 lc.2
            else if osTruthy member_type then
              let expr_node := assignment_node.children.findSome? (fun c =>
                match c with
                | .node cm => if cm.type == "expr" then some cm else none
                | _ => none)
              match expr_node with
              | some en =>
                let res := R.get_expression_type s1 en
                let expr_type := res.1
                let s2 := res.2
                if osTruthy expr_type ∧
                    ¬ types_compatible (member_type.getD "") (expr_type.getD "") then
                  let lc := s2.get_location_opt identifier
                  s2.serr ("Type mismatch: cannot assign '" ++ expr_type.getD "" ++
                           "' to member '" ++ s2.get_actual_name mval ++ "' of type '" ++
                           member_type.getD "" ++ "'") lc.1 lc.2
                else s2
              | none => s1
            else s1
        | _ => s
      else idStatBodyLoop R s node identifier actual_name
    | _ => idStatBodyLoop R s node identifier actual_name

/-- `SemanticAnalyzer._visit_id_access_for_assignment`. -/
def visit_id_access_for_assignment (R : SemFns) (s : SState) (node : ASTNode)
    (identifier : Option String) : SState :=
  node.children.foldl
    (fun st c =>
      match c with
      | .node m =>
        let st1 :=
          if m.type == "identifier" then
            (validate_struct_member_access st identifier m.value).2
          else st
        (R.visit st1 m).2
      | _ => st)
    s

/-- `SemanticAnalyzer._visit_id_stat_tail`. -/
def visit_id_stat_tail (R : SemFns) (s : SState) (node : ASTNode)
    (identifier : Option String) : SState :=
  let symbol := if osTruthy identifier then s.lookup (identifier.getD "") else none
  let actual_name : Option String :=
    if osTruthy identifier then some (s.get_actual_name (identifier.getD "")) else none
  node.children.foldl
    (fun st c =>
      match c with
      | .node m =>
        if m.type == "unary_op" then
          match symbol with
          | some sym =>
            let st1 :=
              if ¬ UNARY_TYPES.contains sym.data_type then
                let lc := st.get_location_opt identifier
                st.serr ("Cannot apply increment/decrement to '" ++ (actual_name.getD "None") ++
                         "' of type '" ++ sym.data_type ++
                         "' (only 'int' and 'char' allowed)") lc.1 lc.2
              else st
            if sym.is_constant then
              let lc := st1.get_location_opt identifier
              st1.serr ("Cannot modify constant '" ++ (actual_name.getD "None") ++ "'") lc.1 lc.2
            else st1
          | none => st
        else if m.type == "assignment" then R.check_assignment st m identifier actual_name
        else st
      | _ => st)
    s

/-- `SemanticAnalyzer._check_assignment`. The first scan stores `assi_op`
node values (always `None` on parser output) in `compound_op`, so compound
operators are only ever found by the raw-string scan. -/
def check_assignment (R : SemFns) (s : SState) (assignment_node : ASTNode)
    (identifier actual_name0 : Option String) : SState :=
  let symbol := if osTruthy identifier then s.lookup (identifier.getD "") else none
  let actual_name :=
    if actual_name0.isNone ∧ osTruthy identifier then
      some (s.get_actual_name (identifier.getD ""))
    else actual_name0
  match symbol with
  | none => s
  | some sym =>
    let s1 :=
      if sym.is_constant then
        let lc := s.get_location_opt identifier
        s.serr ("Cannot assign to constant '" ++ (actual_name.getD "None") ++ "'") lc.1 lc.2
      else s
    if assignment_node.children.isEmpty then s1
    else
      let scan := assignment_node.children.foldl
        (fun (acc : Option String × Option ASTNode) c =>
          match c with
          | .node m =>
            if m.type == "assi_op" then (m.value, acc.2)
            else if m.type == "operator" then (m.value, acc.2)
            else if m.type == "expr" then (acc.1, some m)
            else acc
          | _ => acc)
        (none, none)
      let compound_op : Option String :=
        match scan.1 with
        | some op => some op
        | none =>
          assignment_node.children.findSome? (fun c =>
            match c with
            | .leaf l =>
              if ["+=", "-=", "*=", "/=", "%=", "="].contains l then some l else none
            | _ => none)
      let s2 :=
        if compound_op.isSome ∧ ["+=", "-=", "*=", "/=", "%="].contains (compound_op.getD "") then
          let s2a :=
            if ¬ ARITHMETIC_TYPES.contains sym.data_type then
              let lc := s1.get_location_opt identifier
              s1.serr ("Compound assignment '" ++ compound_op.getD "" ++
                       "' cannot be applied to '" ++ (actual_name.getD "None") ++
                       "' of type '" ++ sym.data_type ++ "'") lc.1 lc.2
            else s1
          if compound_op == some "%=" ∧ sym.data_type ≠ "int" then
            let lc := s2a.get_location_opt identifier
            s2a.serr ("Modulus assignment '%%=' requires integer type, '" ++
                      (actual_name.getD "None") ++ "' is '" ++ sym.data_type ++ "'") lc.1 lc.2
          else s2a
        else s1
      match scan.2 with
      | some en =>
        let res := R.get_expression_type s2 en
        let expr_type := res.1
        let s3 := res.2
        if osTruthy expr_type ∧ ¬ types_compatible sym.data_type (expr_type.getD "") then
          let lc := s3.get_location_opt identifier
          s3.serr ("Type mismatch: cannot assign '" ++ expr_type.getD "" ++ "' to '" ++
                   sym.data_type ++ "' variable '" ++ (actual_name.getD "None") ++ "'")
            lc.1 lc.2
        else s3
      | none => s2

/-- `SemanticAnalyzer._check_function_call`. -/
def check_function_call (R : SemFns) (s : SState) (func_name : Option String)
    (param_opts_node : ASTNode) : SState :=
  if ¬ osTruthy func_name then s
  else
    let fn := func_name.getD ""
    let actual_name := s.get_actual_name fn
    if actual_name == "atmosphere" ∨ fn == "atmosphere" then
      let lc := s.get_location fn
      s.serr "'atmosphere' (main) function cannot be called" lc.1 lc.2
    else
      match s.lookup fn with
      | none =>
        let lc := s.get_location fn
        s.serr ("Undeclared function '" ++ actual_name ++ "'") lc.1 lc.2
      | some symbol =>
        if ¬ symbol.is_function then
          let lc := s.get_location fn
          s.serr ("'" ++ actual_name ++ "' is not a function") lc.1 lc.2
        else
          let gres := R.get_argument_types s param_opts_node
          let arg_types := gres.1
          let s1 := gres.2
          let expected_params := symbol.params
          if arg_types.length ≠ expected_params.length then
            let lc := s1.get_location fn
            s1.serr ("Function '" ++ actual_name ++ "' expects " ++
                     toString expected_params.length ++ " argument(s), got " ++
                     toString arg_types.length) lc.1 lc.2
          else
            ((arg_types.zip expected_params).enum).foldl
              (fun st ip =>
                let i := ip.1
                let arg_type := ip.2.1
                let param := ip.2.2
                if osTruthy arg_type ∧
                    ¬ types_compatible_for_params param.type (arg_type.getD "") then
                  let lc := st.get_location fn
                  st.serr ("Argument " ++ toString (i + 1) ++ " of function '" ++ actual_name ++
                           "': expected '" ++ param.type ++ "', got '" ++ arg_type.getD "" ++ "'")
                    lc.1 lc.2
                else st)
              s1

/-- The `process_params` walk of `_get_argument_types`: only `param_item`
children contribute expression types, and only `param_list` / `param_tail`
children are recursed into. -/
def gatNode (R : SemFns) : Nat → SState → ASTNode → List (Option String) × SState
  | 0, s, _ => ([], s)
  | fuel + 1, s, n =>
    n.children.foldl
      (fun (acc : List (Option String) × SState) c =>
        match c with
        | .node m =>
          if m.type == "param_item" then
            m.children.foldl
              (fun acc2 c2 =>
                match c2 with
                | .node e =>
                  if e.type == "expr" then
                    let res := R.get_expression_type acc2.2 e
                    (acc2.1 ++ [res.1], res.2)
                  else acc2
                | _ => acc2)
              acc
          else if m.type == "param_list" ∨ m.type == "param_tail" then
            let res := gatNode R fuel acc.2 m
            (acc.1 ++ res.1, res.2)
          else acc
        | _ => acc)
      ([], s)

/-- `SemanticAnalyzer._get_argument_types`. -/
def get_argument_types (R : SemFns) (s : SState) (param_opts_node : ASTNode) :
    List (Option String) × SState :=
  if param_opts_node.type == "param_opts_empty" then ([], s)
  else gatNode R (astSize param_opts_node + 1) s param_opts_node

/-- `SemanticAnalyzer.visit_input_output`. -/
def visit_input_output (R : SemFns) (s : SState) (node : ASTNode) : SState :=
  if node.children.isEmpty then s
  else
    let io_type : Option String :=
      match node.children.head? with
      | some (.leaf l) => some l
      | _ => none
    if io_type == some "inhale" then
      (node.children.drop 1).foldl
        (fun st c =>
          match c with
          | .node m =>
            if m.type == "identifier" then
              match st.lookup_opt m.value with
              | none =>
                let lc := st.get_location_opt m.value
                st.serr ("Undeclared identifier '" ++ actualOpt st m.value ++
                         "' in inhale statement") lc.1 lc.2
              | some sym =>
                if sym.is_constant then
                  let lc := st.get_location_opt m.value
                  st.serr ("Cannot read into constant '" ++ actualOpt st m.value ++ "'")
                    lc.1 lc.2
                else st
            else st
          | _ => st)
        s
    else if io_type == some "exhale" then
      (node.children.drop 1).foldl
        (fun st c =>
          match c with
          | .node m =>
            let st1 := if m.type == "output" then R.validate_exhale_output st m else st
            (R.visit st1 m).2
          | _ => st)
        s
    else s

/-- `SemanticAnalyzer.visit_if_stat`. -/
def visit_if_stat (R : SemFns) (s : SState) (node : ASTNode) : SState :=
  node.children.foldl
    (fun st c =>
      match c with
      | .node m =>
        if m.type == "cond_stat" then
          let res := R.get_expression_type st m
          let cond_type := res.1
          let st1 := res.2
          if osTruthy cond_type ∧
              ¬ ["bool", "int", "float", "char"].contains (cond_type.getD "") then
            let lc := get_node_location st1 m
            st1.serr ("Condition in 'if' must evaluate to a boolean-compatible type, got '" ++
                      cond_type.getD "" ++ "'") lc.1 lc.2
          else st1
        else if m.type == "stmt_ctrl" ∨ m.type == "if_tail" then (R.visit st m).2
        else st
      | _ => st)
    s

/-- `SemanticAnalyzer.visit_switch_stat` (sets `in_switch`, restores the old
value on exit). -/
def visit_switch_stat (R : SemFns) (s : SState) (node : ASTNode) : SState :=
  if node.children.isEmpty then s
  else
    let old_in_switch := s.in_switch
    let s0 := { s with in_switch := true }
    let step := node.children.foldl
      (fun (acc : Option String × Option String × SState) c =>
        match c with
        | .node m =>
          if m.type == "identifier" then
            let sv := m.value
            let st := acc.2.2
            match st.lookup_opt sv with
            | none =>
              let lc := st.get_location_opt sv
              (sv, acc.2.1,
               st.serr ("Undeclared identifier '" ++ actualOpt st sv ++
                        "' in stream statement") lc.1 lc.2)
            | some sym =>
              if ¬ ["int", "char"].contains sym.data_type then
                let lc := st.get_location_opt sv
                (sv, some sym.data_type,
                 st.serr ("Stream (switch) variable '" ++ actualOpt st sv ++
                          "' must be 'int' or 'char' type, got '" ++ sym.data_type ++ "'")
                   lc.1 lc.2)
              else (sv, some sym.data_type, st)
          else if m.type == "switch_cases" then
            (acc.1, acc.2.1, R.check_switch_cases acc.2.2 m acc.2.1 acc.1)
          else if m.type == "switch_def" then
            (acc.1, acc.2.1, (R.visit acc.2.2 m).2)
          else acc
        | _ => acc)
      (none, none, s0)
    { step.2.2 with in_switch := old_in_switch }

/-- `SemanticAnalyzer._check_switch_cases`. -/
def check_switch_cases (R : SemFns) (s : SState) (node : ASTNode)
    (switch_type switch_var : Option String) : SState :=
  if node.type == "switch_cases_empty" then s
  else
    node.children.foldl
      (fun st c =>
        match c with
        | .node m =>
          if m.type == "switch_opts" then st
          else if m.type == "stmt_list" then (R.visit st m).2
          else if m.type == "switch_cases" then R.check_switch_cases st m switch_type switch_var
          else (R.visit st m).2
        | _ => st)
      s

/-- `SemanticAnalyzer.visit_while_loop` (also used for `for` and `do-while`
nodes, which the parser labels `while_loop`). -/
def visit_while_loop (R : SemFns) (s : SState) (node : ASTNode) : SState :=
  let old_in_loop := s.in_loop
  let s0 := { s with in_loop := true }
  let s1 := node.children.foldl
    (fun st c =>
      match c with
      | .node m =>
        if m.type == "cond_stat" then (R.get_expression_type st m).2
        else (R.visit st m).2
      | _ => st)
    s0
  { s1 with in_loop := old_in_loop }

/-- `SemanticAnalyzer._validate_exhale_output`. -/
def validate_exhale_output (R : SemFns) (s : SState) (output_node : ASTNode) : SState :=
  if output_node.children.isEmpty then s
  else
    let s1 := R.check_output_no_expression s output_node
    let res := R.get_expression_type s1 output_node
    let expr_type := res.1
    let s2 := res.2
    if osTruthy expr_type ∧ (s2.get_structure (expr_type.getD "")).isSome then
      let lc0 := get_node_location s2 output_node
      let lc := if lc0 = (0, 0) then s2.get_location "exhale" else lc0
      s2.serr "Must access member; whole gusts cannot be displayed" lc.1 lc.2
    else s2

/-- `SemanticAnalyzer._check_output_no_expression`: the dedicated recursive
scan rejecting arithmetic / relational / logical material under an `output`
node, independent of type resolution. -/
def check_output_no_expression (R : SemFns) (s : SState) (node : ASTNode) : SState :=
  if ["arith_op1", "arith_op2", "rela_sym"].contains node.type then
    let lc := if osTruthy node.value then s.get_location (node.value.getD "") else (0, 0)
    s.serr "Expressions are not allowed as output in exhale; only identifiers, function calls, literals, and concatenation are permitted" lc.1 lc.2
  else if node.type == "arith_tail" ∧ ¬ node.children.isEmpty then
    let lc := s.get_location "exhale"
    s.serr "Arithmetic expressions are not allowed as output in exhale" lc.1 lc.2
  else if node.type == "rela_tail" ∧ ¬ node.children.isEmpty then
    let lc := s.get_location "exhale"
    s.serr "Relational expressions are not allowed as output in exhale" lc.1 lc.2
  else if (node.type == "or_tail" ∨ node.type == "and_tail") ∧ ¬ node.children.isEmpty then
    let lc := s.get_location "exhale"
    s.serr "Logical expressions are not allowed as output in exhale" lc.1 lc.2
  else
    node.children.foldl
      (fun st c =>
        match c with
        | .node m => R.check_output_no_expression st m
        | _ => st)
      s

/-- `SemanticAnalyzer.visit_id_access`. -/
def visit_id_access (R : SemFns) (s : SState) (node : ASTNode) : SState :=
  if node.children.isEmpty then s
  else if node.children.length ≥ 2 ∧ (node.children.head?.map childIsDot).getD false then
    let s1 := { s with in_struct_member_access := true }
    let s2 := visitChildren R s1 node.children
    { s2 with in_struct_member_access := false }
  else visitChildren R s node.children

/-- `SemanticAnalyzer.visit_identifier`. -/
def visit_identifier (R : SemFns) (s : SState) (node : ASTNode) : SState :=
  let s1 :=
    if osTruthy node.value then
      match s.lookup (node.value.getD "") with
      | none =>
        if ¬ s.in_struct_member_access then
          let lc := s.get_location_opt node.value
          s.serr ("Undeclared identifier '" ++ s.get_actual_name (node.value.getD "") ++ "'")
            lc.1 lc.2
        else s
      | some _ => s
    else s
  visitChildren R s1 node.children

end SemanticAnalyzer

namespace SemanticAnalyzer

/-- `SemanticAnalyzer._get_expression_type`. -/
def get_expression_type (R : SemFns) (s : SState) (node : ASTNode) : Option String × SState :=
  if node.type == "value" then
    let s1 :=
      if osTruthy node.value ∧ (node.value.getD "").data.contains '"' then
        validate_string_interpolation s (node.value.getD "") (some node) find_value_location
      else s
    (get_value_type node.value, s1)
  else if node.type == "identifier" then
    if osTruthy node.value ∧ node.children.isEmpty then
      match s.lookup (node.value.getD "") with
      | some sym => (some sym.data_type, s)
      | none => (none, s)
    else if node.children.length ≥ 2 then
      match getNodeChild node 0, getNodeChild node 1 with
      | some first, some id_tail =>
        if first.type == "identifier" ∧ id_tail.type == "id_tail" then
          let isCall : Bool :=
            (! id_tail.children.isEmpty) &&
              (match getNodeChild id_tail 0 with
               | some p0 => p0.type == "param_opts"
               | none => false)
          if isCall then
            match getNodeChild id_tail 0 with
            | some p0 =>
              let s1 := R.check_function_call s first.value p0
              match s1.lookup_opt first.value with
              | some sym =>
                if sym.is_function then (some (orElseStr sym.return_type "vacuum"), s1)
                else (none, s1)
              | none => (none, s1)
            | none => (none, s)
          else
            let bres := R.get_expression_type s first
            let base_type := bres.1
            let s1 := bres.2
            if ¬ osTruthy base_type then (none, s1)
            else if ¬ id_tail.children.isEmpty then
              match getNodeChild id_tail 0 with
              | some ia =>
                if ia.type == "id_access" ∧ ia.children.length ≥ 2 ∧
                    (ia.children.head?.map childIsDot).getD false then
                  match ia.children.get? 1 with
                  | some (.node mm) =>
                    let vres := validate_struct_member_access s1 first.value mm.value
                    if vres.1.isSome then (vres.1, vres.2)
                    else (base_type, vres.2)
                  | _ => (base_type, s1)
                else (base_type, s1)
              | none => (base_type, s1)
            else (base_type, s1)
        else (none, s)
      | _, _ => (none, s)
    else (none, s)
  else if node.type == "output_content" then
    let v := node.value
    let s1 :=
      if osTruthy v ∧ (v.getD "").data.contains '"' then
        validate_string_interpolation s (v.getD "") (some node) find_value_location
      else s
    let t :=
      if osTruthy v ∧ (v.getD "").length ≥ 2 then
        if (v.getD "").data.head? == some '"' then "string"
        else if (v.getD "").data.head? == some '\'' then "char"
        else "string"
      else "string"
    (some t, s1)
  else if node.type == "function_call" then R.resolve_function_call_type s node
  else if node.type == "output_tail" ∧ ¬ node.children.isEmpty then (some "string", s)
  else if node.type == "arith_tail" ∧ node.children.length ≥ 2 then
    let right := node.children.get? 1
    let rres :=
      match right with
      | some rc => gexprChild R s rc
      | none => (none, s)
    let right_type := rres.1
    let s1 := rres.2
    let op : Option String :=
      match getNodeChild node 0 with
      | some opn => opn.value
      | none => none
    let s2 :=
      if op == some "%" ∧ osTruthy right_type ∧ right_type ≠ some "int" then
        let lc :=
          match right with
          | some rc => find_value_location_child s1 rc
          | none => (0, 0)
        s1.serr ("Modulus operator '%%' requires integer operands, got '" ++
                 right_type.getD "" ++ "'") lc.1 lc.2
      else s1
    (right_type, s2)
  else if node.type == "term_tail" ∧ node.children.length ≥ 2 then
    let right := node.children.get? 1
    let rres :=
      match right with
      | some rc => gexprChild R s rc
      | none => (none, s)
    let right_type := rres.1
    let s1 := rres.2
    let op : Option String :=
      match getNodeChild node 0 with
      | some opn => opn.value
      | none => none
    let s2 :=
      if op == some "%" ∧ osTruthy right_type ∧ right_type ≠ some "int" then
        let lc :=
          match right with
          | some rc => find_value_location_child s1 rc
          | none => (0, 0)
        s1.serr ("Modulus operator '%%' requires integer operands, got '" ++
                 right_type.getD "" ++ "'") lc.1 lc.2
      else s1
    (right_type, s2)
  else if (node.type == "rela_tail" ∨ node.type == "and_tail" ∨ node.type == "or_tail") ∧
      ¬ node.children.isEmpty then
    (some "bool", s)
  else if ["expr", "logic_expr", "and_expr", "rela_expr", "arith_expr", "term", "factor",
           "primary", "size", "pdim_size", "row_size", "literal", "cond_stat",
           "output"].contains node.type ∧ ¬ node.children.isEmpty then
    let cres :=
      match node.children.head? with
      | some c => gexprChild R s c
      | none => (none, s)
    let child_type := cres.1
    let s1 := cres.2
    if node.type == "arith_expr" ∧ node.children.length > 1 then
      match node.children.get? 1 with
      | some t => R.resolve_binary_type s1 child_type t
      | none => (child_type, s1)
    else if node.type == "term" ∧ node.children.length > 1 then
      match node.children.get? 1 with
      | some t => R.resolve_binary_type s1 child_type t
      | none => (child_type, s1)
    else if node.type == "rela_expr" ∧ node.children.length > 1 then
      match getNodeChild node 1 with
      | some tail =>
        if tail.type == "rela_tail" ∧ ¬ tail.children.isEmpty then (some "bool", s1)
        else (child_type, s1)
      | none => (child_type, s1)
    else if node.type == "logic_expr" ∧ node.children.length > 1 then
      match getNodeChild node 1 with
      | some tail =>
        if tail.type == "or_tail" ∧ ¬ tail.children.isEmpty then (some "bool", s1)
        else (child_type, s1)
      | none => (child_type, s1)
    else if node.type == "and_expr" ∧ node.children.length > 1 then
      match getNodeChild node 1 with
      | some tail =>
        if tail.type == "and_tail" ∧ ¬ tail.children.isEmpty then (some "bool", s1)
        else (child_type, s1)
      | none => (child_type, s1)
    else (child_type, s1)
  else
    node.children.foldl
      (fun (acc : Option String × SState) c =>
        if osTruthy acc.1 then acc
        else
          match c with
          | .node m =>
            let res := R.get_expression_type acc.2 m
            if osTruthy res.1 then res else (none, res.2)
          | _ => acc)
      (none, s)

/-- `SemanticAnalyzer._resolve_binary_type`. -/
def resolve_binary_type (R : SemFns) (s : SState) (left_type : Option String)
    (tail : Child) : Option String × SState :=
  match tail with
  | .node tn =>
    if tn.children.isEmpty then (left_type, s)
    else if tn.type == "arith_tail_empty" ∨ tn.type == "term_tail_empty" then (left_type, s)
    else
      let op : Option String :=
        match tn.children.head? with
        | some (.node opn) => opn.value
        | _ => none
      let right_node := tn.children.get? 1
      let rres :=
        match right_node with
        | some rn => gexprChild R s rn
        | none => (none, s)
      let right_type := rres.1
      let s1 := rres.2
      let s2 :=
        if osTruthy left_type ∧ ¬ ARITHMETIC_TYPES.contains (left_type.getD "") then
          let lc := find_value_location_child s1 (Child.node tn)
          s1.serr ("Cannot perform arithmetic on type '" ++ left_type.getD "" ++ "'") lc.1 lc.2
        else s1
      let s3 :=
        if osTruthy right_type ∧ ¬ ARITHMETIC_TYPES.contains (right_type.getD "") then
          let lc :=
            match right_node with
            | some rn => find_value_location_child s2 rn
            | none => (0, 0)
          s2.serr ("Cannot perform arithmetic on type '" ++ right_type.getD "" ++ "'") lc.1 lc.2
        else s2
      if op == some "%" then
        let s4 :=
          if osTruthy left_type ∧ left_type ≠ some "int" then
            let lc := find_value_location_child s3 (Child.node tn)
            s3.serr ("Modulus operator '%%' requires integer operands, got '" ++
                     left_type.getD "" ++ "'") lc.1 lc.2
          else s3
        let s5 :=
          if osTruthy right_type ∧ right_type ≠ some "int" then
            let lc :=
              match right_node with
              | some rn => find_value_location_child s4 rn
              | none => (0, 0)
            s4.serr ("Modulus operator '%%' requires integer operands, got '" ++
                     right_type.getD "" ++ "'") lc.1 lc.2
          else s4
        (some "int", s5)
      else
        let result : Option String :=
          if left_type == some "float" ∨ right_type == some "float" then some "float"
          else if left_type == some "char" ∧ right_type == some "char" then some "int"
          else if left_type == some "char" ∨ right_type == some "char" then some "int"
          else if osTruthy left_type then left_type else right_type
        if tn.children.length > 2 then
          match tn.children.get? 2 with
          | some c2 => R.resolve_binary_type s3 result c2
          | none => (result, s3)
        else (result, s3)
  | _ => (left_type, s)

/-- `SemanticAnalyzer._resolve_function_call_type`: looks for a plain-string
function-name child (the parser never emits one, so built-in calls resolve
to `None`). -/
def resolve_function_call_type (R : SemFns) (s : SState) (node : ASTNode) :
    Option String × SState :=
  if node.children.isEmpty then (none, s)
  else
    let func_name : Option String := node.children.findSome? (fun c =>
      match c with
      | .leaf l => some l
      | _ => none)
    match func_name with
    | some fn =>
      if osTruthy (some fn) then
        match (BUILTIN_RETURN_TYPES.find? (fun kv => kv.1 == fn)).map Prod.snd with
        | some rt => (some rt, R.validate_predefined_function s fn node)
        | none => (none, s)
      else (none, s)
    | none => (none, s)

/-- `SemanticAnalyzer._validate_predefined_function`. -/
def validate_predefined_function (R : SemFns) (s : SState) (func_name : String)
    (node : ASTNode) : SState :=
  let param_items := collect_param_items node
  if func_name == "toRise" ∨ func_name == "toFall" then
    match param_items.head? with
    | some p =>
      let res := R.get_expression_type s p
      if osTruthy res.1 ∧ ¬ ["string", "char"].contains (res.1.getD "") then
        let lc := find_value_location res.2 p
        res.2.serr ("'" ++ func_name ++ "' expects a string or char argument, got '" ++
                    res.1.getD "" ++ "'") lc.1 lc.2
      else res.2
    | none => s
  else if func_name == "horizon" then
    match param_items.head? with
    | some p =>
      let res := R.get_expression_type s p
      if osTruthy res.1 ∧ ¬ ["int", "float", "string"].contains (res.1.getD "") then
        let lc := find_value_location res.2 p
        res.2.serr ("'horizon' expects an int, float, or string argument, got '" ++
                    res.1.getD "" ++ "'") lc.1 lc.2
      else res.2
    | none => s
  else if func_name == "toInt" then
    match param_items.head? with
    | some p =>
      let res := R.get_expression_type s p
      if osTruthy res.1 ∧ res.1 ≠ some "string" then
        let lc := find_value_location res.2 p
        res.2.serr ("'toInt' expects a string argument, got '" ++ res.1.getD "" ++ "'")
          lc.1 lc.2
      else res.2
    | none => s
  else if func_name == "toFloat" then
    match param_items.head? with
    | some p =>
      let res := R.get_expression_type s p
      if osTruthy res.1 ∧ res.1 ≠ some "string" then
        let lc := find_value_location res.2 p
        res.2.serr ("'toFloat' expects a string argument, got '" ++ res.1.getD "" ++ "'")
          lc.1 lc.2
      else res.2
    | none => s
  else if func_name == "toChar" then
    match param_items.head? with
    | some p =>
      let res := R.get_expression_type s p
      if osTruthy res.1 ∧ ¬ ["int", "string"].contains (res.1.getD "") then
        let lc := find_value_location res.2 p
        res.2.serr ("'toChar' expects an int or string argument, got '" ++
                    res.1.getD "" ++ "'") lc.1 lc.2
      else res.2
    | none => s
  else if func_name == "waft" then
    let s1 :=
      match param_items.head? with
      | some p =>
        let res := R.get_expression_type s p
        if osTruthy res.1 ∧ ¬ ["float", "int"].contains (res.1.getD "") then
          let lc := find_value_location res.2 p
          res.2.serr ("'waft' first argument must be float or int, got '" ++
                      res.1.getD "" ++ "'") lc.1 lc.2
        else res.2
      | none => s
    let s2 :=
      match param_items.get? 1 with
      | some p =>
        let res := R.get_expression_type s1 p
        if osTruthy res.1 ∧ res.1 ≠ some "int" then
          let lc := find_value_location res.2 p
          res.2.serr ("'waft' second argument must be int, got '" ++ res.1.getD "" ++ "'")
            lc.1 lc.2
        else res.2
      | none => s1
    if param_items.length ≠ 2 then
      let lc := get_node_location s2 node
      s2.serr ("'waft' expects exactly 2 arguments, got " ++ toString param_items.length)
        lc.1 lc.2
    else s2
  else s

/-- `SemanticAnalyzer._validate_array_size`. -/
def validate_array_size (R : SemFns) (s : SState) (row_size_node : ASTNode)
    (identifier : Option String) : SState :=
  if row_size_node.children.isEmpty then s
  else
    row_size_node.children.foldl
      (fun st c =>
        match c with
        | .node m =>
          if m.type == "size" ∧ ¬ m.children.isEmpty then
            let res := R.get_expression_type st m
            let size_type := res.1
            let st1 := res.2
            if osTruthy size_type ∧ size_type ≠ some "int" then
              let lc0 := find_value_location st1 m
              let lc := if lc0 = (0, 0) ∧ osTruthy identifier then
                  st1.get_location_opt identifier
                else lc0
              let actual_name := if osTruthy identifier then actualOpt st1 identifier else "array"
              st1.serr ("Array size for '" ++ actual_name ++ "' must be an integer, got '" ++
                        size_type.getD "" ++ "'") lc.1 lc.2
            else st1
          else if m.type == "col_size" ∧ ¬ m.children.isEmpty then
            m.children.foldl
              (fun st2 cc =>
                match cc with
                | .node colm =>
                  if colm.type == "pdim_size" ∧ ¬ colm.children.isEmpty then
                    let res := R.get_expression_type st2 colm
                    let cst := res.1
                    let st3 := res.2
                    if osTruthy cst ∧ cst ≠ some "int" then
                      let lc0 := find_value_location st3 colm
                      let lc := if lc0 = (0, 0) ∧ osTruthy identifier then
                          st3.get_location_opt identifier
                        else lc0
                      let actual_name :=
                        if osTruthy identifier then actualOpt st3 identifier else "array"
                      st3.serr ("Array column size for '" ++ actual_name ++
                                "' must be an integer, got '" ++ cst.getD "" ++ "'") lc.1 lc.2
                    else st3
                  else st2
                | _ => st2)
              st
          else st
        | _ => st)
      s

/-- The `check_element` recursion of `_validate_array_elements`. -/
def vaeChild (R : SemFns) (expected_type : String) (identifier : Option String)
    (actual_name : String) : Nat → SState → Child → SState
  | 0, s, _ => s
  | fuel + 1, s, .node n =>
    if n.type == "output_content" then
      let res := R.get_expression_type s n
      let elem_type := res.1
      let s1 := res.2
      if osTruthy elem_type ∧ ¬ is_array_element_compatible expected_type (elem_type.getD "") then
        let lc0 := find_value_location s1 n
        let lc1 := if lc0 = (0, 0) ∧ osTruthy n.value then s1.get_literal_location_opt n.value
          else lc0
        let lc := if lc1 = (0, 0) ∧ osTruthy identifier then s1.get_location_opt identifier
          else lc1
        s1.serr ("Array element type mismatch in '" ++ actual_name ++ "': expected '" ++
                 expected_type ++ "', got '" ++ elem_type.getD "" ++ "'") lc.1 lc.2
      else s1
    else if n.type == "value" then
      let res := R.get_expression_type s n
      let elem_type := res.1
      let s1 := res.2
      if osTruthy elem_type ∧ ¬ is_array_element_compatible expected_type (elem_type.getD "") then
        let lc0 := find_value_location s1 n
        let lc := if lc0 = (0, 0) ∧ osTruthy identifier then s1.get_location_opt identifier
          else lc0
        s1.serr ("Array element type mismatch in '" ++ actual_name ++ "': expected '" ++
                 expected_type ++ "', got '" ++ elem_type.getD "" ++ "'") lc.1 lc.2
      else s1
    else if n.type == "identifier" then
      if osTruthy n.value then
        match s.lookup (n.value.getD "") with
        | some sym =>
          if ¬ is_array_element_compatible expected_type sym.data_type then
            let lc := s.get_location_opt n.value
            s.serr ("Array element type mismatch in '" ++ actual_name ++ "': expected '" ++
                    expected_type ++ "', got '" ++ sym.data_type ++ "' from variable '" ++
                    s.get_actual_name (n.value.getD "") ++ "'") lc.1 lc.2
          else s
        | none => s
      else
        n.children.foldl
          (fun st c =>
            match c with
            | .node m => vaeChild R expected_type identifier actual_name fuel st (.node m)
            | _ => st)
          s
    else
      n.children.foldl
        (fun st c =>
          match c with
          | .node m => vaeChild R expected_type identifier actual_name fuel st (.node m)
          | _ => st)
        s
  | _ + 1, s, _ => s

/-- `SemanticAnalyzer._validate_array_elements` (the Python `element_index`
counter is incremented but never read, so it is not modelled). -/
def validate_array_elements (R : SemFns) (s : SState) (array_node : ASTNode)
    (expected_type : String) (identifier : Option String) : SState :=
  if array_node.children.isEmpty then s
  else
    let actual_name := if osTruthy identifier then actualOpt s identifier else "array"
    array_node.children.foldl
      (fun st c =>
        match c with
        | .node m =>
          if m.type == "arr_element" then
            vaeChild R expected_type identifier actual_name (astSize m + 1) st (.node m)
          else if m.type ≠ "operator" then
            vaeChild R expected_type identifier actual_name (astSize m + 1) st (.node m)
          else st
        | _ => st)
      s

/-- `SemanticAnalyzer._validate_array_index`. -/
def validate_array_index (R : SemFns) (s : SState) (row_size_node : ASTNode) : SState :=
  if row_size_node.children.isEmpty then s
  else
    row_size_node.children.foldl
      (fun st c =>
        match c with
        | .node m =>
          if m.type == "size" ∧ ¬ m.children.isEmpty then
            let res := R.get_expression_type st m
            if osTruthy res.1 ∧ res.1 ≠ some "int" then
              let lc := find_value_location res.2 m
              res.2.serr ("Array index must be an integer, got '" ++ res.1.getD "" ++ "'")
                lc.1 lc.2
            else res.2
          else if m.type == "col_size" ∧ ¬ m.children.isEmpty then
            m.children.foldl
              (fun st2 cc =>
                match cc with
                | .node colm =>
                  if colm.type == "pdim_size" ∧ ¬ colm.children.isEmpty then
                    let res := R.get_expression_type st2 colm
                    if osTruthy res.1 ∧ res.1 ≠ some "int" then
                      let lc := find_value_location res.2 colm
                      res.2.serr ("Array index must be an integer, got '" ++
                                  res.1.getD "" ++ "'") lc.1 lc.2
                    else res.2
                  else st2
                | _ => st2)
              st
          else st
        | _ => st)
      s

/-- `SemanticAnalyzer.visit_return_type`. -/
def visit_return_type (R : SemFns) (s : SState) (node : ASTNode) : Option String × SState :=
  if osTruthy node.value then (node.value, s)
  else if ¬ node.children.isEmpty then
    match node.children.head? with
    | some (.node m) => R.visit s m
    | _ => (none, s)
  else (some "vacuum", s)

/-- `SemanticAnalyzer.visit_dimension`. -/
def visit_dimension (R : SemFns) (s : SState) (node : ASTNode) : SState :=
  node.children.foldl
    (fun st c =>
      match c with
      | .node m =>
        let st1 := if m.type == "row_size" then R.validate_array_index st m else st
        (R.visit st1 m).2
      | _ => st)
    s

end SemanticAnalyzer

/-- The fuel-exhausted bottom of the visitor cluster (never reached when
`analyze` is run with its fuel). -/
def semFnsZero : SemFns :=
  { visit := fun s _ => (none, s)
    generic_visit := fun s _ => s
    visit_program := fun s _ => s
    visit_normal := fun s _ => s
    process_norm_tail := fun s _ _ => s
    visit_constant := fun s _ => s
    visit_struct_const := fun s _ => s
    check_const_initialization := fun s _ _ _ _ => s
    visit_structure := fun s _ => s
    validate_struct_init := fun s _ _ _ => s
    validate_struct_init_values := fun s _ _ _ => s
    visit_air_func := fun s _ => s
    visit_return_stat := fun s _ => s
    visit_identifier_stat := fun s _ => s
    visit_id_stat_body := fun s _ _ => s
    visit_id_access_for_assignment := fun s _ _ => s
    visit_id_stat_tail := fun s _ _ => s
    check_assignment := fun s _ _ _ => s
    check_function_call := fun s _ _ => s
    get_argument_types := fun s _ => ([], s)
    visit_input_output := fun s _ => s
    visit_if_stat := fun s _ => s
    visit_switch_stat := fun s _ => s
    check_switch_cases := fun s _ _ _ => s
    visit_while_loop := fun s _ => s
    validate_exhale_output := fun s _ => s
    check_output_no_expression := fun s _ => s
    visit_id_access := fun s _ => s
    visit_identifier := fun s _ => s
    get_expression_type := fun s _ => (none, s)
    resolve_binary_type := fun s _ _ => (none, s)
    resolve_function_call_type := fun s _ => (none, s)
    validate_predefined_function := fun s _ _ => s
    validate_array_size := fun s _ _ => s
    validate_array_elements := fun s _ _ _ => s
    validate_array_index := fun s _ => s
    visit_return_type := fun s _ => (none, s)
    visit_dimension := fun s _ => s }

/-- Ties the visitor cluster together: level `n + 1` methods make all their
method-to-method calls at level `n`. -/
def semFns : Nat → SemFns
  | 0 => semFnsZero
  | n + 1 =>
    let R := semFns n
    { visit := SemanticAnalyzer.visit R
      generic_visit := fun s node => visitChildren R s node.children
      visit_program := SemanticAnalyzer.visit_program R
      visit_normal := SemanticAnalyzer.visit_normal R
      process_norm_tail := SemanticAnalyzer.process_norm_tail R
      visit_constant := SemanticAnalyzer.visit_constant R
      visit_struct_const := SemanticAnalyzer.visit_struct_const R
      check_const_initialization := SemanticAnalyzer.check_const_initialization R
      visit_structure := SemanticAnalyzer.visit_structure R
      validate_struct_init := SemanticAnalyzer.validate_struct_init R
      validate_struct_init_values := SemanticAnalyzer.validate_struct_init_values R
      visit_air_func := SemanticAnalyzer.visit_air_func R
      visit_return_stat := SemanticAnalyzer.visit_return_stat R
      visit_identifier_stat := SemanticAnalyzer.visit_identifier_stat R
      visit_id_stat_body := SemanticAnalyzer.visit_id_stat_body R
      visit_id_access_for_assignment := SemanticAnalyzer.visit_id_access_for_assignment R
      visit_id_stat_tail := SemanticAnalyzer.visit_id_stat_tail R
      check_assignment := SemanticAnalyzer.check_assignment R
      check_function_call := SemanticAnalyzer.check_function_call R
      get_argument_types := SemanticAnalyzer.get_argument_types R
      visit_input_output := SemanticAnalyzer.visit_input_output R
      visit_if_stat := SemanticAnalyzer.visit_if_stat R
      visit_switch_stat := SemanticAnalyzer.visit_switch_stat R
      check_switch_cases := SemanticAnalyzer.check_switch_cases R
      visit_while_loop := SemanticAnalyzer.visit_while_loop R
      validate_exhale_output := SemanticAnalyzer.validate_exhale_output R
      check_output_no_expression := SemanticAnalyzer.check_output_no_expression R
      visit_id_access := SemanticAnalyzer.visit_id_access R
      visit_identifier := SemanticAnalyzer.visit_identifier R
      get_expression_type := SemanticAnalyzer.get_expression_type R
      resolve_binary_type := SemanticAnalyzer.resolve_binary_type R
      resolve_function_call_type := SemanticAnalyzer.resolve_function_call_type R
      validate_predefined_function := SemanticAnalyzer.validate_predefined_function R
      validate_array_size := SemanticAnalyzer.validate_array_size R
      validate_array_elements := SemanticAnalyzer.validate_array_elements R
      validate_array_index := SemanticAnalyzer.validate_array_index R
      visit_return_type := SemanticAnalyzer.visit_return_type R
      visit_dimension := SemanticAnalyzer.visit_dimension R }

/-- `SemanticAnalyzer.__init__` (symbol tables empty, flags cleared, token
maps built from the token list). -/
def initState (tokens : List Token) : SState :=
  let maps := buildTokenMaps tokens
  { scopes := [[]], scope_stack := ["global"], structures := [], errors := [], warnings := [],
    current_function := none, current_function_return_type := none,
    in_loop := false, in_switch := false, in_atmosphere := false,
    has_return_in_current_func := false, in_struct_member_access := false,
    token_map := maps.1, keyword_positions := maps.2.1, literal_positions := maps.2.2,
    identifier_map := buildIdentifierMap tokens }

/-- Fuel for the visitor cluster: the number of method-to-method hops per
AST cell is bounded by a small constant, so this dominates every run. -/
def semFuel (a : ASTNode) : Nat := 16 * astSize a + 64

/-- `SemanticAnalyzer.analyze` (and the module-level `analyze` helper):
`None` AST yields the single "No AST to analyze" error; otherwise the AST is
visited and `errors + warnings` is returned. The Python `except Exception`
fallback is not modelled (no analyzed path below raises). -/
def analyze (ast : Option ASTNode) (tokens : List Token) : List SemanticError :=
  match ast with
  | none => [SemanticError.mk "No AST to analyze" 0 0]
  | some a =>
    let s0 := initState tokens
    let R := semFns (semFuel a)
    let s1 := (R.visit s0 a).2
    s1.errors ++ s1.warnings

/-! ### Parser invariants: error deduplication and the global error bound -/

/-- Invariant of the parser state: the last-reported position is at most the
current position, the position stays within the token list, and the number
of diagnostics is bounded by the last-reported position plus one (so a
diagnostic is only ever appended at a fresh position). -/
def PInv (p : Parser) : Prop :=
  p.error_reported_at_position ≤ (p.position : Int) ∧
  p.position ≤ p.tokens.length ∧
  (p.errors.length : Int) ≤ p.error_reported_at_position + 1

/-- A parser computation preserves `PInv` and the token list. -/
def Pres {α : Type} (m : PM α) : Prop :=
  ∀ p, PInv p → PInv (m p).2 ∧ (m p).2.tokens = p.tokens

/-- `Pres` as a typeclass, so that invariance of every grammar rule can be
discharged by instance search over the rule bodies. -/
class PresI {α : Type} (m : PM α) : Prop where
  pres : Pres m

/-- Does an output subtree contain arithmetic / relational / logical
material that `_check_output_no_expression` reports? Fuel-synchronised with
the visitor cluster: `containsForbidden fuel` characterises the check run
from `semFns fuel`. -/
def containsForbidden : Nat → ASTNode → Bool
  | 0, _ => false
  | fuel + 1, n =>
    if ["arith_op1", "arith_op2", "rela_sym"].contains n.type then true
    else if n.type == "arith_tail" ∧ ¬ n.children.isEmpty then true
    else if n.type == "rela_tail" ∧ ¬ n.children.isEmpty then true
    else if (n.type == "or_tail" ∨ n.type == "and_tail") ∧ ¬ n.children.isEmpty then true
    else n.children.any (fun c =>
      match c with
      | .node m => containsForbidden fuel m
      | _ => false)

/-! ### Theorems -/

theorem pres_pure {α : Type} (a : α) : Pres (PM.pure a) := fun _ h => ⟨h, rfl⟩

theorem pres_raise {α : Type} : Pres (@PM.raiseStop α) := fun _ h => ⟨h, rfl⟩

theorem pres_bind {α β : Type} {m : PM α} {k : α → PM β} (hm : Pres m) (hk : ∀ a, Pres (k a)) :
    Pres (PM.bind m k) := by
  intro p hp
  have h1 := hm p hp
  unfold PM.bind
  rcases hme : m p with ⟨r, p'⟩
  rw [hme] at h1
  match r with
  | .ok a =>
    have h2 := hk a p' h1.1
    exact ⟨h2.1, h2.2.trans h1.2⟩
  | .error e => exact h1

theorem pres_tryCatch {α : Type} {m h : PM α} (hm : Pres m) (hh : Pres h) :
    Pres (PM.tryCatch m h) := by
  intro p hp
  have h1 := hm p hp
  unfold PM.tryCatch
  rcases hme : m p with ⟨r, p'⟩
  rw [hme] at h1
  match r with
  | .ok a => exact h1
  | .error e =>
    have h2 := hh p' h1.1
    exact ⟨h2.1, h2.2.trans h1.2⟩

theorem pres_ite {α : Type} {c : Prop} [Decidable c] {m m' : PM α}
    (h1 : Pres m) (h2 : Pres m') : Pres (if c then m else m') := by
  by_cases hc : c
  · simpa [hc] using h1
  · simpa [hc] using h2

theorem pinv_perror (m : String) (p : Parser) (hp : PInv p) :
    PInv (p.perror m) ∧ (p.perror m).tokens = p.tokens := by
  unfold Parser.perror
  split
  · exact ⟨hp, rfl⟩
  · obtain ⟨h1, h2, h3⟩ := hp
    refine ⟨⟨?_, ?_, ?_⟩, rfl⟩ <;> simp <;> omega

theorem pres_err (m : String) : Pres (errPM m) := by
  intro p hp
  exact pinv_perror m p hp

theorem pres_peek : Pres peekPM := fun _ h => ⟨h, rfl⟩

theorem pres_curTok : Pres curTokPM := fun _ h => ⟨h, rfl⟩

theorem pres_match (t : String) : Pres (matchPM t) := by
  intro p hp
  unfold matchPM Parser.peekT
  cases hq : p.tokens.get? p.position with
  | none => simp only [hq]; exact pinv_perror _ p hp
  | some tok =>
    simp only [hq]
    have hlt : p.position < p.tokens.length := (List.get?_eq_some.mp hq).1
    obtain ⟨h1, h2, h3⟩ := hp
    split
    · refine ⟨⟨?_, ?_, ?_⟩, rfl⟩ <;> simp [Parser.advanceP] <;> omega
    · exact pinv_perror _ p ⟨h1, h2, h3⟩

theorem pres_checkId : Pres checkIdPM := by
  intro p hp
  unfold checkIdPM Parser.peekT
  cases hq : p.tokens.get? p.position with
  | none => simp only [hq]; exact pinv_perror _ p hp
  | some tok =>
    simp only [hq]
    have hlt : p.position < p.tokens.length := (List.get?_eq_some.mp hq).1
    obtain ⟨h1, h2, h3⟩ := hp
    split
    · refine ⟨⟨?_, ?_, ?_⟩, rfl⟩ <;> simp [Parser.advanceP] <;> omega
    · exact pinv_perror _ p ⟨h1, h2, h3⟩

theorem pres_softErr (m : String) : Pres (softErr m) :=
  pres_bind (pres_err m) (fun _ => pres_pure _)

theorem pres_hardErr {α : Type} (m : String) : Pres (@hardErr α m) :=
  pres_bind (pres_err m) (fun _ => pres_raise)

instance presI_pure {α : Type} (a : α) : PresI (PM.pure a) := ⟨pres_pure a⟩

instance presI_raise {α : Type} : PresI (@PM.raiseStop α) := ⟨pres_raise⟩

instance presI_peek : PresI peekPM := ⟨pres_peek⟩

instance presI_curTok : PresI curTokPM := ⟨pres_curTok⟩

instance presI_err (m : String) : PresI (errPM m) := ⟨pres_err m⟩

instance presI_match (t : String) : PresI (matchPM t) := ⟨pres_match t⟩

instance presI_checkId : PresI checkIdPM := ⟨pres_checkId⟩

instance presI_softErr (m : String) : PresI (softErr m) := ⟨pres_softErr m⟩

instance presI_hardErr {α : Type} (m : String) : PresI (@hardErr α m) := ⟨pres_hardErr m⟩

instance presI_bind {α β : Type} (m : PM α) (k : α → PM β) [hm : PresI m]
    [hk : ∀ a, PresI (k a)] : PresI (PM.bind m k) :=
  ⟨pres_bind hm.pres (fun a => (hk a).pres)⟩

instance presI_tryCatch {α : Type} (m h : PM α) [h1 : PresI m] [h2 : PresI h] :
    PresI (PM.tryCatch m h) := ⟨pres_tryCatch h1.pres h2.pres⟩

instance presI_ite {α : Type} (c : Prop) [Decidable c] (m m' : PM α) [h1 : PresI m]
    [h2 : PresI m'] : PresI (if c then m else m') := ⟨pres_ite h1.pres h2.pres⟩

set_option maxHeartbeats 4000000 in
/-- Every grammar rule preserves the parser invariant and the token list. -/
theorem pres_runRule : ∀ (fuel : Nat) (r : Rule), Pres (runRule fuel r) := by
  intro fuel
  induction fuel with
  | zero => intro r; exact pres_raise
  | succ n ih =>
    intro r
    haveI : ∀ r, PresI (runRule n r) := fun r => ⟨ih r⟩
    cases r <;> simp only [runRule] <;>
      (first
        | exact PresI.pres
        | (repeat' first
            | exact PresI.pres
            | apply pres_bind
            | apply pres_tryCatch
            | apply pres_ite
            | split
            | intro _
            | assumption))

/-- The bound carried out of the invariant: `Parser.parse` emits at most one
diagnostic per stream position, hence at most `tokens.length + 1` in total. -/
theorem parse_errors_le (tokens : List Token) :
    ((Parser.parse tokens).2).length ≤ tokens.length + 1 := by
  simp only [Parser.parse]
  have hinv : PInv (Parser.initP tokens) := by
    refine ⟨?_, ?_, ?_⟩ <;> simp [Parser.initP]
  split
  · rcases hrun : runRule (parseFuel tokens) Rule.program (Parser.initP tokens) with ⟨r, p2⟩
    have h := pres_runRule (parseFuel tokens) Rule.program (Parser.initP tokens) hinv
    rw [hrun] at h
    obtain ⟨⟨h1, h2, h3⟩, htok⟩ := h
    dsimp only at h1 h2 h3 htok
    have hlen : p2.tokens.length = tokens.length := by rw [htok]; rfl
    cases r with
    | ok a =>
      show p2.errors.length ≤ tokens.length + 1
      omega
    | error e =>
      show p2.errors.length ≤ tokens.length + 1
      omega
  · have h := pinv_perror ("Program must start with 'universal', 'air', or 'atmosphere', got '" ++
      optStr (Parser.initP tokens).peekTy ++ "'") (Parser.initP tokens) hinv
    obtain ⟨⟨h1, h2, h3⟩, htok⟩ := h
    have hpos : ∀ m, ((Parser.initP tokens).perror m).position = 0 := by
      intro m
      unfold Parser.perror
      split
      · rfl
      · rfl
    have hp0 := hpos ("Program must start with 'universal', 'air', or 'atmosphere', got '" ++
      optStr (Parser.initP tokens).peekTy ++ "'")
    show ((Parser.initP tokens).perror _).errors.length ≤ tokens.length + 1
    rw [hp0] at h1
    omega

theorem foldl_errors_mono {β : Type} (f : SState → β → SState)
    (hf : ∀ st b, ∃ t, (f st b).errors = st.errors ++ t) :
    ∀ (l : List β) (st : SState), ∃ t, (l.foldl f st).errors = st.errors ++ t := by
  intro l
  induction l with
  | nil => intro st; exact ⟨[], by simp⟩
  | cons b rest ih =>
    intro st
    obtain ⟨t1, h1⟩ := hf st b
    obtain ⟨t2, h2⟩ := ih (f st b)
    exact ⟨t1 ++ t2, by simp only [List.foldl_cons]; rw [h2, h1, List.append_assoc]⟩

theorem coe_step (fuel : Nat) :
    (semFns (fuel + 1)).check_output_no_expression =
      SemanticAnalyzer.check_output_no_expression (semFns fuel) := by
  simp only [semFns]

theorem coe_mono : ∀ (fuel : Nat) (s : SState) (node : ASTNode),
    ∃ t, ((semFns fuel).check_output_no_expression s node).errors = s.errors ++ t := by
  intro fuel
  induction fuel with
  | zero => intro s node; exact ⟨[], by simp [semFns, semFnsZero]⟩
  | succ n ih =>
    intro s node
    rw [coe_step]
    unfold SemanticAnalyzer.check_output_no_expression
    split
    · exact ⟨_, rfl⟩
    · split
      · exact ⟨_, rfl⟩
      · split
        · exact ⟨_, rfl⟩
        · split
          · exact ⟨_, rfl⟩
          · refine foldl_errors_mono _ ?_ node.children s
            intro st b
            match b with
            | .node m => exact ih st m
            | .leaf l => exact ⟨[], by simp⟩
            | .pynone => exact ⟨[], by simp⟩
            | .pymethod => exact ⟨[], by simp⟩


theorem serr_ne (s : SState) (m : String) (l c : Nat) : (s.serr m l c).errors ≠ s.errors := by
  simp [SState.serr]

theorem foldl_errors_eq_iff {β : Type} (f : SState → β → SState) (P : β → Bool)
    (hmono : ∀ st b, ∃ t, (f st b).errors = st.errors ++ t)
    (hiff : ∀ st b, ((f st b).errors = st.errors) ↔ P b = false) :
    ∀ (l : List β) (st : SState),
      ((l.foldl f st).errors = st.errors) ↔ (∀ b ∈ l, P b = false) := by
  intro l
  induction l with
  | nil => intro st; simp
  | cons b rest ih =>
    intro st
    simp only [List.foldl_cons]
    obtain ⟨t1, h1⟩ := hmono st b
    obtain ⟨t2, h2⟩ := foldl_errors_mono f hmono rest (f st b)
    constructor
    · intro h
      rw [h2, h1, List.append_assoc] at h
      have hnil : t1 ++ t2 = [] := by
        have hh := congrArg List.length h
        simp at hh
        cases t1 <;> cases t2 <;> simp_all
      have ht1 : t1 = [] := by cases t1 <;> simp_all
      have ht2 : t2 = [] := by simp_all
      have hfb : (f st b).errors = st.errors := by rw [h1, ht1]; simp
      have hPb := (hiff st b).mp hfb
      have hrest : (rest.foldl f (f st b)).errors = (f st b).errors := by
        rw [h2, ht2]; simp
      have hforall := (ih (f st b)).mp hrest
      intro x hx
      simp only [List.mem_cons] at hx
      rcases hx with rfl | hx
      · exact hPb
      · exact hforall x hx
    · intro hall
      have hPb : P b = false := hall b (by simp)
      have hfb : (f st b).errors = st.errors := (hiff st b).mpr hPb
      have hrest := (ih (f st b)).mpr (fun x hx => hall x (by simp [hx]))
      rw [hrest, hfb]

theorem coe_errors_eq_iff : ∀ (fuel : Nat) (s : SState) (node : ASTNode),
    (((semFns fuel).check_output_no_expression s node).errors = s.errors) ↔
      containsForbidden fuel node = false := by
  intro fuel
  induction fuel with
  | zero => intro s node; simp [semFns, semFnsZero, containsForbidden]
  | succ n ih =>
    intro s node
    rw [coe_step]
    unfold SemanticAnalyzer.check_output_no_expression
    rw [show containsForbidden (n + 1) node =
      (if ["arith_op1", "arith_op2", "rela_sym"].contains node.type then true
      else if node.type == "arith_tail" ∧ ¬ node.children.isEmpty then true
      else if node.type == "rela_tail" ∧ ¬ node.children.isEmpty then true
      else if (node.type == "or_tail" ∨ node.type == "and_tail") ∧ ¬ node.children.isEmpty then true
      else node.children.any (fun c =>
        match c with
        | .node m => containsForbidden n m
        | _ => false)) from rfl]
    split_ifs
    any_goals (solve | simp [serr_ne])
    rw [foldl_errors_eq_iff _ (fun c =>
        match c with
        | .node m => containsForbidden n m
        | _ => false) ?_ ?_ node.children s]
    · constructor
      · intro h
        simp only [List.any_eq_false]
        intro x hx
        simp [h x hx]
      · intro h x hx
        simp only [List.any_eq_false] at h
        have := h x hx
        simp_all
    · intro st b
      match b with
      | .node m => exact coe_mono n st m
      | .leaf l => exact ⟨[], by simp⟩
      | .pynone => exact ⟨[], by simp⟩
      | .pymethod => exact ⟨[], by simp⟩
    · intro st b
      match b with
      | .node m => exact ih st m
      | .leaf l => simp
      | .pynone => simp
      | .pymethod => simp

theorem types_compatible_for_params_eq (p a : String) :
    types_compatible_for_params p a =
      (p == a || (p == "int" && a == "float") || (p == "float" && a == "int")) := by
  unfold types_compatible_for_params PARAM_CONVERSIONS
  by_cases h1 : a = "int"
  · subst h1
    by_cases h2 : p = "int" <;> by_cases h3 : p = "float" <;> simp_all [List.find?]
  · by_cases h4 : a = "float"
    · subst h4
      by_cases h2 : p = "int" <;> by_cases h3 : p = "float" <;> simp_all [List.find?]
    · have e1 : ("int" == a) = false := beq_eq_false_iff_ne.mpr (fun h => h1 h.symm)
      have e2 : ("float" == a) = false := beq_eq_false_iff_ne.mpr (fun h => h4 h.symm)
      have e3 : (a == "int") = false := beq_eq_false_iff_ne.mpr h1
      have e4 : (a == "float") = false := beq_eq_false_iff_ne.mpr h4
      simp only [List.find?, e1, e2, e3, e4, Bool.and_false, Bool.or_false, Option.map_none]
      by_cases h2 : p = a <;> simp_all



theorem ctrl_flow_resist_errors (s : SState) :
    (visit_ctrl_flow s (ASTNode.mk "ctrl_flow" [] (some "resist"))).errors =
      (if s.in_loop = false ∧ s.in_switch = false then
        s.errors ++ [SemanticError.mk "'resist' (break) must be inside a loop or stream (switch)"
          (s.get_location "resist").1 (s.get_location "resist").2]
      else s.errors) := by
  unfold visit_ctrl_flow
  by_cases h1 : s.in_loop <;> by_cases h2 : s.in_switch <;>
    simp_all [SState.serr, ASTNode.value]

theorem ctrl_flow_flow_errors (s : SState) :
    (visit_ctrl_flow s (ASTNode.mk "ctrl_flow" [] (some "flow"))).errors =
      (if s.in_loop = false then
        s.errors ++ [SemanticError.mk "'flow' (continue) must be inside a loop"
          (s.get_location "flow").1 (s.get_location "flow").2]
      else s.errors) := by
  unfold visit_ctrl_flow
  by_cases h1 : s.in_loop <;> simp_all [SState.serr, ASTNode.value]

theorem while_loop_restores_in_loop (fuel : Nat) (s : SState) (node : ASTNode) :
    ((semFns (fuel + 1)).visit_while_loop s node).in_loop = s.in_loop := by
  simp [semFns, SemanticAnalyzer.visit_while_loop]

theorem switch_stat_restores_in_switch (fuel : Nat) (s : SState) (node : ASTNode) :
    ((semFns (fuel + 1)).visit_switch_stat s node).in_switch = s.in_switch := by
  show (SemanticAnalyzer.visit_switch_stat (semFns fuel) s node).in_switch = s.in_switch
  unfold SemanticAnalyzer.visit_switch_stat
  split
  · rfl
  · simp

theorem visit_ctrl_flow_dispatch (fuel : Nat) (s : SState) (cs : List Child) (v : Option String) :
    (semFns (fuel + 1)).visit s (ASTNode.mk "ctrl_flow" cs v) =
      (none, visit_ctrl_flow s (ASTNode.mk "ctrl_flow" cs v)) := by
  simp [semFns, SemanticAnalyzer.visit, ASTNode.type]

theorem while_flow_ok (fuel : Nat) (s : SState) :
    ((semFns (fuel + 2)).visit_while_loop s
      (ASTNode.mk "while_loop" [Child.node (ASTNode.mk "ctrl_flow" [] (some "flow"))] none)).errors
      = s.errors := by
  have hd := visit_ctrl_flow_dispatch fuel ({ s with in_loop := true })
    [] (some "flow")
  simp [semFns, SemanticAnalyzer.visit_while_loop, ASTNode.children, ASTNode.type] at hd ⊢
  rw [hd]
  simp [visit_ctrl_flow, ASTNode.value]



theorem switch_flag_concrete :
    ((semFns 5).visit_switch_stat (initState [])
      (ASTNode.mk "switch_stat" [Child.node (ASTNode.mk "switch_def"
        [Child.node (ASTNode.mk "ctrl_flow" [] (some "flow"))] none)] none)).errors =
      [SemanticError.mk "'flow' (continue) must be inside a loop" 0 0]
    ∧ ((semFns 5).visit_switch_stat { initState [] with in_loop := true }
      (ASTNode.mk "switch_stat" [Child.node (ASTNode.mk "switch_def"
        [Child.node (ASTNode.mk "ctrl_flow" [] (some "flow"))] none)] none)).errors = []
    ∧ ((semFns 5).visit_switch_stat (initState [])
      (ASTNode.mk "switch_stat" [Child.node (ASTNode.mk "switch_def"
        [Child.node (ASTNode.mk "ctrl_flow" [] (some "resist"))] none)] none)).errors = [] := by
  refine ⟨?_, ?_, ?_⟩ <;> decide



theorem tdop_minus (s : Lexer) (hpeek : s.peek = some '-')
    (hdlm : sub_dlm (s.adv.peek) = true) :
    s.td_operator_structure = (true, s.adv.addTok "-" "-" s.line s.column) := by
  unfold Lexer.td_operator_structure
  rw [hpeek]
  simp [hdlm]

theorem digit_sub_dlm (s : Lexer) (hpeek : s.peek = some '-')
    (hdig : oIsDigit (s.peek 1) = true) :
    sub_dlm (s.adv.peek) = true := by
  have hadv : s.adv.peek = s.peek 1 := by
    unfold Lexer.adv Lexer.advance Lexer.peek
    unfold Lexer.peek at hpeek
    simp only [Nat.add_zero] at hpeek
    rw [hpeek]
    simp
  rw [hadv]
  cases hq : s.peek 1 with
  | none => rw [hq] at hdig; simp [oIsDigit] at hdig
  | some c =>
    rw [hq] at hdig
    simp [oIsDigit] at hdig
    simp [sub_dlm, pyIsAlnum, hdig]

theorem step_minus_operator (s : Lexer) (hpeek : s.peek = some '-')
    (hprev : oTruthy (s.peek_backwards 1 true) ∧
      (oIsAlnum (s.peek_backwards 1 true) ∨
       oMem (s.peek_backwards 1 true) [')', ']', '\x7d']))
    (hdig : oIsDigit (s.peek 1) = true) :
    s.tokenizeStep.tokens = s.tokens ++ [Token.mk "-" "-" s.line s.column] := by
  have hdlm := digit_sub_dlm s hpeek hdig
  have hop := tdop_minus s hpeek hdlm
  have htoks : s.adv.tokens = s.tokens := by
    unfold Lexer.adv Lexer.advance
    unfold Lexer.peek at hpeek
    simp only [Nat.add_zero] at hpeek
    rw [hpeek]
    simp
  unfold Lexer.tokenizeStep
  rw [hpeek]
  simp [hprev, hop, Lexer.addTok, htoks, show pyIsSpace '-' = false from by decide]

theorem step_minus_number (s : Lexer) (hpeek : s.peek = some '-')
    (hprev : ¬ (oTruthy (s.peek_backwards 1 true) ∧
      (oIsAlnum (s.peek_backwards 1 true) ∨
       oMem (s.peek_backwards 1 true) [')', ']', '\x7d'])))
    (hnum : (s.td_number).1 = true) :
    s.tokenizeStep = (s.td_number).2 := by
  unfold Lexer.tokenizeStep
  rw [hpeek]
  simp [hprev, hnum, show pyIsSpace '-' = false from by decide]


theorem check_keyword_rewind (s : Lexer) (kw : String) (dlm : Option Char → Bool)
    (sp sl sc stl stc : Nat) (h : s.continues_as_identifier = true) :
    s.check_keyword_delimiter kw dlm sp sl sc stl stc =
      (false, { s with position := sp, line := sl, column := sc }) := by
  unfold Lexer.check_keyword_delimiter
  simp [h]

/-! ### Claim theorems -/

set_option maxHeartbeats 16000000 in
/-- C1: for the source text `universal int x~ atmosphere() { x = 5~ }` the
whole pipeline succeeds: `tokenize` emits no ERROR tokens, `Parser.parse`
returns a non-null AST with an empty syntax-error list, and `analyze`
returns an empty semantic-error list. -/
theorem C1_pipeline_success :
    ((tokenize "universal int x~ atmosphere() \x7b x = 5~ \x7d").all
        (fun t => ! t.is_error)) = true
    ∧ (Parser.parse (tokenize "universal int x~ atmosphere() \x7b x = 5~ \x7d")).1.isSome = true
    ∧ (Parser.parse (tokenize "universal int x~ atmosphere() \x7b x = 5~ \x7d")).2 = []
    ∧ analyze (Parser.parse (tokenize "universal int x~ atmosphere() \x7b x = 5~ \x7d")).1
        (tokenize "universal int x~ atmosphere() \x7b x = 5~ \x7d") = [] := by
  refine ⟨?_, ?_, ?_, ?_⟩ <;> decide

/-- C2: whenever the character after a just-consumed keyword spelling would
extend an identifier, `check_keyword_delimiter` reports failure and fully
restores the saved position/line/column; in particular the 7 characters
"integer" lex to a single identifier token (no `int` keyword token). -/
theorem C2_keyword_rewind :
    (∀ (s : Lexer) (kw : String) (dlm : Option Char → Bool) (sp sl sc stl stc : Nat),
        s.continues_as_identifier = true →
        s.check_keyword_delimiter kw dlm sp sl sc stl stc =
          (false, { s with position := sp, line := sl, column := sc }))
    ∧ tokenize "integer" = [Token.mk "id1" "integer" 1 1] :=
  ⟨check_keyword_rewind, by decide⟩

theorem C2_keyword_rewind_witness :
    (Lexer.mk "integer".data 3 1 4 [] 0 []).check_keyword_delimiter "int"
        (fun _ => false) 0 1 1 1 1 =
      (false, { Lexer.mk "integer".data 3 1 4 [] 0 [] with
                  position := 0, line := 1, column := 1 }) :=
  C2_keyword_rewind.1 (Lexer.mk "integer".data 3 1 4 [] 0 []) "int"
    (fun _ => false) 0 1 1 1 1 (by decide)

set_option maxHeartbeats 16000000 in
/-- C3: an 11-digit integer literal and a float with 7 fractional digits
each produce a single ERROR token, and `12.` followed by a non-digit
produces an ERROR token with the "expected digit after dot (.)" message;
no int_lit or float_lit token is emitted for any of the three inputs. -/
theorem C3_number_bounds_and_dot :
    tokenize "12345678901" =
      [Token.mk "ERROR" "12345678901 exceeds maximum of 10 digits" 1 1]
    ∧ tokenize "1.1234567" =
        [Token.mk "ERROR" "1.1234567 exceeds maximum decimal places of 6" 1 1]
    ∧ tokenize "12.x" =
        [Token.mk "ERROR" "expected digit after dot (.)" 1 1, Token.mk "id1" "x" 1 4]
    ∧ ((tokenize "12345678901" ++ tokenize "1.1234567" ++ tokenize "12.x").all
        (fun t => ! (t.type == "int_lit" || t.type == "float_lit"))) = true := by
  refine ⟨?_, ?_, ?_, ?_⟩ <;> decide

set_option maxHeartbeats 16000000 in
/-- C4: the strict table `_types_compatible_for_params` accepts exactly
type-equal pairs and int/float in either direction; but in the pipeline a
char argument passed to an int parameter is NOT reported as an argument
type error — the argument collector finds no arguments under the parser's
mislabelled `param_list` node, so an arity error is reported instead. -/
theorem C4_strict_param_table_code_bug :
    (∀ p a : String, types_compatible_for_params p a =
      (p == a || (p == "int" && a == "float") || (p == "float" && a == "int")))
    ∧ (Parser.parse (tokenize
        "air vacuum f(int a) \x7b \x7d atmosphere() \x7b char c = 'c'~ f(c)~ \x7d")).2 = []
    ∧ analyze (Parser.parse (tokenize
        "air vacuum f(int a) \x7b \x7d atmosphere() \x7b char c = 'c'~ f(c)~ \x7d")).1
        (tokenize "air vacuum f(int a) \x7b \x7d atmosphere() \x7b char c = 'c'~ f(c)~ \x7d") =
        [SemanticError.mk "Function 'f' expects 1 argument(s), got 0" 1 54]
    ∧ ((analyze (Parser.parse (tokenize
        "air vacuum f(int a) \x7b \x7d atmosphere() \x7b char c = 'c'~ f(c)~ \x7d")).1
        (tokenize "air vacuum f(int a) \x7b \x7d atmosphere() \x7b char c = 'c'~ f(c)~ \x7d")).all
        (fun e => ! ("Argument".data.isPrefixOf e.message.data))) = true := by
  refine ⟨types_compatible_for_params_eq, ?_, ?_, ?_⟩ <;> decide

set_option maxHeartbeats 16000000 in
/-- C5: a function declaration registers its signature in the global frame
before its own body is visited, so a self-referencing call and a call to a
previously declared function resolve without an 'Undeclared function'
error (forward references do not — see the counterexample). -/
theorem C5_registration_before_own_body :
    ((Parser.parse (tokenize
        "air vacuum f() \x7b f(1)~ \x7d atmosphere() \x7b \x7d")).1.isSome = true
      ∧ (Parser.parse (tokenize
          "air vacuum f() \x7b f(1)~ \x7d atmosphere() \x7b \x7d")).2 = []
      ∧ analyze (Parser.parse (tokenize
          "air vacuum f() \x7b f(1)~ \x7d atmosphere() \x7b \x7d")).1
          (tokenize "air vacuum f() \x7b f(1)~ \x7d atmosphere() \x7b \x7d") = [])
    ∧ ((Parser.parse (tokenize
        "air vacuum f() \x7b \x7d air vacuum g() \x7b f(1)~ \x7d atmosphere() \x7b \x7d")).2 = []
      ∧ analyze (Parser.parse (tokenize
          "air vacuum f() \x7b \x7d air vacuum g() \x7b f(1)~ \x7d atmosphere() \x7b \x7d")).1
          (tokenize
            "air vacuum f() \x7b \x7d air vacuum g() \x7b f(1)~ \x7d atmosphere() \x7b \x7d") = []) := by
  refine ⟨⟨?_, ?_, ?_⟩, ⟨?_, ?_⟩⟩ <;> decide

set_option maxHeartbeats 16000000 in
/-- C5 counterexample: with `f` declared before `g`, a call to `g` from
`f`'s body is reported as an undeclared function (and an undeclared
identifier), refuting mutual reference in the forward direction. -/
theorem C5_forward_reference_counterexample :
    (Parser.parse (tokenize
      "air vacuum f() \x7b g(1)~ \x7d air vacuum g() \x7b \x7d atmosphere() \x7b \x7d")).2 = []
    ∧ analyze (Parser.parse (tokenize
        "air vacuum f() \x7b g(1)~ \x7d air vacuum g() \x7b \x7d atmosphere() \x7b \x7d")).1
        (tokenize
          "air vacuum f() \x7b g(1)~ \x7d air vacuum g() \x7b \x7d atmosphere() \x7b \x7d") =
      [SemanticError.mk "Undeclared function 'g'" 1 37,
       SemanticError.mk "Undeclared identifier 'g'" 1 37] := by
  refine ⟨?_, ?_⟩ <;> decide

set_option maxHeartbeats 16000000 in
/-- C6: the dedicated recursive exhale check leaves the error list unchanged
exactly when the output subtree contains no arithmetic / relational /
logical material (`containsForbidden` characterisation at every fuel); a
crafted output with an arithmetic tail is rejected with the arithmetic
message, and exhale of an identifier or a string concatenation chain passes
the whole pipeline with no errors. -/
theorem C6_exhale_output_restriction :
    (∀ (fuel : Nat) (s : SState) (node : ASTNode),
      (((semFns fuel).check_output_no_expression s node).errors = s.errors) ↔
        containsForbidden fuel node = false)
    ∧ ((semFns 4).check_output_no_expression (initState [])
        (ASTNode.mk "output" [Child.node (ASTNode.mk "arith_tail"
          [Child.node (ASTNode.mk "arith_op1" [] (some "+"))] none)] none)).errors =
      [SemanticError.mk "Arithmetic expressions are not allowed as output in exhale" 0 0]
    ∧ ((Parser.parse (tokenize "atmosphere() \x7b int x = 5~ exhale(x)~ \x7d")).2 = []
      ∧ analyze (Parser.parse (tokenize "atmosphere() \x7b int x = 5~ exhale(x)~ \x7d")).1
          (tokenize "atmosphere() \x7b int x = 5~ exhale(x)~ \x7d") = [])
    ∧ ((Parser.parse (tokenize "atmosphere() \x7b exhale(\"hi\" & \"yo\")~ \x7d")).2 = []
      ∧ analyze (Parser.parse (tokenize "atmosphere() \x7b exhale(\"hi\" & \"yo\")~ \x7d")).1
          (tokenize "atmosphere() \x7b exhale(\"hi\" & \"yo\")~ \x7d") = []) := by
  refine ⟨coe_errors_eq_iff, ?_, ⟨?_, ?_⟩, ⟨?_, ?_⟩⟩ <;> decide

/-- C7: `Parser.error` deduplicates by stream position — a report at the
last-reported position leaves the state unchanged, an immediately repeated
failure never extends the error list, and consequently `Parser.parse`
returns at most one diagnostic per stream position
(`tokens.length + 1` in total). -/
theorem C7_error_dedup :
    (∀ (p : Parser) (m : String),
        p.error_reported_at_position = (p.position : Int) → p.perror m = p)
    ∧ (∀ (p : Parser) (m m' : String),
        ((p.perror m).perror m').errors = (p.perror m).errors)
    ∧ (∀ tokens : List Token, ((Parser.parse tokens).2).length ≤ tokens.length + 1) := by
  refine ⟨?_, ?_, parse_errors_le⟩
  · intro p m h
    unfold Parser.perror
    rw [if_pos h.symm]
  · intro p m m'
    unfold Parser.perror
    by_cases h : (p.position : Int) = p.error_reported_at_position
    · simp [h]
    · simp [h]

theorem C7_error_dedup_witness :
    (Parser.perror (Parser.mk [] 0 [] 0) "m" = Parser.mk [] 0 [] 0)
    ∧ ((Parser.perror (Parser.perror (Parser.mk [] 0 [] (-1)) "a") "b").errors =
        (Parser.perror (Parser.mk [] 0 [] (-1)) "a").errors)
    ∧ ((Parser.parse []).2.length ≤ ([] : List Token).length + 1) :=
  ⟨C7_error_dedup.1 (Parser.mk [] 0 [] 0) "m" (by decide),
   C7_error_dedup.2.1 (Parser.mk [] 0 [] (-1)) "a" "b",
   C7_error_dedup.2.2 []⟩

set_option maxHeartbeats 16000000 in
/-- C8: `visit_ctrl_flow` reports a context error for 'resist' exactly when
both the inside-loop and inside-switch flags are false, and for 'flow'
exactly when the inside-loop flag is false; loop and switch visitors set
their flag and restore the previous value on exit (so a 'flow' inside a
switch but outside any loop is still an error), confirmed end-to-end. -/
theorem C8_ctrl_flow_flags :
    (∀ s : SState,
      (visit_ctrl_flow s (ASTNode.mk "ctrl_flow" [] (some "resist"))).errors =
        (if s.in_loop = false ∧ s.in_switch = false then
          s.errors ++ [SemanticError.mk
            "'resist' (break) must be inside a loop or stream (switch)"
            (s.get_location "resist").1 (s.get_location "resist").2]
        else s.errors))
    ∧ (∀ s : SState,
      (visit_ctrl_flow s (ASTNode.mk "ctrl_flow" [] (some "flow"))).errors =
        (if s.in_loop = false then
          s.errors ++ [SemanticError.mk "'flow' (continue) must be inside a loop"
            (s.get_location "flow").1 (s.get_location "flow").2]
        else s.errors))
    ∧ (∀ (fuel : Nat) (s : SState) (node : ASTNode),
        ((semFns (fuel + 1)).visit_while_loop s node).in_loop = s.in_loop)
    ∧ (∀ (fuel : Nat) (s : SState) (node : ASTNode),
        ((semFns (fuel + 1)).visit_switch_stat s node).in_switch = s.in_switch)
    ∧ (∀ (fuel : Nat) (s : SState),
        ((semFns (fuel + 2)).visit_while_loop s
          (ASTNode.mk "while_loop"
            [Child.node (ASTNode.mk "ctrl_flow" [] (some "flow"))] none)).errors = s.errors)
    ∧ ((semFns 5).visit_switch_stat (initState [])
        (ASTNode.mk "switch_stat" [Child.node (ASTNode.mk "switch_def"
          [Child.node (ASTNode.mk "ctrl_flow" [] (some "flow"))] none)] none)).errors =
        [SemanticError.mk "'flow' (continue) must be inside a loop" 0 0]
    ∧ ((semFns 5).visit_switch_stat { initState [] with in_loop := true }
        (ASTNode.mk "switch_stat" [Child.node (ASTNode.mk "switch_def"
          [Child.node (ASTNode.mk "ctrl_flow" [] (some "flow"))] none)] none)).errors = []
    ∧ ((semFns 5).visit_switch_stat (initState [])
        (ASTNode.mk "switch_stat" [Child.node (ASTNode.mk "switch_def"
          [Child.node (ASTNode.mk "ctrl_flow" [] (some "resist"))] none)] none)).errors = []
    ∧ analyze (Parser.parse (tokenize
        "atmosphere() \x7b if (yuh) \x7b flow~ \x7d \x7d")).1
        (tokenize "atmosphere() \x7b if (yuh) \x7b flow~ \x7d \x7d") =
        [SemanticError.mk "'flow' (continue) must be inside a loop" 1 27]
    ∧ analyze (Parser.parse (tokenize
        "atmosphere() \x7b cycle (yuh) \x7b if (yuh) \x7b flow~ \x7d \x7d \x7d")).1
        (tokenize "atmosphere() \x7b cycle (yuh) \x7b if (yuh) \x7b flow~ \x7d \x7d \x7d") = []
    ∧ analyze (Parser.parse (tokenize
        "atmosphere() \x7b if (yuh) \x7b resist~ \x7d \x7d")).1
        (tokenize "atmosphere() \x7b if (yuh) \x7b resist~ \x7d \x7d") =
        [SemanticError.mk "'resist' (break) must be inside a loop or stream (switch)" 1 27] := by
  refine ⟨ctrl_flow_resist_errors, ctrl_flow_flow_errors, while_loop_restores_in_loop,
    switch_stat_restores_in_switch, while_flow_ok,
    switch_flag_concrete.1, switch_flag_concrete.2.1, switch_flag_concrete.2.2,
    ?_, ?_, ?_⟩ <;> decide

set_option maxHeartbeats 16000000 in
/-- C9: a `-` whose nearest preceding non-whitespace character is
alphanumeric or a closing bracket is lexed as a binary operator token (one
step appends exactly the `-` token); otherwise, when `td_number` succeeds,
the step defers to it and the sign is folded into the numeric literal.
Concretely `x-1` contains a `-` operator token while `(-1)` yields a single
int_lit with value `-1`. -/
theorem C9_minus_disambiguation :
    tokenize "x-1" =
      [Token.mk "id1" "x" 1 1, Token.mk "-" "-" 1 2, Token.mk "int_lit" "1" 1 3]
    ∧ tokenize "(-1)" =
        [Token.mk "(" "(" 1 2, Token.mk "int_lit" "-1" 1 2, Token.mk ")" ")" 1 5]
    ∧ (∀ s : Lexer, s.peek = some '-' →
        (oTruthy (s.peek_backwards 1 true) ∧
          (oIsAlnum (s.peek_backwards 1 true) ∨
           oMem (s.peek_backwards 1 true) [')', ']', '\x7d'])) →
        oIsDigit (s.peek 1) = true →
        s.tokenizeStep.tokens = s.tokens ++ [Token.mk "-" "-" s.line s.column])
    ∧ (∀ s : Lexer, s.peek = some '-' →
        ¬ (oTruthy (s.peek_backwards 1 true) ∧
          (oIsAlnum (s.peek_backwards 1 true) ∨
           oMem (s.peek_backwards 1 true) [')', ']', '\x7d'])) →
        (s.td_number).1 = true →
        s.tokenizeStep = (s.td_number).2) :=
  ⟨by decide, by decide, step_minus_operator, step_minus_number⟩

theorem C9_minus_disambiguation_witness :
    ((Lexer.mk "x-1".data 1 1 2 [] 0 []).tokenizeStep.tokens =
      (Lexer.mk "x-1".data 1 1 2 [] 0 []).tokens ++ [Token.mk "-" "-" 1 2])
    ∧ ((Lexer.mk "(-1)".data 1 1 2 [] 0 []).tokenizeStep =
        ((Lexer.mk "(-1)".data 1 1 2 [] 0 []).td_number).2) :=
  ⟨C9_minus_disambiguation.2.2.1 (Lexer.mk "x-1".data 1 1 2 [] 0 [])
      (by decide) (by decide) (by decide),
   C9_minus_disambiguation.2.2.2 (Lexer.mk "(-1)".data 1 1 2 [] 0 [])
      (by decide) (by decide) (by decide)⟩

set_option maxHeartbeats 16000000 in
/-- C10: the source `"a" ""` contains a well-formed empty string literal
whose closing quote is followed by a valid delimiter while a string_lit
token is among the last five emitted tokens — the empty literal is silently
dropped (neither a string_lit nor an ERROR token appears for it), whereas
the non-empty literal `"b"` in the same position is emitted. -/
theorem C10_empty_string_literal_dropped :
    tokenize "\"a\" \"\"" = [Token.mk "string_lit" "\"a\"" 1 1]
    ∧ tokenize "\"a\" \"b\"" =
        [Token.mk "string_lit" "\"a\"" 1 1, Token.mk "string_lit" "\"b\"" 1 5] := by
  refine ⟨?_, ?_⟩ <;> decide

end OxC
